import Mathlib

/-!
# pulsar: the persistence model of `server/models.go`

`models.go` declares 25 Go structs whose fields carry `gorm` and `json` struct
tags, and embeds (inside six of those tags) the SQL `CREATE TABLE` statements
of the 25 tables the structs stand for.  This development embeds

* the raw text of every struct tag, line by line as it stands in the source,
* the tag reader every consumer of those tags goes through
  (`reflect.StructTag.Lookup` with `strconv.Unquote`),
* the table definitions, as data parsed from the embedded SQL text,
* database states and what it means for a state to satisfy the declared
  constraints (PRIMARY KEY, UNIQUE, NOT NULL, REFERENCES, column types).
-/

namespace Pulsar

/-! ## Struct tags -/

/-- Skipping of leading spaces, the first inner loop of `StructTag.Lookup`. -/
def skipSpaces : List Char → List Char
  | [] => []
  | c :: cs => if c = ' ' then skipSpaces cs else c :: cs

/-- Characters a tag key may consist of: `tag[i] > ' ' && tag[i] != ':' &&
tag[i] != '"' && tag[i] != 0x7f`. -/
def isKeyChar (c : Char) : Bool :=
  decide (32 < c.toNat) && c != ':' && c != '"' && c.toNat != 127

/-- Scan to the colon (`for i < len(tag) && tag[i] > ' ' && ...  i++`): the
characters passed so far are collected in `acc`, last first; the result is the
longest run of key characters and what follows it. -/
def scanKey : List Char → List Char → List Char × List Char
  | acc, [] => (acc.reverse, [])
  | acc, c :: cs => if isKeyChar c then scanKey (c :: acc) cs else (acc.reverse, c :: cs)

/-- Scan of the quoted value, started right after the opening quote
(`for i < len(tag) && tag[i] != '"' { if tag[i] == '\\' { i++ }; i++ }`): a
backslash skips the character after it, the first other `"` closes.  Returns
the text between the quotes and the text after the closing quote; `none` when
the tag ends before a closing quote (`i >= len(tag)`). -/
def scanQuoted : List Char → List Char → Option (List Char × List Char)
  | _, [] => none
  | acc, c :: cs =>
    if c = '"' then some (acc.reverse, cs)
    else if c = '\\' then
      match cs with
      | [] => none
      | d :: ds => scanQuoted (d :: c :: acc) ds
    else scanQuoted (c :: acc) cs

/-- Value of a hexadecimal digit (`unhex` of `strconv`). -/
def unhex (c : Char) : Option Nat :=
  if 48 ≤ c.toNat ∧ c.toNat ≤ 57 then some (c.toNat - 48)
  else if 97 ≤ c.toNat ∧ c.toNat ≤ 102 then some (c.toNat - 97 + 10)
  else if 65 ≤ c.toNat ∧ c.toNat ≤ 70 then some (c.toNat - 65 + 10)
  else none

/-- Value of a run of hexadecimal digits, `v = v<<4 | x` digit by digit. -/
def hexValue : List Char → Nat → Option Nat
  | [], v => some v
  | c :: cs, v => (unhex c).bind fun x => hexValue cs (v * 16 + x)

/-- Value of a run of octal digits, `v = (v << 3) | x` digit by digit. -/
def octValue : List Char → Nat → Option Nat
  | [], v => some v
  | c :: cs, v =>
    if 48 ≤ c.toNat ∧ c.toNat ≤ 55 then octValue cs (v * 8 + (c.toNat - 48)) else none

/-- Range check of `utf8.ValidRune`: at most U+10FFFF and not a surrogate. -/
def validRune (v : Nat) : Bool :=
  decide (v < 55296) || (decide (57343 < v) && decide (v ≤ 1114111))

/-- The character an escape `\e` of one letter stands for in
`strconv.UnquoteChar` with `quote = '"'`; `none` for every other `e`, among
them the single quote (`case '\'', '"': if c != quote { err = ErrSyntax }`). -/
def simpleEscape (e : Char) : Option Char :=
  if e = 'a' then some (Char.ofNat 7)
  else if e = 'b' then some (Char.ofNat 8)
  else if e = 'f' then some (Char.ofNat 12)
  else if e = 'n' then some (Char.ofNat 10)
  else if e = 'r' then some (Char.ofNat 13)
  else if e = 't' then some (Char.ofNat 9)
  else if e = 'v' then some (Char.ofNat 11)
  else if e = '\\' then some '\\'
  else if e = '"' then some '"'
  else none

/-- The body of `strconv.Unquote` for a double-quoted literal, run on the text
between the two quotes; `acc` holds the unquoted characters so far, last
first.  A raw newline is a syntax error, so is a `"` that is not escaped; a
backslash starts an escape as in `strconv.UnquoteChar`.  `none` stands for
`ErrSyntax`.  A byte written as `\x..` or in octal is kept as the character
with that code. -/
def unquoteChars : List Char → List Char → Option (List Char)
  | acc, [] => some acc.reverse
  | acc, c :: cs =>
    if c = '\n' then none
    else if c = '"' then none
    else if c ≠ '\\' then unquoteChars (c :: acc) cs
    else
      match cs with
      | [] => none
      | e :: es =>
        match simpleEscape e with
        | some r => unquoteChars (r :: acc) es
        | none =>
          if e = 'x' then
            match es with
            | h1 :: h2 :: rest =>
              match hexValue [h1, h2] 0 with
              | some v => unquoteChars (Char.ofNat v :: acc) rest
              | none => none
            | _ => none
          else if e = 'u' then
            match es with
            | h1 :: h2 :: h3 :: h4 :: rest =>
              match hexValue [h1, h2, h3, h4] 0 with
              | some v => if validRune v then unquoteChars (Char.ofNat v :: acc) rest else none
              | none => none
            | _ => none
          else if e = 'U' then
            match es with
            | h1 :: h2 :: h3 :: h4 :: h5 :: h6 :: h7 :: h8 :: rest =>
              match hexValue [h1, h2, h3, h4, h5, h6, h7, h8] 0 with
              | some v => if validRune v then unquoteChars (Char.ofNat v :: acc) rest else none
              | none => none
            | _ => none
          else if 48 ≤ e.toNat ∧ e.toNat ≤ 55 then
            match es with
            | o2 :: o3 :: rest =>
              match octValue [o2, o3] (e.toNat - 48) with
              | some v => if v ≤ 255 then unquoteChars (Char.ofNat v :: acc) rest else none
              | none => none
            | _ => none
          else none

/-- The loop of `reflect.StructTag.Lookup` on the characters of the tag.  Each
round consumes one `key:"value"` pair of the tag and one element of `fuel`, so
a `fuel` longer than the tag is never used up.  With `unq = true` the value
found is passed through `strconv.Unquote`, as `Lookup` does; with
`unq = false` it is returned as written between the quotes.  `none` is the
`("", false)` result. -/
def lookupLoop (unq : Bool) : List Char → List Char → List Char → Option (List Char)
  | [], _, _ => none
  | _ :: fuel, tag, key =>
    match skipSpaces tag with
    | [] => none
    | t :: ts =>
      match scanKey [] (t :: ts) with
      | ([], _) => none
      | (name, c1 :: c2 :: rest) =>
        if c1 = ':' ∧ c2 = '"' then
          match scanQuoted [] rest with
          | none => none
          | some (qvalue, tail) =>
            if key = name then (if unq then unquoteChars [] qvalue else some qvalue)
            else lookupLoop unq fuel tail key
        else none
      | (_, _) => none

/-- Go's `reflect.StructTag.Lookup(key)`: the value of `key` in a struct tag
written in the conventional `key:"value"` format, `none` when the key is not
found or the tag is malformed up to it. -/
def Lookup (tag key : String) : Option String :=
  (lookupLoop true (' ' :: tag.toList) tag.toList key.toList).map String.mk

/-- The text written between the quotes after `key:` in a tag: the scan of
`Lookup` without the final `strconv.Unquote`. -/
def rawValue (tag key : String) : Option String :=
  (lookupLoop false (' ' :: tag.toList) tag.toList key.toList).map String.mk

/-! ## Struct declarations -/

/-- The Go types the fields of models.go have: `string`, `bool`, `int`,
`pq.StringArray`, `sql.NullString`, `sql.NullTime`, `sql.NullFloat64`,
`time.Time` and `[]byte`. -/
inductive GoType
  | string
  | bool
  | int
  | stringArray
  | nullString
  | nullTime
  | nullFloat64
  | time
  | bytes
  deriving DecidableEq, Repr

/-- One field of a struct: its Go name, its type and the raw text of its tag
(what stands between the two backquotes). -/
structure StructField where
  name : String
  type : GoType
  tag : String
  deriving DecidableEq, Repr

/-- One `type X struct` declaration with the comment line above it. -/
structure StructDecl where
  name : String
  comment : String
  fields : List StructField
  deriving DecidableEq, Repr

/-- The text of consecutive source lines: the lines with a newline between
each two. -/
def joinLines : List String → List Char
  | [] => []
  | [l] => l.toList
  | l :: ls => l.toList ++ '\n' :: joinLines ls

/-! ## The multi-line tags of models.go -/

/-- Lines 22..239 of models.go: the raw tag of User.ResourceType, one entry per source line. -/
def User_ResourceType_tagLines : List String := [
  "gorm:\"default:",
  "",
  "-- Tabela workspaces",
  "CREATE TABLE workspaces (",
  "    gid VARCHAR(255) PRIMARY KEY,",
  "    resource_type VARCHAR(255) NOT NULL DEFAULT 'workspace',",
  "    name VARCHAR(255) NOT NULL,",
  "    is_organization BOOLEAN NOT NULL DEFAULT FALSE,",
  "    email_domains TEXT[]",
  ");",
  "",
  "-- Tabela users",
  "CREATE TABLE users (",
  "    gid VARCHAR(255) PRIMARY KEY,",
  "    resource_type VARCHAR(255) NOT NULL DEFAULT 'user',",
  "    name VARCHAR(255) NOT NULL,",
  "    email VARCHAR(255) UNIQUE NOT NULL,",
  "    photo VARCHAR(255)",
  ");",
  "",
  "-- Tabela teams",
  "CREATE TABLE teams (",
  "    gid VARCHAR(255) PRIMARY KEY,",
  "    resource_type VARCHAR(255) NOT NULL DEFAULT 'team',",
  "    name VARCHAR(255) NOT NULL,",
  "    description TEXT,",
  "    organization_gid VARCHAR(255) REFERENCES workspaces(gid)",
  ");",
  "",
  "-- Tabela projects",
  "CREATE TABLE projects (",
  "    gid VARCHAR(255) PRIMARY KEY,",
  "    resource_type VARCHAR(255) NOT NULL DEFAULT 'project',",
  "    name VARCHAR(255) NOT NULL,",
  "    owner_gid VARCHAR(255) REFERENCES users(gid),",
  "    team_gid VARCHAR(255) REFERENCES teams(gid) NULL,",
  "    workspace_gid VARCHAR(255) REFERENCES workspaces(gid) NOT NULL,",
  "    default_view VARCHAR(255) NOT NULL DEFAULT 'list',",
  "    color VARCHAR(255),",
  "    privacy_setting VARCHAR(255),",
  "    due_on DATE,",
  "    start_on DATE",
  ");",
  "",
  "-- Tabela sections",
  "CREATE TABLE sections (",
  "    gid VARCHAR(255) PRIMARY KEY,",
  "    resource_type VARCHAR(255) NOT NULL DEFAULT 'section',",
  "    name VARCHAR(255) NOT NULL,",
  "    project_gid VARCHAR(255) REFERENCES projects(gid)",
  ");",
  "",
  "-- Tabela tasks",
  "CREATE TABLE tasks (",
  "    gid VARCHAR(255) PRIMARY KEY,",
  "    resource_type VARCHAR(255) NOT NULL DEFAULT 'task',",
  "    name VARCHAR(255) NOT NULL,",
  "    notes TEXT,",
  "    assignee_gid VARCHAR(255) REFERENCES users(gid) NULL,",
  "    completed BOOLEAN NOT NULL DEFAULT FALSE,",
  "    due_on DATE NULL,",
  "    start_on DATE NULL,",
  "    parent_gid VARCHAR(255) REFERENCES tasks(gid) NULL,",
  "    workspace_gid VARCHAR(255) REFERENCES workspaces(gid) NOT NULL,",
  "    created_at TIMESTAMP WITH TIME ZONE DEFAULT CURRENT_TIMESTAMP,",
  "    modified_at TIMESTAMP WITH TIME ZONE DEFAULT CURRENT_TIMESTAMP,",
  "    completed_at TIMESTAMP WITH TIME ZONE NULL,",
  "    resource_subtype VARCHAR(255)",
  ");",
  "",
  "-- Tabela portfolios",
  "CREATE TABLE portfolios (",
  "    gid VARCHAR(255) PRIMARY KEY,",
  "    name VARCHAR(255) NOT NULL,",
  "    owner_gid VARCHAR(255) REFERENCES users(gid)",
  ");",
  "",
  "-- Tabela goals",
  "CREATE TABLE goals (",
  "    gid VARCHAR(255) PRIMARY KEY,",
  "    name VARCHAR(255) NOT NULL,",
  "    owner_gid VARCHAR(255) REFERENCES users(gid),",
  "    time_period_gid VARCHAR(255),",
  "    metric JSONB",
  ");",
  "",
  "-- Tabela de junção project_tasks (multi-homing)",
  "CREATE TABLE project_tasks (",
  "    project_gid VARCHAR(255) REFERENCES projects(gid),",
  "    task_gid VARCHAR(255) REFERENCES tasks(gid),",
  "    PRIMARY KEY (project_gid, task_gid)",
  ");",
  "",
  "-- Tabela de junção task_dependencies",
  "CREATE TABLE task_dependencies (",
  "    blocking_task_gid VARCHAR(255) REFERENCES tasks(gid),",
  "    blocked_task_gid VARCHAR(255) REFERENCES tasks(gid),",
  "    PRIMARY KEY (blocking_task_gid, blocked_task_gid)",
  ");",
  "",
  "-- Tabela de junção task_followers",
  "CREATE TABLE task_followers (",
  "    task_gid VARCHAR(255) REFERENCES tasks(gid),",
  "    user_gid VARCHAR(255) REFERENCES users(gid),",
  "    PRIMARY KEY (task_gid, user_gid)",
  ");",
  "",
  "-- Tabela de junção task_tags (assumindo que tags terão uma tabela própria)",
  "CREATE TABLE tags (",
  "    gid VARCHAR(255) PRIMARY KEY,",
  "    name VARCHAR(255) UNIQUE NOT NULL",
  ");",
  "",
  "CREATE TABLE task_tags (",
  "    task_gid VARCHAR(255) REFERENCES tasks(gid),",
  "    tag_gid VARCHAR(255) REFERENCES tags(gid),",
  "    PRIMARY KEY (task_gid, tag_gid)",
  ");",
  "",
  "-- Tabela de junção portfolio_projects",
  "CREATE TABLE portfolio_projects (",
  "    portfolio_gid VARCHAR(255) REFERENCES portfolios(gid),",
  "    project_gid VARCHAR(255) REFERENCES projects(gid),",
  "    PRIMARY KEY (portfolio_gid, project_gid)",
  ");",
  "",
  "-- Tabela de junção goal_relationships (para metas hierárquicas)",
  "CREATE TABLE goal_relationships (",
  "    parent_goal_gid VARCHAR(255) REFERENCES goals(gid),",
  "    child_goal_gid VARCHAR(255) REFERENCES goals(gid),",
  "    PRIMARY KEY (parent_goal_gid, child_goal_gid)",
  ");",
  "",
  "-- Tabela custom_fields",
  "CREATE TABLE custom_fields (",
  "    gid VARCHAR(255) PRIMARY KEY,",
  "    name VARCHAR(255) NOT NULL,",
  "    type VARCHAR(255) NOT NULL -- e.g., 'text', 'number', 'enum'",
  ");",
  "",
  "-- Tabela project_custom_fields",
  "CREATE TABLE project_custom_fields (",
  "    project_gid VARCHAR(255) REFERENCES projects(gid),",
  "    custom_field_gid VARCHAR(255) REFERENCES custom_fields(gid),",
  "    PRIMARY KEY (project_gid, custom_field_gid)",
  ");",
  "",
  "-- Tabela task_custom_field_values",
  "CREATE TABLE task_custom_field_values (",
  "    task_gid VARCHAR(255) REFERENCES tasks(gid),",
  "    custom_field_gid VARCHAR(255) REFERENCES custom_fields(gid),",
  "    text_value TEXT NULL,",
  "    number_value NUMERIC NULL,",
  "    enum_option_gid VARCHAR(255) NULL, -- Referência a uma tabela de opções de enum, se necessário",
  "    PRIMARY KEY (task_gid, custom_field_gid)",
  ");",
  "",
  "-- Tabela rules",
  "CREATE TABLE rules (",
  "    gid VARCHAR(255) PRIMARY KEY,",
  "    project_gid VARCHAR(255) REFERENCES projects(gid) NOT NULL,",
  "    trigger_type VARCHAR(255) NOT NULL, -- e.g., 'task.created', 'task.custom_field.changed'",
  "    name VARCHAR(255)",
  ");",
  "",
  "-- Tabela rule_conditions",
  "CREATE TABLE rule_conditions (",
  "    gid VARCHAR(255) PRIMARY KEY,",
  "    rule_gid VARCHAR(255) REFERENCES rules(gid) NOT NULL,",
  "    field VARCHAR(255) NOT NULL,",
  "    operator VARCHAR(255) NOT NULL, -- e.g., '=', '>', '<'",
  "    value TEXT NOT NULL",
  ");",
  "",
  "-- Tabela rule_actions",
  "CREATE TABLE rule_actions (",
  "    gid VARCHAR(255) PRIMARY KEY,",
  "    rule_gid VARCHAR(255) REFERENCES rules(gid) NOT NULL,",
  "    action_type VARCHAR(255) NOT NULL, -- e.g., 'update_task', 'add_comment'",
  "    parameters JSONB -- JSON para parâmetros específicos da ação",
  ");",
  "",
  "-- Tabela audit_log",
  "CREATE TABLE audit_log (",
  "    id SERIAL PRIMARY KEY,",
  "    event_type VARCHAR(255) NOT NULL,",
  "    entity_type VARCHAR(255) NOT NULL,",
  "    entity_gid VARCHAR(255) NOT NULL,",
  "    user_gid VARCHAR(255) REFERENCES users(gid) NULL,",
  "    timestamp TIMESTAMP WITH TIME ZONE DEFAULT CURRENT_TIMESTAMP,",
  "    details JSONB",
  ");",
  "",
  "-- Tabela project_memberships",
  "CREATE TABLE project_memberships (",
  "    project_gid VARCHAR(255) REFERENCES projects(gid),",
  "    user_gid VARCHAR(255) REFERENCES users(gid),",
  "    role VARCHAR(255) NOT NULL, -- e.g., 'owner', 'editor', 'commenter', 'viewer'",
  "    PRIMARY KEY (project_gid, user_gid)",
  ");",
  "",
  "-- Tabela team_memberships",
  "CREATE TABLE team_memberships (",
  "    team_gid VARCHAR(255) REFERENCES teams(gid),",
  "    user_gid VARCHAR(255) REFERENCES users(gid),",
  "    role VARCHAR(255) NOT NULL, -- e.g., 'member', 'admin'",
  "    PRIMARY KEY (team_gid, user_gid)",
  ");",
  "",
  "-- Tabela workspace_memberships (para administradores de workspace)",
  "CREATE TABLE workspace_memberships (",
  "    workspace_gid VARCHAR(255) REFERENCES workspaces(gid),",
  "    user_gid VARCHAR(255) REFERENCES users(gid),",
  "    role VARCHAR(255) NOT NULL, -- e.g., 'member', 'admin'",
  "    PRIMARY KEY (workspace_gid, user_gid)",
  ");",
  "",
  "'\" json:\"resource_type\""
]

/-- Lines 248..465 of models.go: the raw tag of Team.ResourceType, one entry per source line. -/
def Team_ResourceType_tagLines : List String := [
  "gorm:\"default:",
  "",
  "-- Tabela workspaces",
  "CREATE TABLE workspaces (",
  "    gid VARCHAR(255) PRIMARY KEY,",
  "    resource_type VARCHAR(255) NOT NULL DEFAULT 'workspace',",
  "    name VARCHAR(255) NOT NULL,",
  "    is_organization BOOLEAN NOT NULL DEFAULT FALSE,",
  "    email_domains TEXT[]",
  ");",
  "",
  "-- Tabela users",
  "CREATE TABLE users (",
  "    gid VARCHAR(255) PRIMARY KEY,",
  "    resource_type VARCHAR(255) NOT NULL DEFAULT 'user',",
  "    name VARCHAR(255) NOT NULL,",
  "    email VARCHAR(255) UNIQUE NOT NULL,",
  "    photo VARCHAR(255)",
  ");",
  "",
  "-- Tabela teams",
  "CREATE TABLE teams (",
  "    gid VARCHAR(255) PRIMARY KEY,",
  "    resource_type VARCHAR(255) NOT NULL DEFAULT 'team',",
  "    name VARCHAR(255) NOT NULL,",
  "    description TEXT,",
  "    organization_gid VARCHAR(255) REFERENCES workspaces(gid)",
  ");",
  "",
  "-- Tabela projects",
  "CREATE TABLE projects (",
  "    gid VARCHAR(255) PRIMARY KEY,",
  "    resource_type VARCHAR(255) NOT NULL DEFAULT 'project',",
  "    name VARCHAR(255) NOT NULL,",
  "    owner_gid VARCHAR(255) REFERENCES users(gid),",
  "    team_gid VARCHAR(255) REFERENCES teams(gid) NULL,",
  "    workspace_gid VARCHAR(255) REFERENCES workspaces(gid) NOT NULL,",
  "    default_view VARCHAR(255) NOT NULL DEFAULT 'list',",
  "    color VARCHAR(255),",
  "    privacy_setting VARCHAR(255),",
  "    due_on DATE,",
  "    start_on DATE",
  ");",
  "",
  "-- Tabela sections",
  "CREATE TABLE sections (",
  "    gid VARCHAR(255) PRIMARY KEY,",
  "    resource_type VARCHAR(255) NOT NULL DEFAULT 'section',",
  "    name VARCHAR(255) NOT NULL,",
  "    project_gid VARCHAR(255) REFERENCES projects(gid)",
  ");",
  "",
  "-- Tabela tasks",
  "CREATE TABLE tasks (",
  "    gid VARCHAR(255) PRIMARY KEY,",
  "    resource_type VARCHAR(255) NOT NULL DEFAULT 'task',",
  "    name VARCHAR(255) NOT NULL,",
  "    notes TEXT,",
  "    assignee_gid VARCHAR(255) REFERENCES users(gid) NULL,",
  "    completed BOOLEAN NOT NULL DEFAULT FALSE,",
  "    due_on DATE NULL,",
  "    start_on DATE NULL,",
  "    parent_gid VARCHAR(255) REFERENCES tasks(gid) NULL,",
  "    workspace_gid VARCHAR(255) REFERENCES workspaces(gid) NOT NULL,",
  "    created_at TIMESTAMP WITH TIME ZONE DEFAULT CURRENT_TIMESTAMP,",
  "    modified_at TIMESTAMP WITH TIME ZONE DEFAULT CURRENT_TIMESTAMP,",
  "    completed_at TIMESTAMP WITH TIME ZONE NULL,",
  "    resource_subtype VARCHAR(255)",
  ");",
  "",
  "-- Tabela portfolios",
  "CREATE TABLE portfolios (",
  "    gid VARCHAR(255) PRIMARY KEY,",
  "    name VARCHAR(255) NOT NULL,",
  "    owner_gid VARCHAR(255) REFERENCES users(gid)",
  ");",
  "",
  "-- Tabela goals",
  "CREATE TABLE goals (",
  "    gid VARCHAR(255) PRIMARY KEY,",
  "    name VARCHAR(255) NOT NULL,",
  "    owner_gid VARCHAR(255) REFERENCES users(gid),",
  "    time_period_gid VARCHAR(255),",
  "    metric JSONB",
  ");",
  "",
  "-- Tabela de junção project_tasks (multi-homing)",
  "CREATE TABLE project_tasks (",
  "    project_gid VARCHAR(255) REFERENCES projects(gid),",
  "    task_gid VARCHAR(255) REFERENCES tasks(gid),",
  "    PRIMARY KEY (project_gid, task_gid)",
  ");",
  "",
  "-- Tabela de junção task_dependencies",
  "CREATE TABLE task_dependencies (",
  "    blocking_task_gid VARCHAR(255) REFERENCES tasks(gid),",
  "    blocked_task_gid VARCHAR(255) REFERENCES tasks(gid),",
  "    PRIMARY KEY (blocking_task_gid, blocked_task_gid)",
  ");",
  "",
  "-- Tabela de junção task_followers",
  "CREATE TABLE task_followers (",
  "    task_gid VARCHAR(255) REFERENCES tasks(gid),",
  "    user_gid VARCHAR(255) REFERENCES users(gid),",
  "    PRIMARY KEY (task_gid, user_gid)",
  ");",
  "",
  "-- Tabela de junção task_tags (assumindo que tags terão uma tabela própria)",
  "CREATE TABLE tags (",
  "    gid VARCHAR(255) PRIMARY KEY,",
  "    name VARCHAR(255) UNIQUE NOT NULL",
  ");",
  "",
  "CREATE TABLE task_tags (",
  "    task_gid VARCHAR(255) REFERENCES tasks(gid),",
  "    tag_gid VARCHAR(255) REFERENCES tags(gid),",
  "    PRIMARY KEY (task_gid, tag_gid)",
  ");",
  "",
  "-- Tabela de junção portfolio_projects",
  "CREATE TABLE portfolio_projects (",
  "    portfolio_gid VARCHAR(255) REFERENCES portfolios(gid),",
  "    project_gid VARCHAR(255) REFERENCES projects(gid),",
  "    PRIMARY KEY (portfolio_gid, project_gid)",
  ");",
  "",
  "-- Tabela de junção goal_relationships (para metas hierárquicas)",
  "CREATE TABLE goal_relationships (",
  "    parent_goal_gid VARCHAR(255) REFERENCES goals(gid),",
  "    child_goal_gid VARCHAR(255) REFERENCES goals(gid),",
  "    PRIMARY KEY (parent_goal_gid, child_goal_gid)",
  ");",
  "",
  "-- Tabela custom_fields",
  "CREATE TABLE custom_fields (",
  "    gid VARCHAR(255) PRIMARY KEY,",
  "    name VARCHAR(255) NOT NULL,",
  "    type VARCHAR(255) NOT NULL -- e.g., 'text', 'number', 'enum'",
  ");",
  "",
  "-- Tabela project_custom_fields",
  "CREATE TABLE project_custom_fields (",
  "    project_gid VARCHAR(255) REFERENCES projects(gid),",
  "    custom_field_gid VARCHAR(255) REFERENCES custom_fields(gid),",
  "    PRIMARY KEY (project_gid, custom_field_gid)",
  ");",
  "",
  "-- Tabela task_custom_field_values",
  "CREATE TABLE task_custom_field_values (",
  "    task_gid VARCHAR(255) REFERENCES tasks(gid),",
  "    custom_field_gid VARCHAR(255) REFERENCES custom_fields(gid),",
  "    text_value TEXT NULL,",
  "    number_value NUMERIC NULL,",
  "    enum_option_gid VARCHAR(255) NULL, -- Referência a uma tabela de opções de enum, se necessário",
  "    PRIMARY KEY (task_gid, custom_field_gid)",
  ");",
  "",
  "-- Tabela rules",
  "CREATE TABLE rules (",
  "    gid VARCHAR(255) PRIMARY KEY,",
  "    project_gid VARCHAR(255) REFERENCES projects(gid) NOT NULL,",
  "    trigger_type VARCHAR(255) NOT NULL, -- e.g., 'task.created', 'task.custom_field.changed'",
  "    name VARCHAR(255)",
  ");",
  "",
  "-- Tabela rule_conditions",
  "CREATE TABLE rule_conditions (",
  "    gid VARCHAR(255) PRIMARY KEY,",
  "    rule_gid VARCHAR(255) REFERENCES rules(gid) NOT NULL,",
  "    field VARCHAR(255) NOT NULL,",
  "    operator VARCHAR(255) NOT NULL, -- e.g., '=', '>', '<'",
  "    value TEXT NOT NULL",
  ");",
  "",
  "-- Tabela rule_actions",
  "CREATE TABLE rule_actions (",
  "    gid VARCHAR(255) PRIMARY KEY,",
  "    rule_gid VARCHAR(255) REFERENCES rules(gid) NOT NULL,",
  "    action_type VARCHAR(255) NOT NULL, -- e.g., 'update_task', 'add_comment'",
  "    parameters JSONB -- JSON para parâmetros específicos da ação",
  ");",
  "",
  "-- Tabela audit_log",
  "CREATE TABLE audit_log (",
  "    id SERIAL PRIMARY KEY,",
  "    event_type VARCHAR(255) NOT NULL,",
  "    entity_type VARCHAR(255) NOT NULL,",
  "    entity_gid VARCHAR(255) NOT NULL,",
  "    user_gid VARCHAR(255) REFERENCES users(gid) NULL,",
  "    timestamp TIMESTAMP WITH TIME ZONE DEFAULT CURRENT_TIMESTAMP,",
  "    details JSONB",
  ");",
  "",
  "-- Tabela project_memberships",
  "CREATE TABLE project_memberships (",
  "    project_gid VARCHAR(255) REFERENCES projects(gid),",
  "    user_gid VARCHAR(255) REFERENCES users(gid),",
  "    role VARCHAR(255) NOT NULL, -- e.g., 'owner', 'editor', 'commenter', 'viewer'",
  "    PRIMARY KEY (project_gid, user_gid)",
  ");",
  "",
  "-- Tabela team_memberships",
  "CREATE TABLE team_memberships (",
  "    team_gid VARCHAR(255) REFERENCES teams(gid),",
  "    user_gid VARCHAR(255) REFERENCES users(gid),",
  "    role VARCHAR(255) NOT NULL, -- e.g., 'member', 'admin'",
  "    PRIMARY KEY (team_gid, user_gid)",
  ");",
  "",
  "-- Tabela workspace_memberships (para administradores de workspace)",
  "CREATE TABLE workspace_memberships (",
  "    workspace_gid VARCHAR(255) REFERENCES workspaces(gid),",
  "    user_gid VARCHAR(255) REFERENCES users(gid),",
  "    role VARCHAR(255) NOT NULL, -- e.g., 'member', 'admin'",
  "    PRIMARY KEY (workspace_gid, user_gid)",
  ");",
  "",
  "'\" json:\"resource_type\""
]

/-- Lines 474..691 of models.go: the raw tag of Project.ResourceType, one entry per source line. -/
def Project_ResourceType_tagLines : List String := [
  "gorm:\"default:",
  "",
  "-- Tabela workspaces",
  "CREATE TABLE workspaces (",
  "    gid VARCHAR(255) PRIMARY KEY,",
  "    resource_type VARCHAR(255) NOT NULL DEFAULT 'workspace',",
  "    name VARCHAR(255) NOT NULL,",
  "    is_organization BOOLEAN NOT NULL DEFAULT FALSE,",
  "    email_domains TEXT[]",
  ");",
  "",
  "-- Tabela users",
  "CREATE TABLE users (",
  "    gid VARCHAR(255) PRIMARY KEY,",
  "    resource_type VARCHAR(255) NOT NULL DEFAULT 'user',",
  "    name VARCHAR(255) NOT NULL,",
  "    email VARCHAR(255) UNIQUE NOT NULL,",
  "    photo VARCHAR(255)",
  ");",
  "",
  "-- Tabela teams",
  "CREATE TABLE teams (",
  "    gid VARCHAR(255) PRIMARY KEY,",
  "    resource_type VARCHAR(255) NOT NULL DEFAULT 'team',",
  "    name VARCHAR(255) NOT NULL,",
  "    description TEXT,",
  "    organization_gid VARCHAR(255) REFERENCES workspaces(gid)",
  ");",
  "",
  "-- Tabela projects",
  "CREATE TABLE projects (",
  "    gid VARCHAR(255) PRIMARY KEY,",
  "    resource_type VARCHAR(255) NOT NULL DEFAULT 'project',",
  "    name VARCHAR(255) NOT NULL,",
  "    owner_gid VARCHAR(255) REFERENCES users(gid),",
  "    team_gid VARCHAR(255) REFERENCES teams(gid) NULL,",
  "    workspace_gid VARCHAR(255) REFERENCES workspaces(gid) NOT NULL,",
  "    default_view VARCHAR(255) NOT NULL DEFAULT 'list',",
  "    color VARCHAR(255),",
  "    privacy_setting VARCHAR(255),",
  "    due_on DATE,",
  "    start_on DATE",
  ");",
  "",
  "-- Tabela sections",
  "CREATE TABLE sections (",
  "    gid VARCHAR(255) PRIMARY KEY,",
  "    resource_type VARCHAR(255) NOT NULL DEFAULT 'section',",
  "    name VARCHAR(255) NOT NULL,",
  "    project_gid VARCHAR(255) REFERENCES projects(gid)",
  ");",
  "",
  "-- Tabela tasks",
  "CREATE TABLE tasks (",
  "    gid VARCHAR(255) PRIMARY KEY,",
  "    resource_type VARCHAR(255) NOT NULL DEFAULT 'task',",
  "    name VARCHAR(255) NOT NULL,",
  "    notes TEXT,",
  "    assignee_gid VARCHAR(255) REFERENCES users(gid) NULL,",
  "    completed BOOLEAN NOT NULL DEFAULT FALSE,",
  "    due_on DATE NULL,",
  "    start_on DATE NULL,",
  "    parent_gid VARCHAR(255) REFERENCES tasks(gid) NULL,",
  "    workspace_gid VARCHAR(255) REFERENCES workspaces(gid) NOT NULL,",
  "    created_at TIMESTAMP WITH TIME ZONE DEFAULT CURRENT_TIMESTAMP,",
  "    modified_at TIMESTAMP WITH TIME ZONE DEFAULT CURRENT_TIMESTAMP,",
  "    completed_at TIMESTAMP WITH TIME ZONE NULL,",
  "    resource_subtype VARCHAR(255)",
  ");",
  "",
  "-- Tabela portfolios",
  "CREATE TABLE portfolios (",
  "    gid VARCHAR(255) PRIMARY KEY,",
  "    name VARCHAR(255) NOT NULL,",
  "    owner_gid VARCHAR(255) REFERENCES users(gid)",
  ");",
  "",
  "-- Tabela goals",
  "CREATE TABLE goals (",
  "    gid VARCHAR(255) PRIMARY KEY,",
  "    name VARCHAR(255) NOT NULL,",
  "    owner_gid VARCHAR(255) REFERENCES users(gid),",
  "    time_period_gid VARCHAR(255),",
  "    metric JSONB",
  ");",
  "",
  "-- Tabela de junção project_tasks (multi-homing)",
  "CREATE TABLE project_tasks (",
  "    project_gid VARCHAR(255) REFERENCES projects(gid),",
  "    task_gid VARCHAR(255) REFERENCES tasks(gid),",
  "    PRIMARY KEY (project_gid, task_gid)",
  ");",
  "",
  "-- Tabela de junção task_dependencies",
  "CREATE TABLE task_dependencies (",
  "    blocking_task_gid VARCHAR(255) REFERENCES tasks(gid),",
  "    blocked_task_gid VARCHAR(255) REFERENCES tasks(gid),",
  "    PRIMARY KEY (blocking_task_gid, blocked_task_gid)",
  ");",
  "",
  "-- Tabela de junção task_followers",
  "CREATE TABLE task_followers (",
  "    task_gid VARCHAR(255) REFERENCES tasks(gid),",
  "    user_gid VARCHAR(255) REFERENCES users(gid),",
  "    PRIMARY KEY (task_gid, user_gid)",
  ");",
  "",
  "-- Tabela de junção task_tags (assumindo que tags terão uma tabela própria)",
  "CREATE TABLE tags (",
  "    gid VARCHAR(255) PRIMARY KEY,",
  "    name VARCHAR(255) UNIQUE NOT NULL",
  ");",
  "",
  "CREATE TABLE task_tags (",
  "    task_gid VARCHAR(255) REFERENCES tasks(gid),",
  "    tag_gid VARCHAR(255) REFERENCES tags(gid),",
  "    PRIMARY KEY (task_gid, tag_gid)",
  ");",
  "",
  "-- Tabela de junção portfolio_projects",
  "CREATE TABLE portfolio_projects (",
  "    portfolio_gid VARCHAR(255) REFERENCES portfolios(gid),",
  "    project_gid VARCHAR(255) REFERENCES projects(gid),",
  "    PRIMARY KEY (portfolio_gid, project_gid)",
  ");",
  "",
  "-- Tabela de junção goal_relationships (para metas hierárquicas)",
  "CREATE TABLE goal_relationships (",
  "    parent_goal_gid VARCHAR(255) REFERENCES goals(gid),",
  "    child_goal_gid VARCHAR(255) REFERENCES goals(gid),",
  "    PRIMARY KEY (parent_goal_gid, child_goal_gid)",
  ");",
  "",
  "-- Tabela custom_fields",
  "CREATE TABLE custom_fields (",
  "    gid VARCHAR(255) PRIMARY KEY,",
  "    name VARCHAR(255) NOT NULL,",
  "    type VARCHAR(255) NOT NULL -- e.g., 'text', 'number', 'enum'",
  ");",
  "",
  "-- Tabela project_custom_fields",
  "CREATE TABLE project_custom_fields (",
  "    project_gid VARCHAR(255) REFERENCES projects(gid),",
  "    custom_field_gid VARCHAR(255) REFERENCES custom_fields(gid),",
  "    PRIMARY KEY (project_gid, custom_field_gid)",
  ");",
  "",
  "-- Tabela task_custom_field_values",
  "CREATE TABLE task_custom_field_values (",
  "    task_gid VARCHAR(255) REFERENCES tasks(gid),",
  "    custom_field_gid VARCHAR(255) REFERENCES custom_fields(gid),",
  "    text_value TEXT NULL,",
  "    number_value NUMERIC NULL,",
  "    enum_option_gid VARCHAR(255) NULL, -- Referência a uma tabela de opções de enum, se necessário",
  "    PRIMARY KEY (task_gid, custom_field_gid)",
  ");",
  "",
  "-- Tabela rules",
  "CREATE TABLE rules (",
  "    gid VARCHAR(255) PRIMARY KEY,",
  "    project_gid VARCHAR(255) REFERENCES projects(gid) NOT NULL,",
  "    trigger_type VARCHAR(255) NOT NULL, -- e.g., 'task.created', 'task.custom_field.changed'",
  "    name VARCHAR(255)",
  ");",
  "",
  "-- Tabela rule_conditions",
  "CREATE TABLE rule_conditions (",
  "    gid VARCHAR(255) PRIMARY KEY,",
  "    rule_gid VARCHAR(255) REFERENCES rules(gid) NOT NULL,",
  "    field VARCHAR(255) NOT NULL,",
  "    operator VARCHAR(255) NOT NULL, -- e.g., '=', '>', '<'",
  "    value TEXT NOT NULL",
  ");",
  "",
  "-- Tabela rule_actions",
  "CREATE TABLE rule_actions (",
  "    gid VARCHAR(255) PRIMARY KEY,",
  "    rule_gid VARCHAR(255) REFERENCES rules(gid) NOT NULL,",
  "    action_type VARCHAR(255) NOT NULL, -- e.g., 'update_task', 'add_comment'",
  "    parameters JSONB -- JSON para parâmetros específicos da ação",
  ");",
  "",
  "-- Tabela audit_log",
  "CREATE TABLE audit_log (",
  "    id SERIAL PRIMARY KEY,",
  "    event_type VARCHAR(255) NOT NULL,",
  "    entity_type VARCHAR(255) NOT NULL,",
  "    entity_gid VARCHAR(255) NOT NULL,",
  "    user_gid VARCHAR(255) REFERENCES users(gid) NULL,",
  "    timestamp TIMESTAMP WITH TIME ZONE DEFAULT CURRENT_TIMESTAMP,",
  "    details JSONB",
  ");",
  "",
  "-- Tabela project_memberships",
  "CREATE TABLE project_memberships (",
  "    project_gid VARCHAR(255) REFERENCES projects(gid),",
  "    user_gid VARCHAR(255) REFERENCES users(gid),",
  "    role VARCHAR(255) NOT NULL, -- e.g., 'owner', 'editor', 'commenter', 'viewer'",
  "    PRIMARY KEY (project_gid, user_gid)",
  ");",
  "",
  "-- Tabela team_memberships",
  "CREATE TABLE team_memberships (",
  "    team_gid VARCHAR(255) REFERENCES teams(gid),",
  "    user_gid VARCHAR(255) REFERENCES users(gid),",
  "    role VARCHAR(255) NOT NULL, -- e.g., 'member', 'admin'",
  "    PRIMARY KEY (team_gid, user_gid)",
  ");",
  "",
  "-- Tabela workspace_memberships (para administradores de workspace)",
  "CREATE TABLE workspace_memberships (",
  "    workspace_gid VARCHAR(255) REFERENCES workspaces(gid),",
  "    user_gid VARCHAR(255) REFERENCES users(gid),",
  "    role VARCHAR(255) NOT NULL, -- e.g., 'member', 'admin'",
  "    PRIMARY KEY (workspace_gid, user_gid)",
  ");",
  "",
  "'\" json:\"resource_type\""
]

/-- Lines 696..913 of models.go: the raw tag of Project.DefaultView, one entry per source line. -/
def Project_DefaultView_tagLines : List String := [
  "gorm:\"default:",
  "",
  "-- Tabela workspaces",
  "CREATE TABLE workspaces (",
  "    gid VARCHAR(255) PRIMARY KEY,",
  "    resource_type VARCHAR(255) NOT NULL DEFAULT 'workspace',",
  "    name VARCHAR(255) NOT NULL,",
  "    is_organization BOOLEAN NOT NULL DEFAULT FALSE,",
  "    email_domains TEXT[]",
  ");",
  "",
  "-- Tabela users",
  "CREATE TABLE users (",
  "    gid VARCHAR(255) PRIMARY KEY,",
  "    resource_type VARCHAR(255) NOT NULL DEFAULT 'user',",
  "    name VARCHAR(255) NOT NULL,",
  "    email VARCHAR(255) UNIQUE NOT NULL,",
  "    photo VARCHAR(255)",
  ");",
  "",
  "-- Tabela teams",
  "CREATE TABLE teams (",
  "    gid VARCHAR(255) PRIMARY KEY,",
  "    resource_type VARCHAR(255) NOT NULL DEFAULT 'team',",
  "    name VARCHAR(255) NOT NULL,",
  "    description TEXT,",
  "    organization_gid VARCHAR(255) REFERENCES workspaces(gid)",
  ");",
  "",
  "-- Tabela projects",
  "CREATE TABLE projects (",
  "    gid VARCHAR(255) PRIMARY KEY,",
  "    resource_type VARCHAR(255) NOT NULL DEFAULT 'project',",
  "    name VARCHAR(255) NOT NULL,",
  "    owner_gid VARCHAR(255) REFERENCES users(gid),",
  "    team_gid VARCHAR(255) REFERENCES teams(gid) NULL,",
  "    workspace_gid VARCHAR(255) REFERENCES workspaces(gid) NOT NULL,",
  "    default_view VARCHAR(255) NOT NULL DEFAULT 'list',",
  "    color VARCHAR(255),",
  "    privacy_setting VARCHAR(255),",
  "    due_on DATE,",
  "    start_on DATE",
  ");",
  "",
  "-- Tabela sections",
  "CREATE TABLE sections (",
  "    gid VARCHAR(255) PRIMARY KEY,",
  "    resource_type VARCHAR(255) NOT NULL DEFAULT 'section',",
  "    name VARCHAR(255) NOT NULL,",
  "    project_gid VARCHAR(255) REFERENCES projects(gid)",
  ");",
  "",
  "-- Tabela tasks",
  "CREATE TABLE tasks (",
  "    gid VARCHAR(255) PRIMARY KEY,",
  "    resource_type VARCHAR(255) NOT NULL DEFAULT 'task',",
  "    name VARCHAR(255) NOT NULL,",
  "    notes TEXT,",
  "    assignee_gid VARCHAR(255) REFERENCES users(gid) NULL,",
  "    completed BOOLEAN NOT NULL DEFAULT FALSE,",
  "    due_on DATE NULL,",
  "    start_on DATE NULL,",
  "    parent_gid VARCHAR(255) REFERENCES tasks(gid) NULL,",
  "    workspace_gid VARCHAR(255) REFERENCES workspaces(gid) NOT NULL,",
  "    created_at TIMESTAMP WITH TIME ZONE DEFAULT CURRENT_TIMESTAMP,",
  "    modified_at TIMESTAMP WITH TIME ZONE DEFAULT CURRENT_TIMESTAMP,",
  "    completed_at TIMESTAMP WITH TIME ZONE NULL,",
  "    resource_subtype VARCHAR(255)",
  ");",
  "",
  "-- Tabela portfolios",
  "CREATE TABLE portfolios (",
  "    gid VARCHAR(255) PRIMARY KEY,",
  "    name VARCHAR(255) NOT NULL,",
  "    owner_gid VARCHAR(255) REFERENCES users(gid)",
  ");",
  "",
  "-- Tabela goals",
  "CREATE TABLE goals (",
  "    gid VARCHAR(255) PRIMARY KEY,",
  "    name VARCHAR(255) NOT NULL,",
  "    owner_gid VARCHAR(255) REFERENCES users(gid),",
  "    time_period_gid VARCHAR(255),",
  "    metric JSONB",
  ");",
  "",
  "-- Tabela de junção project_tasks (multi-homing)",
  "CREATE TABLE project_tasks (",
  "    project_gid VARCHAR(255) REFERENCES projects(gid),",
  "    task_gid VARCHAR(255) REFERENCES tasks(gid),",
  "    PRIMARY KEY (project_gid, task_gid)",
  ");",
  "",
  "-- Tabela de junção task_dependencies",
  "CREATE TABLE task_dependencies (",
  "    blocking_task_gid VARCHAR(255) REFERENCES tasks(gid),",
  "    blocked_task_gid VARCHAR(255) REFERENCES tasks(gid),",
  "    PRIMARY KEY (blocking_task_gid, blocked_task_gid)",
  ");",
  "",
  "-- Tabela de junção task_followers",
  "CREATE TABLE task_followers (",
  "    task_gid VARCHAR(255) REFERENCES tasks(gid),",
  "    user_gid VARCHAR(255) REFERENCES users(gid),",
  "    PRIMARY KEY (task_gid, user_gid)",
  ");",
  "",
  "-- Tabela de junção task_tags (assumindo que tags terão uma tabela própria)",
  "CREATE TABLE tags (",
  "    gid VARCHAR(255) PRIMARY KEY,",
  "    name VARCHAR(255) UNIQUE NOT NULL",
  ");",
  "",
  "CREATE TABLE task_tags (",
  "    task_gid VARCHAR(255) REFERENCES tasks(gid),",
  "    tag_gid VARCHAR(255) REFERENCES tags(gid),",
  "    PRIMARY KEY (task_gid, tag_gid)",
  ");",
  "",
  "-- Tabela de junção portfolio_projects",
  "CREATE TABLE portfolio_projects (",
  "    portfolio_gid VARCHAR(255) REFERENCES portfolios(gid),",
  "    project_gid VARCHAR(255) REFERENCES projects(gid),",
  "    PRIMARY KEY (portfolio_gid, project_gid)",
  ");",
  "",
  "-- Tabela de junção goal_relationships (para metas hierárquicas)",
  "CREATE TABLE goal_relationships (",
  "    parent_goal_gid VARCHAR(255) REFERENCES goals(gid),",
  "    child_goal_gid VARCHAR(255) REFERENCES goals(gid),",
  "    PRIMARY KEY (parent_goal_gid, child_goal_gid)",
  ");",
  "",
  "-- Tabela custom_fields",
  "CREATE TABLE custom_fields (",
  "    gid VARCHAR(255) PRIMARY KEY,",
  "    name VARCHAR(255) NOT NULL,",
  "    type VARCHAR(255) NOT NULL -- e.g., 'text', 'number', 'enum'",
  ");",
  "",
  "-- Tabela project_custom_fields",
  "CREATE TABLE project_custom_fields (",
  "    project_gid VARCHAR(255) REFERENCES projects(gid),",
  "    custom_field_gid VARCHAR(255) REFERENCES custom_fields(gid),",
  "    PRIMARY KEY (project_gid, custom_field_gid)",
  ");",
  "",
  "-- Tabela task_custom_field_values",
  "CREATE TABLE task_custom_field_values (",
  "    task_gid VARCHAR(255) REFERENCES tasks(gid),",
  "    custom_field_gid VARCHAR(255) REFERENCES custom_fields(gid),",
  "    text_value TEXT NULL,",
  "    number_value NUMERIC NULL,",
  "    enum_option_gid VARCHAR(255) NULL, -- Referência a uma tabela de opções de enum, se necessário",
  "    PRIMARY KEY (task_gid, custom_field_gid)",
  ");",
  "",
  "-- Tabela rules",
  "CREATE TABLE rules (",
  "    gid VARCHAR(255) PRIMARY KEY,",
  "    project_gid VARCHAR(255) REFERENCES projects(gid) NOT NULL,",
  "    trigger_type VARCHAR(255) NOT NULL, -- e.g., 'task.created', 'task.custom_field.changed'",
  "    name VARCHAR(255)",
  ");",
  "",
  "-- Tabela rule_conditions",
  "CREATE TABLE rule_conditions (",
  "    gid VARCHAR(255) PRIMARY KEY,",
  "    rule_gid VARCHAR(255) REFERENCES rules(gid) NOT NULL,",
  "    field VARCHAR(255) NOT NULL,",
  "    operator VARCHAR(255) NOT NULL, -- e.g., '=', '>', '<'",
  "    value TEXT NOT NULL",
  ");",
  "",
  "-- Tabela rule_actions",
  "CREATE TABLE rule_actions (",
  "    gid VARCHAR(255) PRIMARY KEY,",
  "    rule_gid VARCHAR(255) REFERENCES rules(gid) NOT NULL,",
  "    action_type VARCHAR(255) NOT NULL, -- e.g., 'update_task', 'add_comment'",
  "    parameters JSONB -- JSON para parâmetros específicos da ação",
  ");",
  "",
  "-- Tabela audit_log",
  "CREATE TABLE audit_log (",
  "    id SERIAL PRIMARY KEY,",
  "    event_type VARCHAR(255) NOT NULL,",
  "    entity_type VARCHAR(255) NOT NULL,",
  "    entity_gid VARCHAR(255) NOT NULL,",
  "    user_gid VARCHAR(255) REFERENCES users(gid) NULL,",
  "    timestamp TIMESTAMP WITH TIME ZONE DEFAULT CURRENT_TIMESTAMP,",
  "    details JSONB",
  ");",
  "",
  "-- Tabela project_memberships",
  "CREATE TABLE project_memberships (",
  "    project_gid VARCHAR(255) REFERENCES projects(gid),",
  "    user_gid VARCHAR(255) REFERENCES users(gid),",
  "    role VARCHAR(255) NOT NULL, -- e.g., 'owner', 'editor', 'commenter', 'viewer'",
  "    PRIMARY KEY (project_gid, user_gid)",
  ");",
  "",
  "-- Tabela team_memberships",
  "CREATE TABLE team_memberships (",
  "    team_gid VARCHAR(255) REFERENCES teams(gid),",
  "    user_gid VARCHAR(255) REFERENCES users(gid),",
  "    role VARCHAR(255) NOT NULL, -- e.g., 'member', 'admin'",
  "    PRIMARY KEY (team_gid, user_gid)",
  ");",
  "",
  "-- Tabela workspace_memberships (para administradores de workspace)",
  "CREATE TABLE workspace_memberships (",
  "    workspace_gid VARCHAR(255) REFERENCES workspaces(gid),",
  "    user_gid VARCHAR(255) REFERENCES users(gid),",
  "    role VARCHAR(255) NOT NULL, -- e.g., 'member', 'admin'",
  "    PRIMARY KEY (workspace_gid, user_gid)",
  ");",
  "",
  "'list\\'\" json:\"default_view\""
]

/-- Lines 923..1140 of models.go: the raw tag of Section.ResourceType, one entry per source line. -/
def Section_ResourceType_tagLines : List String := [
  "gorm:\"default:",
  "",
  "-- Tabela workspaces",
  "CREATE TABLE workspaces (",
  "    gid VARCHAR(255) PRIMARY KEY,",
  "    resource_type VARCHAR(255) NOT NULL DEFAULT 'workspace',",
  "    name VARCHAR(255) NOT NULL,",
  "    is_organization BOOLEAN NOT NULL DEFAULT FALSE,",
  "    email_domains TEXT[]",
  ");",
  "",
  "-- Tabela users",
  "CREATE TABLE users (",
  "    gid VARCHAR(255) PRIMARY KEY,",
  "    resource_type VARCHAR(255) NOT NULL DEFAULT 'user',",
  "    name VARCHAR(255) NOT NULL,",
  "    email VARCHAR(255) UNIQUE NOT NULL,",
  "    photo VARCHAR(255)",
  ");",
  "",
  "-- Tabela teams",
  "CREATE TABLE teams (",
  "    gid VARCHAR(255) PRIMARY KEY,",
  "    resource_type VARCHAR(255) NOT NULL DEFAULT 'team',",
  "    name VARCHAR(255) NOT NULL,",
  "    description TEXT,",
  "    organization_gid VARCHAR(255) REFERENCES workspaces(gid)",
  ");",
  "",
  "-- Tabela projects",
  "CREATE TABLE projects (",
  "    gid VARCHAR(255) PRIMARY KEY,",
  "    resource_type VARCHAR(255) NOT NULL DEFAULT 'project',",
  "    name VARCHAR(255) NOT NULL,",
  "    owner_gid VARCHAR(255) REFERENCES users(gid),",
  "    team_gid VARCHAR(255) REFERENCES teams(gid) NULL,",
  "    workspace_gid VARCHAR(255) REFERENCES workspaces(gid) NOT NULL,",
  "    default_view VARCHAR(255) NOT NULL DEFAULT 'list',",
  "    color VARCHAR(255),",
  "    privacy_setting VARCHAR(255),",
  "    due_on DATE,",
  "    start_on DATE",
  ");",
  "",
  "-- Tabela sections",
  "CREATE TABLE sections (",
  "    gid VARCHAR(255) PRIMARY KEY,",
  "    resource_type VARCHAR(255) NOT NULL DEFAULT 'section',",
  "    name VARCHAR(255) NOT NULL,",
  "    project_gid VARCHAR(255) REFERENCES projects(gid)",
  ");",
  "",
  "-- Tabela tasks",
  "CREATE TABLE tasks (",
  "    gid VARCHAR(255) PRIMARY KEY,",
  "    resource_type VARCHAR(255) NOT NULL DEFAULT 'task',",
  "    name VARCHAR(255) NOT NULL,",
  "    notes TEXT,",
  "    assignee_gid VARCHAR(255) REFERENCES users(gid) NULL,",
  "    completed BOOLEAN NOT NULL DEFAULT FALSE,",
  "    due_on DATE NULL,",
  "    start_on DATE NULL,",
  "    parent_gid VARCHAR(255) REFERENCES tasks(gid) NULL,",
  "    workspace_gid VARCHAR(255) REFERENCES workspaces(gid) NOT NULL,",
  "    created_at TIMESTAMP WITH TIME ZONE DEFAULT CURRENT_TIMESTAMP,",
  "    modified_at TIMESTAMP WITH TIME ZONE DEFAULT CURRENT_TIMESTAMP,",
  "    completed_at TIMESTAMP WITH TIME ZONE NULL,",
  "    resource_subtype VARCHAR(255)",
  ");",
  "",
  "-- Tabela portfolios",
  "CREATE TABLE portfolios (",
  "    gid VARCHAR(255) PRIMARY KEY,",
  "    name VARCHAR(255) NOT NULL,",
  "    owner_gid VARCHAR(255) REFERENCES users(gid)",
  ");",
  "",
  "-- Tabela goals",
  "CREATE TABLE goals (",
  "    gid VARCHAR(255) PRIMARY KEY,",
  "    name VARCHAR(255) NOT NULL,",
  "    owner_gid VARCHAR(255) REFERENCES users(gid),",
  "    time_period_gid VARCHAR(255),",
  "    metric JSONB",
  ");",
  "",
  "-- Tabela de junção project_tasks (multi-homing)",
  "CREATE TABLE project_tasks (",
  "    project_gid VARCHAR(255) REFERENCES projects(gid),",
  "    task_gid VARCHAR(255) REFERENCES tasks(gid),",
  "    PRIMARY KEY (project_gid, task_gid)",
  ");",
  "",
  "-- Tabela de junção task_dependencies",
  "CREATE TABLE task_dependencies (",
  "    blocking_task_gid VARCHAR(255) REFERENCES tasks(gid),",
  "    blocked_task_gid VARCHAR(255) REFERENCES tasks(gid),",
  "    PRIMARY KEY (blocking_task_gid, blocked_task_gid)",
  ");",
  "",
  "-- Tabela de junção task_followers",
  "CREATE TABLE task_followers (",
  "    task_gid VARCHAR(255) REFERENCES tasks(gid),",
  "    user_gid VARCHAR(255) REFERENCES users(gid),",
  "    PRIMARY KEY (task_gid, user_gid)",
  ");",
  "",
  "-- Tabela de junção task_tags (assumindo que tags terão uma tabela própria)",
  "CREATE TABLE tags (",
  "    gid VARCHAR(255) PRIMARY KEY,",
  "    name VARCHAR(255) UNIQUE NOT NULL",
  ");",
  "",
  "CREATE TABLE task_tags (",
  "    task_gid VARCHAR(255) REFERENCES tasks(gid),",
  "    tag_gid VARCHAR(255) REFERENCES tags(gid),",
  "    PRIMARY KEY (task_gid, tag_gid)",
  ");",
  "",
  "-- Tabela de junção portfolio_projects",
  "CREATE TABLE portfolio_projects (",
  "    portfolio_gid VARCHAR(255) REFERENCES portfolios(gid),",
  "    project_gid VARCHAR(255) REFERENCES projects(gid),",
  "    PRIMARY KEY (portfolio_gid, project_gid)",
  ");",
  "",
  "-- Tabela de junção goal_relationships (para metas hierárquicas)",
  "CREATE TABLE goal_relationships (",
  "    parent_goal_gid VARCHAR(255) REFERENCES goals(gid),",
  "    child_goal_gid VARCHAR(255) REFERENCES goals(gid),",
  "    PRIMARY KEY (parent_goal_gid, child_goal_gid)",
  ");",
  "",
  "-- Tabela custom_fields",
  "CREATE TABLE custom_fields (",
  "    gid VARCHAR(255) PRIMARY KEY,",
  "    name VARCHAR(255) NOT NULL,",
  "    type VARCHAR(255) NOT NULL -- e.g., 'text', 'number', 'enum'",
  ");",
  "",
  "-- Tabela project_custom_fields",
  "CREATE TABLE project_custom_fields (",
  "    project_gid VARCHAR(255) REFERENCES projects(gid),",
  "    custom_field_gid VARCHAR(255) REFERENCES custom_fields(gid),",
  "    PRIMARY KEY (project_gid, custom_field_gid)",
  ");",
  "",
  "-- Tabela task_custom_field_values",
  "CREATE TABLE task_custom_field_values (",
  "    task_gid VARCHAR(255) REFERENCES tasks(gid),",
  "    custom_field_gid VARCHAR(255) REFERENCES custom_fields(gid),",
  "    text_value TEXT NULL,",
  "    number_value NUMERIC NULL,",
  "    enum_option_gid VARCHAR(255) NULL, -- Referência a uma tabela de opções de enum, se necessário",
  "    PRIMARY KEY (task_gid, custom_field_gid)",
  ");",
  "",
  "-- Tabela rules",
  "CREATE TABLE rules (",
  "    gid VARCHAR(255) PRIMARY KEY,",
  "    project_gid VARCHAR(255) REFERENCES projects(gid) NOT NULL,",
  "    trigger_type VARCHAR(255) NOT NULL, -- e.g., 'task.created', 'task.custom_field.changed'",
  "    name VARCHAR(255)",
  ");",
  "",
  "-- Tabela rule_conditions",
  "CREATE TABLE rule_conditions (",
  "    gid VARCHAR(255) PRIMARY KEY,",
  "    rule_gid VARCHAR(255) REFERENCES rules(gid) NOT NULL,",
  "    field VARCHAR(255) NOT NULL,",
  "    operator VARCHAR(255) NOT NULL, -- e.g., '=', '>', '<'",
  "    value TEXT NOT NULL",
  ");",
  "",
  "-- Tabela rule_actions",
  "CREATE TABLE rule_actions (",
  "    gid VARCHAR(255) PRIMARY KEY,",
  "    rule_gid VARCHAR(255) REFERENCES rules(gid) NOT NULL,",
  "    action_type VARCHAR(255) NOT NULL, -- e.g., 'update_task', 'add_comment'",
  "    parameters JSONB -- JSON para parâmetros específicos da ação",
  ");",
  "",
  "-- Tabela audit_log",
  "CREATE TABLE audit_log (",
  "    id SERIAL PRIMARY KEY,",
  "    event_type VARCHAR(255) NOT NULL,",
  "    entity_type VARCHAR(255) NOT NULL,",
  "    entity_gid VARCHAR(255) NOT NULL,",
  "    user_gid VARCHAR(255) REFERENCES users(gid) NULL,",
  "    timestamp TIMESTAMP WITH TIME ZONE DEFAULT CURRENT_TIMESTAMP,",
  "    details JSONB",
  ");",
  "",
  "-- Tabela project_memberships",
  "CREATE TABLE project_memberships (",
  "    project_gid VARCHAR(255) REFERENCES projects(gid),",
  "    user_gid VARCHAR(255) REFERENCES users(gid),",
  "    role VARCHAR(255) NOT NULL, -- e.g., 'owner', 'editor', 'commenter', 'viewer'",
  "    PRIMARY KEY (project_gid, user_gid)",
  ");",
  "",
  "-- Tabela team_memberships",
  "CREATE TABLE team_memberships (",
  "    team_gid VARCHAR(255) REFERENCES teams(gid),",
  "    user_gid VARCHAR(255) REFERENCES users(gid),",
  "    role VARCHAR(255) NOT NULL, -- e.g., 'member', 'admin'",
  "    PRIMARY KEY (team_gid, user_gid)",
  ");",
  "",
  "-- Tabela workspace_memberships (para administradores de workspace)",
  "CREATE TABLE workspace_memberships (",
  "    workspace_gid VARCHAR(255) REFERENCES workspaces(gid),",
  "    user_gid VARCHAR(255) REFERENCES users(gid),",
  "    role VARCHAR(255) NOT NULL, -- e.g., 'member', 'admin'",
  "    PRIMARY KEY (workspace_gid, user_gid)",
  ");",
  "",
  "'section\\'\" json:\"resource_type\""
]

/-- Lines 1148..1365 of models.go: the raw tag of Task.ResourceType, one entry per source line. -/
def Task_ResourceType_tagLines : List String := [
  "gorm:\"default:",
  "",
  "-- Tabela workspaces",
  "CREATE TABLE workspaces (",
  "    gid VARCHAR(255) PRIMARY KEY,",
  "    resource_type VARCHAR(255) NOT NULL DEFAULT 'workspace',",
  "    name VARCHAR(255) NOT NULL,",
  "    is_organization BOOLEAN NOT NULL DEFAULT FALSE,",
  "    email_domains TEXT[]",
  ");",
  "",
  "-- Tabela users",
  "CREATE TABLE users (",
  "    gid VARCHAR(255) PRIMARY KEY,",
  "    resource_type VARCHAR(255) NOT NULL DEFAULT 'user',",
  "    name VARCHAR(255) NOT NULL,",
  "    email VARCHAR(255) UNIQUE NOT NULL,",
  "    photo VARCHAR(255)",
  ");",
  "",
  "-- Tabela teams",
  "CREATE TABLE teams (",
  "    gid VARCHAR(255) PRIMARY KEY,",
  "    resource_type VARCHAR(255) NOT NULL DEFAULT 'team',",
  "    name VARCHAR(255) NOT NULL,",
  "    description TEXT,",
  "    organization_gid VARCHAR(255) REFERENCES workspaces(gid)",
  ");",
  "",
  "-- Tabela projects",
  "CREATE TABLE projects (",
  "    gid VARCHAR(255) PRIMARY KEY,",
  "    resource_type VARCHAR(255) NOT NULL DEFAULT 'project',",
  "    name VARCHAR(255) NOT NULL,",
  "    owner_gid VARCHAR(255) REFERENCES users(gid),",
  "    team_gid VARCHAR(255) REFERENCES teams(gid) NULL,",
  "    workspace_gid VARCHAR(255) REFERENCES workspaces(gid) NOT NULL,",
  "    default_view VARCHAR(255) NOT NULL DEFAULT 'list',",
  "    color VARCHAR(255),",
  "    privacy_setting VARCHAR(255),",
  "    due_on DATE,",
  "    start_on DATE",
  ");",
  "",
  "-- Tabela sections",
  "CREATE TABLE sections (",
  "    gid VARCHAR(255) PRIMARY KEY,",
  "    resource_type VARCHAR(255) NOT NULL DEFAULT 'section',",
  "    name VARCHAR(255) NOT NULL,",
  "    project_gid VARCHAR(255) REFERENCES projects(gid)",
  ");",
  "",
  "-- Tabela tasks",
  "CREATE TABLE tasks (",
  "    gid VARCHAR(255) PRIMARY KEY,",
  "    resource_type VARCHAR(255) NOT NULL DEFAULT 'task',",
  "    name VARCHAR(255) NOT NULL,",
  "    notes TEXT,",
  "    assignee_gid VARCHAR(255) REFERENCES users(gid) NULL,",
  "    completed BOOLEAN NOT NULL DEFAULT FALSE,",
  "    due_on DATE NULL,",
  "    start_on DATE NULL,",
  "    parent_gid VARCHAR(255) REFERENCES tasks(gid) NULL,",
  "    workspace_gid VARCHAR(255) REFERENCES workspaces(gid) NOT NULL,",
  "    created_at TIMESTAMP WITH TIME ZONE DEFAULT CURRENT_TIMESTAMP,",
  "    modified_at TIMESTAMP WITH TIME ZONE DEFAULT CURRENT_TIMESTAMP,",
  "    completed_at TIMESTAMP WITH TIME ZONE NULL,",
  "    resource_subtype VARCHAR(255)",
  ");",
  "",
  "-- Tabela portfolios",
  "CREATE TABLE portfolios (",
  "    gid VARCHAR(255) PRIMARY KEY,",
  "    name VARCHAR(255) NOT NULL,",
  "    owner_gid VARCHAR(255) REFERENCES users(gid)",
  ");",
  "",
  "-- Tabela goals",
  "CREATE TABLE goals (",
  "    gid VARCHAR(255) PRIMARY KEY,",
  "    name VARCHAR(255) NOT NULL,",
  "    owner_gid VARCHAR(255) REFERENCES users(gid),",
  "    time_period_gid VARCHAR(255),",
  "    metric JSONB",
  ");",
  "",
  "-- Tabela de junção project_tasks (multi-homing)",
  "CREATE TABLE project_tasks (",
  "    project_gid VARCHAR(255) REFERENCES projects(gid),",
  "    task_gid VARCHAR(255) REFERENCES tasks(gid),",
  "    PRIMARY KEY (project_gid, task_gid)",
  ");",
  "",
  "-- Tabela de junção task_dependencies",
  "CREATE TABLE task_dependencies (",
  "    blocking_task_gid VARCHAR(255) REFERENCES tasks(gid),",
  "    blocked_task_gid VARCHAR(255) REFERENCES tasks(gid),",
  "    PRIMARY KEY (blocking_task_gid, blocked_task_gid)",
  ");",
  "",
  "-- Tabela de junção task_followers",
  "CREATE TABLE task_followers (",
  "    task_gid VARCHAR(255) REFERENCES tasks(gid),",
  "    user_gid VARCHAR(255) REFERENCES users(gid),",
  "    PRIMARY KEY (task_gid, user_gid)",
  ");",
  "",
  "-- Tabela de junção task_tags (assumindo que tags terão uma tabela própria)",
  "CREATE TABLE tags (",
  "    gid VARCHAR(255) PRIMARY KEY,",
  "    name VARCHAR(255) UNIQUE NOT NULL",
  ");",
  "",
  "CREATE TABLE task_tags (",
  "    task_gid VARCHAR(255) REFERENCES tasks(gid),",
  "    tag_gid VARCHAR(255) REFERENCES tags(gid),",
  "    PRIMARY KEY (task_gid, tag_gid)",
  ");",
  "",
  "-- Tabela de junção portfolio_projects",
  "CREATE TABLE portfolio_projects (",
  "    portfolio_gid VARCHAR(255) REFERENCES portfolios(gid),",
  "    project_gid VARCHAR(255) REFERENCES projects(gid),",
  "    PRIMARY KEY (portfolio_gid, project_gid)",
  ");",
  "",
  "-- Tabela de junção goal_relationships (para metas hierárquicas)",
  "CREATE TABLE goal_relationships (",
  "    parent_goal_gid VARCHAR(255) REFERENCES goals(gid),",
  "    child_goal_gid VARCHAR(255) REFERENCES goals(gid),",
  "    PRIMARY KEY (parent_goal_gid, child_goal_gid)",
  ");",
  "",
  "-- Tabela custom_fields",
  "CREATE TABLE custom_fields (",
  "    gid VARCHAR(255) PRIMARY KEY,",
  "    name VARCHAR(255) NOT NULL,",
  "    type VARCHAR(255) NOT NULL -- e.g., 'text', 'number', 'enum'",
  ");",
  "",
  "-- Tabela project_custom_fields",
  "CREATE TABLE project_custom_fields (",
  "    project_gid VARCHAR(255) REFERENCES projects(gid),",
  "    custom_field_gid VARCHAR(255) REFERENCES custom_fields(gid),",
  "    PRIMARY KEY (project_gid, custom_field_gid)",
  ");",
  "",
  "-- Tabela task_custom_field_values",
  "CREATE TABLE task_custom_field_values (",
  "    task_gid VARCHAR(255) REFERENCES tasks(gid),",
  "    custom_field_gid VARCHAR(255) REFERENCES custom_fields(gid),",
  "    text_value TEXT NULL,",
  "    number_value NUMERIC NULL,",
  "    enum_option_gid VARCHAR(255) NULL, -- Referência a uma tabela de opções de enum, se necessário",
  "    PRIMARY KEY (task_gid, custom_field_gid)",
  ");",
  "",
  "-- Tabela rules",
  "CREATE TABLE rules (",
  "    gid VARCHAR(255) PRIMARY KEY,",
  "    project_gid VARCHAR(255) REFERENCES projects(gid) NOT NULL,",
  "    trigger_type VARCHAR(255) NOT NULL, -- e.g., 'task.created', 'task.custom_field.changed'",
  "    name VARCHAR(255)",
  ");",
  "",
  "-- Tabela rule_conditions",
  "CREATE TABLE rule_conditions (",
  "    gid VARCHAR(255) PRIMARY KEY,",
  "    rule_gid VARCHAR(255) REFERENCES rules(gid) NOT NULL,",
  "    field VARCHAR(255) NOT NULL,",
  "    operator VARCHAR(255) NOT NULL, -- e.g., '=', '>', '<'",
  "    value TEXT NOT NULL",
  ");",
  "",
  "-- Tabela rule_actions",
  "CREATE TABLE rule_actions (",
  "    gid VARCHAR(255) PRIMARY KEY,",
  "    rule_gid VARCHAR(255) REFERENCES rules(gid) NOT NULL,",
  "    action_type VARCHAR(255) NOT NULL, -- e.g., 'update_task', 'add_comment'",
  "    parameters JSONB -- JSON para parâmetros específicos da ação",
  ");",
  "",
  "-- Tabela audit_log",
  "CREATE TABLE audit_log (",
  "    id SERIAL PRIMARY KEY,",
  "    event_type VARCHAR(255) NOT NULL,",
  "    entity_type VARCHAR(255) NOT NULL,",
  "    entity_gid VARCHAR(255) NOT NULL,",
  "    user_gid VARCHAR(255) REFERENCES users(gid) NULL,",
  "    timestamp TIMESTAMP WITH TIME ZONE DEFAULT CURRENT_TIMESTAMP,",
  "    details JSONB",
  ");",
  "",
  "-- Tabela project_memberships",
  "CREATE TABLE project_memberships (",
  "    project_gid VARCHAR(255) REFERENCES projects(gid),",
  "    user_gid VARCHAR(255) REFERENCES users(gid),",
  "    role VARCHAR(255) NOT NULL, -- e.g., 'owner', 'editor', 'commenter', 'viewer'",
  "    PRIMARY KEY (project_gid, user_gid)",
  ");",
  "",
  "-- Tabela team_memberships",
  "CREATE TABLE team_memberships (",
  "    team_gid VARCHAR(255) REFERENCES teams(gid),",
  "    user_gid VARCHAR(255) REFERENCES users(gid),",
  "    role VARCHAR(255) NOT NULL, -- e.g., 'member', 'admin'",
  "    PRIMARY KEY (team_gid, user_gid)",
  ");",
  "",
  "-- Tabela workspace_memberships (para administradores de workspace)",
  "CREATE TABLE workspace_memberships (",
  "    workspace_gid VARCHAR(255) REFERENCES workspaces(gid),",
  "    user_gid VARCHAR(255) REFERENCES users(gid),",
  "    role VARCHAR(255) NOT NULL, -- e.g., 'member', 'admin'",
  "    PRIMARY KEY (workspace_gid, user_gid)",
  ");",
  "",
  "'task\\'\" json:\"resource_type\""
]

/-! ## The structs of models.go -/

/-- The struct `Workspace` (models.go, line 11) with the comment line above it. -/
def Workspace : StructDecl :=
  StructDecl.mk "Workspace" "// Workspace representa a tabela workspaces" [
    StructField.mk "Gid" GoType.string "gorm:\"primaryKey\" json:\"gid\"",
    StructField.mk "ResourceType" GoType.string "gorm:\"default:\\'workspace\\'\" json:\"resource_type\"",
    StructField.mk "Name" GoType.string "json:\"name\"",
    StructField.mk "IsOrganization" GoType.bool "gorm:\"default:false\" json:\"is_organization\"",
    StructField.mk "EmailDomains" GoType.stringArray "gorm:\"type:text[]\" json:\"email_domains\""
  ]

/-- The struct `User` (models.go, line 20) with the comment line above it. -/
def User : StructDecl :=
  StructDecl.mk "User" "// User representa a tabela users" [
    StructField.mk "Gid" GoType.string "gorm:\"primaryKey\" json:\"gid\"",
    StructField.mk "ResourceType" GoType.string (String.mk (joinLines User_ResourceType_tagLines)),
    StructField.mk "Name" GoType.string "json:\"name\"",
    StructField.mk "Email" GoType.string "gorm:\"unique\" json:\"email\"",
    StructField.mk "Photo" GoType.string "json:\"photo\""
  ]

/-- The struct `Team` (models.go, line 246) with the comment line above it. -/
def Team : StructDecl :=
  StructDecl.mk "Team" "// Team representa a tabela teams" [
    StructField.mk "Gid" GoType.string "gorm:\"primaryKey\" json:\"gid\"",
    StructField.mk "ResourceType" GoType.string (String.mk (joinLines Team_ResourceType_tagLines)),
    StructField.mk "Name" GoType.string "json:\"name\"",
    StructField.mk "Description" GoType.string "json:\"description\"",
    StructField.mk "OrganizationGid" GoType.string "gorm:\"foreignKey:OrganizationGid\" json:\"organization_gid\""
  ]

/-- The struct `Project` (models.go, line 472) with the comment line above it. -/
def Project : StructDecl :=
  StructDecl.mk "Project" "// Project representa a tabela projects" [
    StructField.mk "Gid" GoType.string "gorm:\"primaryKey\" json:\"gid\"",
    StructField.mk "ResourceType" GoType.string (String.mk (joinLines Project_ResourceType_tagLines)),
    StructField.mk "Name" GoType.string "json:\"name\"",
    StructField.mk "OwnerGid" GoType.string "gorm:\"foreignKey:OwnerGid\" json:\"owner_gid\"",
    StructField.mk "TeamGid" GoType.nullString "gorm:\"foreignKey:TeamGid\" json:\"team_gid\"",
    StructField.mk "WorkspaceGid" GoType.string "gorm:\"foreignKey:WorkspaceGid\" json:\"workspace_gid\"",
    StructField.mk "DefaultView" GoType.string (String.mk (joinLines Project_DefaultView_tagLines)),
    StructField.mk "Color" GoType.string "json:\"color\"",
    StructField.mk "PrivacySetting" GoType.string "json:\"privacy_setting\"",
    StructField.mk "DueOn" GoType.nullTime "json:\"due_on\"",
    StructField.mk "StartOn" GoType.nullTime "json:\"start_on\""
  ]

/-- The struct `Section` (models.go, line 921) with the comment line above it. -/
def Section : StructDecl :=
  StructDecl.mk "Section" "// Section representa a tabela sections" [
    StructField.mk "Gid" GoType.string "gorm:\"primaryKey\" json:\"gid\"",
    StructField.mk "ResourceType" GoType.string (String.mk (joinLines Section_ResourceType_tagLines)),
    StructField.mk "Name" GoType.string "json:\"name\"",
    StructField.mk "ProjectGid" GoType.string "gorm:\"foreignKey:ProjectGid\" json:\"project_gid\""
  ]

/-- The struct `Task` (models.go, line 1146) with the comment line above it. -/
def Task : StructDecl :=
  StructDecl.mk "Task" "// Task representa a tabela tasks" [
    StructField.mk "Gid" GoType.string "gorm:\"primaryKey\" json:\"gid\"",
    StructField.mk "ResourceType" GoType.string (String.mk (joinLines Task_ResourceType_tagLines)),
    StructField.mk "Name" GoType.string "json:\"name\"",
    StructField.mk "Notes" GoType.string "json:\"notes\"",
    StructField.mk "AssigneeGid" GoType.nullString "gorm:\"foreignKey:AssigneeGid\" json:\"assignee_gid\"",
    StructField.mk "Completed" GoType.bool "gorm:\"default:false\" json:\"completed\"",
    StructField.mk "DueOn" GoType.nullTime "json:\"due_on\"",
    StructField.mk "StartOn" GoType.nullTime "json:\"start_on\"",
    StructField.mk "ParentGid" GoType.nullString "gorm:\"foreignKey:ParentGid\" json:\"parent_gid\"",
    StructField.mk "WorkspaceGid" GoType.string "gorm:\"foreignKey:WorkspaceGid\" json:\"workspace_gid\"",
    StructField.mk "CreatedAt" GoType.time "gorm:\"default:CURRENT_TIMESTAMP\" json:\"created_at\"",
    StructField.mk "ModifiedAt" GoType.time "gorm:\"default:CURRENT_TIMESTAMP\" json:\"modified_at\"",
    StructField.mk "CompletedAt" GoType.nullTime "json:\"completed_at\"",
    StructField.mk "ResourceSubtype" GoType.string "json:\"resource_subtype\""
  ]

/-- The struct `Portfolio` (models.go, line 1381) with the comment line above it. -/
def Portfolio : StructDecl :=
  StructDecl.mk "Portfolio" "// Portfolio representa a tabela portfolios" [
    StructField.mk "Gid" GoType.string "gorm:\"primaryKey\" json:\"gid\"",
    StructField.mk "Name" GoType.string "json:\"name\"",
    StructField.mk "OwnerGid" GoType.string "gorm:\"foreignKey:OwnerGid\" json:\"owner_gid\""
  ]

/-- The struct `Goal` (models.go, line 1388) with the comment line above it. -/
def Goal : StructDecl :=
  StructDecl.mk "Goal" "// Goal representa a tabela goals" [
    StructField.mk "Gid" GoType.string "gorm:\"primaryKey\" json:\"gid\"",
    StructField.mk "Name" GoType.string "json:\"name\"",
    StructField.mk "OwnerGid" GoType.string "gorm:\"foreignKey:OwnerGid\" json:\"owner_gid\"",
    StructField.mk "TimePeriodGid" GoType.string "json:\"time_period_gid\"",
    StructField.mk "Metric" GoType.bytes "gorm:\"type:jsonb\" json:\"metric\""
  ]

/-- The struct `ProjectTask` (models.go, line 1397) with the comment line above it. -/
def ProjectTask : StructDecl :=
  StructDecl.mk "ProjectTask" "// ProjectTask representa a tabela de junção project_tasks" [
    StructField.mk "ProjectGid" GoType.string "gorm:\"primaryKey\" json:\"project_gid\"",
    StructField.mk "TaskGid" GoType.string "gorm:\"primaryKey\" json:\"task_gid\""
  ]

/-- The struct `TaskDependency` (models.go, line 1403) with the comment line above it. -/
def TaskDependency : StructDecl :=
  StructDecl.mk "TaskDependency" "// TaskDependency representa a tabela de junção task_dependencies" [
    StructField.mk "BlockingTaskGid" GoType.string "gorm:\"primaryKey\" json:\"blocking_task_gid\"",
    StructField.mk "BlockedTaskGid" GoType.string "gorm:\"primaryKey\" json:\"blocked_task_gid\""
  ]

/-- The struct `TaskFollower` (models.go, line 1409) with the comment line above it. -/
def TaskFollower : StructDecl :=
  StructDecl.mk "TaskFollower" "// TaskFollower representa a tabela de junção task_followers" [
    StructField.mk "TaskGid" GoType.string "gorm:\"primaryKey\" json:\"task_gid\"",
    StructField.mk "UserGid" GoType.string "gorm:\"primaryKey\" json:\"user_gid\""
  ]

/-- The struct `Tag` (models.go, line 1415) with the comment line above it. -/
def Tag : StructDecl :=
  StructDecl.mk "Tag" "// Tag representa a tabela tags" [
    StructField.mk "Gid" GoType.string "gorm:\"primaryKey\" json:\"gid\"",
    StructField.mk "Name" GoType.string "gorm:\"unique\" json:\"name\""
  ]

/-- The struct `TaskTag` (models.go, line 1421) with the comment line above it. -/
def TaskTag : StructDecl :=
  StructDecl.mk "TaskTag" "// TaskTag representa a tabela de junção task_tags" [
    StructField.mk "TaskGid" GoType.string "gorm:\"primaryKey\" json:\"task_gid\"",
    StructField.mk "TagGid" GoType.string "gorm:\"primaryKey\" json:\"tag_gid\""
  ]

/-- The struct `PortfolioProject` (models.go, line 1427) with the comment line above it. -/
def PortfolioProject : StructDecl :=
  StructDecl.mk "PortfolioProject" "// PortfolioProject representa a tabela de junção portfolio_projects" [
    StructField.mk "PortfolioGid" GoType.string "gorm:\"primaryKey\" json:\"portfolio_gid\"",
    StructField.mk "ProjectGid" GoType.string "gorm:\"primaryKey\" json:\"project_gid\""
  ]

/-- The struct `GoalRelationship` (models.go, line 1433) with the comment line above it. -/
def GoalRelationship : StructDecl :=
  StructDecl.mk "GoalRelationship" "// GoalRelationship representa a tabela de junção goal_relationships" [
    StructField.mk "ParentGoalGid" GoType.string "gorm:\"primaryKey\" json:\"parent_goal_gid\"",
    StructField.mk "ChildGoalGid" GoType.string "gorm:\"primaryKey\" json:\"child_goal_gid\""
  ]

/-- The struct `CustomField` (models.go, line 1439) with the comment line above it. -/
def CustomField : StructDecl :=
  StructDecl.mk "CustomField" "// CustomField representa a tabela custom_fields" [
    StructField.mk "Gid" GoType.string "gorm:\"primaryKey\" json:\"gid\"",
    StructField.mk "Name" GoType.string "json:\"name\"",
    StructField.mk "Type" GoType.string "json:\"type\""
  ]

/-- The struct `ProjectCustomField` (models.go, line 1446) with the comment line above it. -/
def ProjectCustomField : StructDecl :=
  StructDecl.mk "ProjectCustomField" "// ProjectCustomField representa a tabela project_custom_fields" [
    StructField.mk "ProjectGid" GoType.string "gorm:\"primaryKey\" json:\"project_gid\"",
    StructField.mk "CustomFieldGid" GoType.string "gorm:\"primaryKey\" json:\"custom_field_gid\""
  ]

/-- The struct `TaskCustomFieldValue` (models.go, line 1452) with the comment line above it. -/
def TaskCustomFieldValue : StructDecl :=
  StructDecl.mk "TaskCustomFieldValue" "// TaskCustomFieldValue representa a tabela task_custom_field_values" [
    StructField.mk "TaskGid" GoType.string "gorm:\"primaryKey\" json:\"task_gid\"",
    StructField.mk "CustomFieldGid" GoType.string "gorm:\"primaryKey\" json:\"custom_field_gid\"",
    StructField.mk "TextValue" GoType.nullString "json:\"text_value\"",
    StructField.mk "NumberValue" GoType.nullFloat64 "json:\"number_value\"",
    StructField.mk "EnumOptionGid" GoType.nullString "json:\"enum_option_gid\""
  ]

/-- The struct `Rule` (models.go, line 1461) with the comment line above it. -/
def Rule : StructDecl :=
  StructDecl.mk "Rule" "// Rule representa a tabela rules" [
    StructField.mk "Gid" GoType.string "gorm:\"primaryKey\" json:\"gid\"",
    StructField.mk "ProjectGid" GoType.string "gorm:\"foreignKey:ProjectGid\" json:\"project_gid\"",
    StructField.mk "TriggerType" GoType.string "json:\"trigger_type\"",
    StructField.mk "Name" GoType.string "json:\"name\""
  ]

/-- The struct `RuleCondition` (models.go, line 1469) with the comment line above it. -/
def RuleCondition : StructDecl :=
  StructDecl.mk "RuleCondition" "// RuleCondition representa a tabela rule_conditions" [
    StructField.mk "Gid" GoType.string "gorm:\"primaryKey\" json:\"gid\"",
    StructField.mk "RuleGid" GoType.string "gorm:\"foreignKey:RuleGid\" json:\"rule_gid\"",
    StructField.mk "Field" GoType.string "json:\"field\"",
    StructField.mk "Operator" GoType.string "json:\"operator\"",
    StructField.mk "Value" GoType.string "json:\"value\""
  ]

/-- The struct `RuleAction` (models.go, line 1478) with the comment line above it. -/
def RuleAction : StructDecl :=
  StructDecl.mk "RuleAction" "// RuleAction representa a tabela rule_actions" [
    StructField.mk "Gid" GoType.string "gorm:\"primaryKey\" json:\"gid\"",
    StructField.mk "RuleGid" GoType.string "gorm:\"foreignKey:RuleGid\" json:\"rule_gid\"",
    StructField.mk "ActionType" GoType.string "json:\"action_type\"",
    StructField.mk "Parameters" GoType.bytes "gorm:\"type:jsonb\" json:\"parameters\""
  ]

/-- The struct `AuditLog` (models.go, line 1486) with the comment line above it. -/
def AuditLog : StructDecl :=
  StructDecl.mk "AuditLog" "// AuditLog representa a tabela audit_log" [
    StructField.mk "ID" GoType.int "gorm:\"primaryKey;autoIncrement\" json:\"id\"",
    StructField.mk "EventType" GoType.string "json:\"event_type\"",
    StructField.mk "EntityType" GoType.string "json:\"entity_type\"",
    StructField.mk "EntityGid" GoType.string "json:\"entity_gid\"",
    StructField.mk "UserGid" GoType.nullString "gorm:\"foreignKey:UserGid\" json:\"user_gid\"",
    StructField.mk "Timestamp" GoType.time "gorm:\"default:CURRENT_TIMESTAMP\" json:\"timestamp\"",
    StructField.mk "Details" GoType.bytes "gorm:\"type:jsonb\" json:\"details\""
  ]

/-- The struct `ProjectMembership` (models.go, line 1497) with the comment line above it. -/
def ProjectMembership : StructDecl :=
  StructDecl.mk "ProjectMembership" "// ProjectMembership representa a tabela project_memberships" [
    StructField.mk "ProjectGid" GoType.string "gorm:\"primaryKey\" json:\"project_gid\"",
    StructField.mk "UserGid" GoType.string "gorm:\"primaryKey\" json:\"user_gid\"",
    StructField.mk "Role" GoType.string "json:\"role\""
  ]

/-- The struct `TeamMembership` (models.go, line 1504) with the comment line above it. -/
def TeamMembership : StructDecl :=
  StructDecl.mk "TeamMembership" "// TeamMembership representa a tabela team_memberships" [
    StructField.mk "TeamGid" GoType.string "gorm:\"primaryKey\" json:\"team_gid\"",
    StructField.mk "UserGid" GoType.string "gorm:\"primaryKey\" json:\"user_gid\"",
    StructField.mk "Role" GoType.string "json:\"role\""
  ]

/-- The struct `WorkspaceMembership` (models.go, line 1511) with the comment line above it. -/
def WorkspaceMembership : StructDecl :=
  StructDecl.mk "WorkspaceMembership" "// WorkspaceMembership representa a tabela workspace_memberships" [
    StructField.mk "WorkspaceGid" GoType.string "gorm:\"primaryKey\" json:\"workspace_gid\"",
    StructField.mk "UserGid" GoType.string "gorm:\"primaryKey\" json:\"user_gid\"",
    StructField.mk "Role" GoType.string "json:\"role\""
  ]

/-- The 25 structs of models.go, in source order. -/
def structs : List StructDecl := [
  Workspace, User, Team, Project, Section,
  Task, Portfolio, Goal, ProjectTask, TaskDependency,
  TaskFollower, Tag, TaskTag, PortfolioProject, GoalRelationship,
  CustomField, ProjectCustomField, TaskCustomFieldValue, Rule, RuleCondition,
  RuleAction, AuditLog, ProjectMembership, TeamMembership, WorkspaceMembership
]

/-! ## Reading the tags -/

/-- Split of a character list at every `sep`; `cur` holds the current piece,
last character first, `acc` the finished pieces, last first. -/
def splitChars (sep : Char) : List Char → List (List Char) → List Char → List (List Char)
  | cur, acc, [] => (cur.reverse :: acc).reverse
  | cur, acc, c :: cs =>
    if c = sep then splitChars sep [] (cur.reverse :: acc) cs
    else splitChars sep (c :: cur) acc cs

/-- The pieces of a string between the occurrences of `sep`
(`strings.Split`). -/
def splitOnChar (sep : Char) (s : String) : List String :=
  (splitChars sep [] [] s.toList).map String.mk

/-- The check `isValidTag` of `encoding/json` on a name: not empty, and made of
letters, digits and the punctuation `encoding/json` admits (letters and digits
are those of ASCII here). -/
def isValidTag (s : String) : Bool :=
  s != "" && s.toList.all fun c =>
    "!#$%&()*+-./:;<=>?@[]^_\x7b|\x7d~ ".toList.contains c || c.isAlpha || c.isDigit

/-- The name `encoding/json` gives a field: the `json` tag value up to its
first comma when that is a valid name; no name at all for the value `-`; the
Go field name when the tag has no readable `json` key or no valid name. -/
def jsonName (f : StructField) : Option String :=
  match Lookup f.tag "json" with
  | none => some f.name
  | some v =>
    if v = "-" then none
    else
      match splitOnChar ',' v with
      | [] => some f.name
      | n :: _ => if isValidTag n then some n else some f.name

/-- The JSON field names of a struct, in field order. -/
def jsonNames (s : StructDecl) : List String :=
  s.fields.filterMap jsonName

/-- Trimming of blanks at both ends (`strings.TrimSpace` on the blanks of
ASCII). -/
def trimChars (cs : List Char) : List Char :=
  ((cs.dropWhile Char.isWhitespace).reverse.dropWhile Char.isWhitespace).reverse

/-- The pieces joined again with `sep` between them (`strings.Join`). -/
def joinSep (sep : Char) : List String → List Char
  | [] => []
  | [x] => x.toList
  | x :: xs => x.toList ++ sep :: joinSep sep xs

/-- One piece of a gorm tag value as gorm's `ParseTagSetting` reads it: the
key is the text before the first colon, upper-cased and trimmed; the value is
the text after the first colon, or the key itself when there is no colon.
`none` for a piece with an empty key and no colon, which sets nothing. -/
def parseSetting (s : String) : Option (String × String) :=
  match splitOnChar ':' s with
  | [] => none
  | [k] =>
    if trimChars (k.toList.map Char.toUpper) = [] then none
    else some (String.mk (trimChars (k.toList.map Char.toUpper)),
               String.mk (trimChars (k.toList.map Char.toUpper)))
  | k :: v :: vs =>
    some (String.mk (trimChars (k.toList.map Char.toUpper)), String.mk (joinSep ':' (v :: vs)))

/-- The settings of a gorm tag value: its pieces between semicolons, each read
by `parseSetting` (gorm's `ParseTagSetting` with the separator `;`, without
its joining of a piece that ends in a backslash with the next one). -/
def parseTagSetting (v : String) : List (String × String) :=
  (splitOnChar ';' v).filterMap parseSetting

/-- The gorm settings a tag reader sees on a field: those of the value
`Lookup` returns for the key `gorm` (`field.Tag.Get("gorm")`), none when the
lookup fails. -/
def gormSettings (f : StructField) : List (String × String) :=
  match Lookup f.tag "gorm" with
  | none => []
  | some v => parseTagSetting v

/-- The value of the gorm setting `key` (written in upper case, as gorm keeps
its keys) of a field; of two settings with one key the later one counts. -/
def gormSetting (f : StructField) (key : String) : Option String :=
  ((gormSettings f).reverse.find? fun p => p.1 == key).map fun p => p.2

/-- Whether the field carries the gorm setting `key`. -/
def hasGormSetting (f : StructField) (key : String) : Bool :=
  (gormSetting f key).isSome

/-- The text written after `default:` in the gorm value of a tag, read
without unquoting: the raw gorm value with a leading `default:` taken off. -/
def rawDefault (f : StructField) : Option String :=
  match rawValue f.tag "gorm" with
  | none => none
  | some v =>
    match v.toList with
    | 'd' :: 'e' :: 'f' :: 'a' :: 'u' :: 'l' :: 't' :: ':' :: rest => some (String.mk rest)
    | _ => none

/-- The field of a struct with the given Go name. -/
def StructDecl.field (s : StructDecl) (name : String) : Option StructField :=
  s.fields.find? fun f => f.name == name

/-- The words of a comment line, split at blanks. -/
def commentWords (s : String) : List String :=
  (splitOnChar ' ' s).filter fun w => w != ""

/-- The table a struct stands for, as its comment names it: the last word of
`// X representa a tabela Y` or `// X representa a tabela de junção Y`. -/
def tableOf (s : StructDecl) : String :=
  (commentWords s.comment).getLastD ""

/-- The zero value of a Go type, as far as the model needs it: the type and
whether the value counts as set (`true`, a set flag, a non-empty text). -/
inductive GoValue
  | string (s : String)
  | bool (b : Bool)
  | int (i : Int)
  | stringArray (xs : List String)
  | nullString (s : String) (valid : Bool)
  | nullTime (t : Int) (valid : Bool)
  | nullFloat64 (unscaled : Int) (scale : Nat) (valid : Bool)
  | time (t : Int)
  | bytes (b : List Nat)
  deriving DecidableEq, Repr

/-- Go's zero value of each field type: `""`, `false`, `0`, a nil slice, a
`sql.Null*` with `Valid = false`, the zero `time.Time`. -/
def zeroValue : GoType → GoValue
  | GoType.string => GoValue.string ""
  | GoType.bool => GoValue.bool false
  | GoType.int => GoValue.int 0
  | GoType.stringArray => GoValue.stringArray []
  | GoType.nullString => GoValue.nullString "" false
  | GoType.nullTime => GoValue.nullTime 0 false
  | GoType.nullFloat64 => GoValue.nullFloat64 0 0 false
  | GoType.time => GoValue.time 0
  | GoType.bytes => GoValue.bytes []

/-! ## The table definitions -/

/-- The column types the CREATE TABLE statements use. -/
inductive SqlType
  | varchar (n : Nat)
  | text
  | textArray
  | boolean
  | date
  | timestamptz
  | jsonb
  | numeric
  | serial
  deriving DecidableEq, Repr

/-- One column definition: name, type and the column constraints written
after the type (`PRIMARY KEY`, `NOT NULL`, `NULL`, `UNIQUE`, `DEFAULT v`,
`REFERENCES t(c)`). -/
structure Column where
  name : String
  type : SqlType
  primaryKey : Bool := false
  notNull : Bool := false
  explicitNull : Bool := false
  unique : Bool := false
  defaultValue : Option String := none
  references : Option (String × String) := none
  deriving DecidableEq, Repr

/-- One CREATE TABLE statement: the table name, its column definitions in
order, and the columns of its table-level `PRIMARY KEY (...)` item (empty when
there is none). -/
structure Table where
  name : String
  columns : List Column
  primaryKey : List String := []
  deriving DecidableEq, Repr

/-- The SQL text embedded in a multi-line tag: its lines without the first
(`gorm:"default:`) and the last (the closing of the tag). -/
def sqlLines (tagLines : List String) : List String :=
  (tagLines.drop 1).dropLast

/-- A line without its `--` comment; a `--` inside a quoted literal is kept. -/
def stripComment : Bool → List Char → List Char
  | _, [] => []
  | q, c :: cs =>
    if c = '\'' then c :: stripComment (!q) cs
    else if !q && c = '-' && cs.head? = some '-' then []
    else c :: stripComment q cs

/-- Characters that separate the words of a line: blanks, parentheses and the
comma. -/
def isSep (c : Char) : Bool :=
  c = ' ' || c = '\t' || c = '(' || c = ')' || c = ','

/-- The finished words with the current one added, when it is not empty. -/
def pushWord (cur : List Char) (acc : List String) : List String :=
  if cur = [] then acc else String.mk cur.reverse :: acc

/-- The words of a line: maximal runs of characters that are no separators; a
quoted literal is one word with its quotes. -/
def wordsAux : Bool → List Char → List String → List Char → List String
  | _, cur, acc, [] => (pushWord cur acc).reverse
  | q, cur, acc, c :: cs =>
    if c = '\'' then wordsAux (!q) (c :: cur) acc cs
    else if !q && isSep c then wordsAux q [] (pushWord cur acc) cs
    else wordsAux q (c :: cur) acc cs

/-- The words of a source line of SQL, its comment left out. -/
def sqlWords (line : String) : List String :=
  wordsAux false [] [] (stripComment false line.toList)

/-- The number a run of decimal digits stands for. -/
def parseDigits : List Char → Nat → Option Nat
  | [], v => some v
  | c :: cs, v => if c.isDigit then parseDigits cs (v * 10 + (c.toNat - 48)) else none

/-- The column type at the head of the words after a column name, and the
words after it. -/
def parseType : List String → Option (SqlType × List String)
  | "VARCHAR" :: n :: rest =>
    match n.toList with
    | [] => none
    | d :: ds => (parseDigits (d :: ds) 0).map fun k => (SqlType.varchar k, rest)
  | "TEXT" :: rest => some (SqlType.text, rest)
  | "TEXT[]" :: rest => some (SqlType.textArray, rest)
  | "BOOLEAN" :: rest => some (SqlType.boolean, rest)
  | "DATE" :: rest => some (SqlType.date, rest)
  | "TIMESTAMP" :: "WITH" :: "TIME" :: "ZONE" :: rest => some (SqlType.timestamptz, rest)
  | "JSONB" :: rest => some (SqlType.jsonb, rest)
  | "NUMERIC" :: rest => some (SqlType.numeric, rest)
  | "SERIAL" :: rest => some (SqlType.serial, rest)
  | _ => none

/-- The column constraints written after the type, added to the column one by
one; `none` for a word that starts no constraint. -/
def parseConstraints : Column → List String → Option Column
  | c, [] => some c
  | c, "PRIMARY" :: "KEY" :: rest => parseConstraints { c with primaryKey := true } rest
  | c, "NOT" :: "NULL" :: rest => parseConstraints { c with notNull := true } rest
  | c, "NULL" :: rest => parseConstraints { c with explicitNull := true } rest
  | c, "UNIQUE" :: rest => parseConstraints { c with unique := true } rest
  | c, "DEFAULT" :: v :: rest => parseConstraints { c with defaultValue := some v } rest
  | c, "REFERENCES" :: t :: k :: rest =>
    parseConstraints { c with references := some (t, k) } rest
  | _, _ => none

/-- State of the reading of the SQL lines: the finished tables, last first,
and the table whose statement is open. -/
structure ParseState where
  done : List Table
  cur : Option Table
  deriving DecidableEq, Repr

/-- Reading of one line: a blank or comment line changes nothing;
`CREATE TABLE name (` opens a table; `);` closes it; inside a table
`PRIMARY KEY (a, b)` sets the table-level key and any other line is a column
definition.  `none` for a line that is none of these where it stands. -/
def parseLine (st : ParseState) (line : String) : Option ParseState :=
  match sqlWords line, st.cur with
  | [], _ => some st
  | ["CREATE", "TABLE", name], none => some { st with cur := some { name := name, columns := [] } }
  | [";"], some t => some { done := t :: st.done, cur := none }
  | "PRIMARY" :: "KEY" :: cols, some t =>
    if t.primaryKey = [] ∧ cols ≠ [] then some { st with cur := some { t with primaryKey := cols } }
    else none
  | name :: rest, some t =>
    match parseType rest with
    | none => none
    | some (ty, cons) =>
      match parseConstraints { name := name, type := ty } cons with
      | none => none
      | some c => some { st with cur := some { t with columns := t.columns ++ [c] } }
  | _, none => none

/-- Reading of the lines one after the other. -/
def parseLines : ParseState → List String → Option ParseState
  | st, [] => some st
  | st, l :: ls =>
    match parseLine st l with
    | none => none
    | some st1 => parseLines st1 ls

/-- The tables a list of SQL source lines defines, in order; `none` when a
line cannot be read or the last statement is not closed. -/
def parseDDL (lines : List String) : Option (List Table) :=
  match parseLines { done := [], cur := none } lines with
  | some { done := ts, cur := none } => some ts.reverse
  | _ => none

/-- The table `workspaces` (`CREATE TABLE workspaces`, line 25 of models.go). -/
def workspaces : Table :=
  { name := "workspaces"
    columns := [
      { name := "gid", type := SqlType.varchar 255, primaryKey := true },
      { name := "resource_type", type := SqlType.varchar 255, notNull := true, defaultValue := some "'workspace'" },
      { name := "name", type := SqlType.varchar 255, notNull := true },
      { name := "is_organization", type := SqlType.boolean, notNull := true, defaultValue := some "FALSE" },
      { name := "email_domains", type := SqlType.textArray }
    ] }

/-- The table `users` (`CREATE TABLE users`, line 34 of models.go). -/
def users : Table :=
  { name := "users"
    columns := [
      { name := "gid", type := SqlType.varchar 255, primaryKey := true },
      { name := "resource_type", type := SqlType.varchar 255, notNull := true, defaultValue := some "'user'" },
      { name := "name", type := SqlType.varchar 255, notNull := true },
      { name := "email", type := SqlType.varchar 255, unique := true, notNull := true },
      { name := "photo", type := SqlType.varchar 255 }
    ] }

/-- The table `teams` (`CREATE TABLE teams`, line 43 of models.go). -/
def teams : Table :=
  { name := "teams"
    columns := [
      { name := "gid", type := SqlType.varchar 255, primaryKey := true },
      { name := "resource_type", type := SqlType.varchar 255, notNull := true, defaultValue := some "'team'" },
      { name := "name", type := SqlType.varchar 255, notNull := true },
      { name := "description", type := SqlType.text },
      { name := "organization_gid", type := SqlType.varchar 255, references := some ("workspaces", "gid") }
    ] }

/-- The table `projects` (`CREATE TABLE projects`, line 52 of models.go). -/
def projects : Table :=
  { name := "projects"
    columns := [
      { name := "gid", type := SqlType.varchar 255, primaryKey := true },
      { name := "resource_type", type := SqlType.varchar 255, notNull := true, defaultValue := some "'project'" },
      { name := "name", type := SqlType.varchar 255, notNull := true },
      { name := "owner_gid", type := SqlType.varchar 255, references := some ("users", "gid") },
      { name := "team_gid", type := SqlType.varchar 255, references := some ("teams", "gid"), explicitNull := true },
      { name := "workspace_gid", type := SqlType.varchar 255, references := some ("workspaces", "gid"), notNull := true },
      { name := "default_view", type := SqlType.varchar 255, notNull := true, defaultValue := some "'list'" },
      { name := "color", type := SqlType.varchar 255 },
      { name := "privacy_setting", type := SqlType.varchar 255 },
      { name := "due_on", type := SqlType.date },
      { name := "start_on", type := SqlType.date }
    ] }

/-- The table `sections` (`CREATE TABLE sections`, line 67 of models.go). -/
def sections : Table :=
  { name := "sections"
    columns := [
      { name := "gid", type := SqlType.varchar 255, primaryKey := true },
      { name := "resource_type", type := SqlType.varchar 255, notNull := true, defaultValue := some "'section'" },
      { name := "name", type := SqlType.varchar 255, notNull := true },
      { name := "project_gid", type := SqlType.varchar 255, references := some ("projects", "gid") }
    ] }

/-- The table `tasks` (`CREATE TABLE tasks`, line 75 of models.go). -/
def tasks : Table :=
  { name := "tasks"
    columns := [
      { name := "gid", type := SqlType.varchar 255, primaryKey := true },
      { name := "resource_type", type := SqlType.varchar 255, notNull := true, defaultValue := some "'task'" },
      { name := "name", type := SqlType.varchar 255, notNull := true },
      { name := "notes", type := SqlType.text },
      { name := "assignee_gid", type := SqlType.varchar 255, references := some ("users", "gid"), explicitNull := true },
      { name := "completed", type := SqlType.boolean, notNull := true, defaultValue := some "FALSE" },
      { name := "due_on", type := SqlType.date, explicitNull := true },
      { name := "start_on", type := SqlType.date, explicitNull := true },
      { name := "parent_gid", type := SqlType.varchar 255, references := some ("tasks", "gid"), explicitNull := true },
      { name := "workspace_gid", type := SqlType.varchar 255, references := some ("workspaces", "gid"), notNull := true },
      { name := "created_at", type := SqlType.timestamptz, defaultValue := some "CURRENT_TIMESTAMP" },
      { name := "modified_at", type := SqlType.timestamptz, defaultValue := some "CURRENT_TIMESTAMP" },
      { name := "completed_at", type := SqlType.timestamptz, explicitNull := true },
      { name := "resource_subtype", type := SqlType.varchar 255 }
    ] }

/-- The table `portfolios` (`CREATE TABLE portfolios`, line 93 of models.go). -/
def portfolios : Table :=
  { name := "portfolios"
    columns := [
      { name := "gid", type := SqlType.varchar 255, primaryKey := true },
      { name := "name", type := SqlType.varchar 255, notNull := true },
      { name := "owner_gid", type := SqlType.varchar 255, references := some ("users", "gid") }
    ] }

/-- The table `goals` (`CREATE TABLE goals`, line 100 of models.go). -/
def goals : Table :=
  { name := "goals"
    columns := [
      { name := "gid", type := SqlType.varchar 255, primaryKey := true },
      { name := "name", type := SqlType.varchar 255, notNull := true },
      { name := "owner_gid", type := SqlType.varchar 255, references := some ("users", "gid") },
      { name := "time_period_gid", type := SqlType.varchar 255 },
      { name := "metric", type := SqlType.jsonb }
    ] }

/-- The table `project_tasks` (`CREATE TABLE project_tasks`, line 109 of models.go). -/
def project_tasks : Table :=
  { name := "project_tasks"
    columns := [
      { name := "project_gid", type := SqlType.varchar 255, references := some ("projects", "gid") },
      { name := "task_gid", type := SqlType.varchar 255, references := some ("tasks", "gid") }
    ]
    primaryKey := ["project_gid", "task_gid"] }

/-- The table `task_dependencies` (`CREATE TABLE task_dependencies`, line 116 of models.go). -/
def task_dependencies : Table :=
  { name := "task_dependencies"
    columns := [
      { name := "blocking_task_gid", type := SqlType.varchar 255, references := some ("tasks", "gid") },
      { name := "blocked_task_gid", type := SqlType.varchar 255, references := some ("tasks", "gid") }
    ]
    primaryKey := ["blocking_task_gid", "blocked_task_gid"] }

/-- The table `task_followers` (`CREATE TABLE task_followers`, line 123 of models.go). -/
def task_followers : Table :=
  { name := "task_followers"
    columns := [
      { name := "task_gid", type := SqlType.varchar 255, references := some ("tasks", "gid") },
      { name := "user_gid", type := SqlType.varchar 255, references := some ("users", "gid") }
    ]
    primaryKey := ["task_gid", "user_gid"] }

/-- The table `tags` (`CREATE TABLE tags`, line 130 of models.go). -/
def tags : Table :=
  { name := "tags"
    columns := [
      { name := "gid", type := SqlType.varchar 255, primaryKey := true },
      { name := "name", type := SqlType.varchar 255, unique := true, notNull := true }
    ] }

/-- The table `task_tags` (`CREATE TABLE task_tags`, line 135 of models.go). -/
def task_tags : Table :=
  { name := "task_tags"
    columns := [
      { name := "task_gid", type := SqlType.varchar 255, references := some ("tasks", "gid") },
      { name := "tag_gid", type := SqlType.varchar 255, references := some ("tags", "gid") }
    ]
    primaryKey := ["task_gid", "tag_gid"] }

/-- The table `portfolio_projects` (`CREATE TABLE portfolio_projects`, line 142 of models.go). -/
def portfolio_projects : Table :=
  { name := "portfolio_projects"
    columns := [
      { name := "portfolio_gid", type := SqlType.varchar 255, references := some ("portfolios", "gid") },
      { name := "project_gid", type := SqlType.varchar 255, references := some ("projects", "gid") }
    ]
    primaryKey := ["portfolio_gid", "project_gid"] }

/-- The table `goal_relationships` (`CREATE TABLE goal_relationships`, line 149 of models.go). -/
def goal_relationships : Table :=
  { name := "goal_relationships"
    columns := [
      { name := "parent_goal_gid", type := SqlType.varchar 255, references := some ("goals", "gid") },
      { name := "child_goal_gid", type := SqlType.varchar 255, references := some ("goals", "gid") }
    ]
    primaryKey := ["parent_goal_gid", "child_goal_gid"] }

/-- The table `custom_fields` (`CREATE TABLE custom_fields`, line 156 of models.go). -/
def custom_fields : Table :=
  { name := "custom_fields"
    columns := [
      { name := "gid", type := SqlType.varchar 255, primaryKey := true },
      { name := "name", type := SqlType.varchar 255, notNull := true },
      { name := "type", type := SqlType.varchar 255, notNull := true }
    ] }

/-- The table `project_custom_fields` (`CREATE TABLE project_custom_fields`, line 163 of models.go). -/
def project_custom_fields : Table :=
  { name := "project_custom_fields"
    columns := [
      { name := "project_gid", type := SqlType.varchar 255, references := some ("projects", "gid") },
      { name := "custom_field_gid", type := SqlType.varchar 255, references := some ("custom_fields", "gid") }
    ]
    primaryKey := ["project_gid", "custom_field_gid"] }

/-- The table `task_custom_field_values` (`CREATE TABLE task_custom_field_values`, line 170 of models.go). -/
def task_custom_field_values : Table :=
  { name := "task_custom_field_values"
    columns := [
      { name := "task_gid", type := SqlType.varchar 255, references := some ("tasks", "gid") },
      { name := "custom_field_gid", type := SqlType.varchar 255, references := some ("custom_fields", "gid") },
      { name := "text_value", type := SqlType.text, explicitNull := true },
      { name := "number_value", type := SqlType.numeric, explicitNull := true },
      { name := "enum_option_gid", type := SqlType.varchar 255, explicitNull := true }
    ]
    primaryKey := ["task_gid", "custom_field_gid"] }

/-- The table `rules` (`CREATE TABLE rules`, line 180 of models.go). -/
def rules : Table :=
  { name := "rules"
    columns := [
      { name := "gid", type := SqlType.varchar 255, primaryKey := true },
      { name := "project_gid", type := SqlType.varchar 255, references := some ("projects", "gid"), notNull := true },
      { name := "trigger_type", type := SqlType.varchar 255, notNull := true },
      { name := "name", type := SqlType.varchar 255 }
    ] }

/-- The table `rule_conditions` (`CREATE TABLE rule_conditions`, line 188 of models.go). -/
def rule_conditions : Table :=
  { name := "rule_conditions"
    columns := [
      { name := "gid", type := SqlType.varchar 255, primaryKey := true },
      { name := "rule_gid", type := SqlType.varchar 255, references := some ("rules", "gid"), notNull := true },
      { name := "field", type := SqlType.varchar 255, notNull := true },
      { name := "operator", type := SqlType.varchar 255, notNull := true },
      { name := "value", type := SqlType.text, notNull := true }
    ] }

/-- The table `rule_actions` (`CREATE TABLE rule_actions`, line 197 of models.go). -/
def rule_actions : Table :=
  { name := "rule_actions"
    columns := [
      { name := "gid", type := SqlType.varchar 255, primaryKey := true },
      { name := "rule_gid", type := SqlType.varchar 255, references := some ("rules", "gid"), notNull := true },
      { name := "action_type", type := SqlType.varchar 255, notNull := true },
      { name := "parameters", type := SqlType.jsonb }
    ] }

/-- The table `audit_log` (`CREATE TABLE audit_log`, line 205 of models.go). -/
def audit_log : Table :=
  { name := "audit_log"
    columns := [
      { name := "id", type := SqlType.serial, primaryKey := true },
      { name := "event_type", type := SqlType.varchar 255, notNull := true },
      { name := "entity_type", type := SqlType.varchar 255, notNull := true },
      { name := "entity_gid", type := SqlType.varchar 255, notNull := true },
      { name := "user_gid", type := SqlType.varchar 255, references := some ("users", "gid"), explicitNull := true },
      { name := "timestamp", type := SqlType.timestamptz, defaultValue := some "CURRENT_TIMESTAMP" },
      { name := "details", type := SqlType.jsonb }
    ] }

/-- The table `project_memberships` (`CREATE TABLE project_memberships`, line 216 of models.go). -/
def project_memberships : Table :=
  { name := "project_memberships"
    columns := [
      { name := "project_gid", type := SqlType.varchar 255, references := some ("projects", "gid") },
      { name := "user_gid", type := SqlType.varchar 255, references := some ("users", "gid") },
      { name := "role", type := SqlType.varchar 255, notNull := true }
    ]
    primaryKey := ["project_gid", "user_gid"] }

/-- The table `team_memberships` (`CREATE TABLE team_memberships`, line 224 of models.go). -/
def team_memberships : Table :=
  { name := "team_memberships"
    columns := [
      { name := "team_gid", type := SqlType.varchar 255, references := some ("teams", "gid") },
      { name := "user_gid", type := SqlType.varchar 255, references := some ("users", "gid") },
      { name := "role", type := SqlType.varchar 255, notNull := true }
    ]
    primaryKey := ["team_gid", "user_gid"] }

/-- The table `workspace_memberships` (`CREATE TABLE workspace_memberships`, line 232 of models.go). -/
def workspace_memberships : Table :=
  { name := "workspace_memberships"
    columns := [
      { name := "workspace_gid", type := SqlType.varchar 255, references := some ("workspaces", "gid") },
      { name := "user_gid", type := SqlType.varchar 255, references := some ("users", "gid") },
      { name := "role", type := SqlType.varchar 255, notNull := true }
    ]
    primaryKey := ["workspace_gid", "user_gid"] }

/-- The 25 tables of the CREATE TABLE block, in source order. -/
def schema : List Table := [
  workspaces, users, teams, projects, sections,
  tasks, portfolios, goals, project_tasks, task_dependencies,
  task_followers, tags, task_tags, portfolio_projects, goal_relationships,
  custom_fields, project_custom_fields, task_custom_field_values, rules, rule_conditions,
  rule_actions, audit_log, project_memberships, team_memberships, workspace_memberships
]

/-! ## Database states and the declared constraints -/

/-- A value stored in a column. -/
inductive Value
  | str (s : String)
  | bool (b : Bool)
  | int (i : Int)
  | date (day : Int)
  | timestamp (t : Int)
  | numeric (unscaled : Int) (scale : Nat)
  | json (text : String)
  | textArray (xs : List String)
  deriving DecidableEq, Repr

/-- A row: the non-NULL cells by column name; a column without a cell is
NULL. -/
abbrev Row := List (String × Value)

/-- The cell of a row in a column, `none` for NULL. -/
def cell (r : Row) (column : String) : Option Value :=
  List.lookup column r

/-- A database state: the rows of each table, by table name. -/
abbrev DB := String → List Row

/-- Whether a value belongs to a column type; a `VARCHAR(n)` holds at most `n`
characters, a `SERIAL` is a 32-bit integer. -/
def hasType : Value → SqlType → Bool
  | Value.str s, SqlType.varchar n => decide (s.length ≤ n)
  | Value.str _, SqlType.text => true
  | Value.textArray _, SqlType.textArray => true
  | Value.bool _, SqlType.boolean => true
  | Value.date _, SqlType.date => true
  | Value.timestamp _, SqlType.timestamptz => true
  | Value.json _, SqlType.jsonb => true
  | Value.numeric _ _, SqlType.numeric => true
  | Value.int i, SqlType.serial => decide (-2147483648 ≤ i ∧ i ≤ 2147483647)
  | _, _ => false

/-- Columns that admit no NULL: those marked `NOT NULL`, the columns of a
primary key (column-level or table-level) and `SERIAL` columns. -/
def required (t : Table) (c : Column) : Bool :=
  c.notNull || c.primaryKey || t.primaryKey.contains c.name || c.type == SqlType.serial

/-- UNIQUE on a column (also implied by a column-level PRIMARY KEY): of two
rows, the first is NULL there or the two cells differ. -/
def uniqueOn (column : String) (r1 r2 : Row) : Prop :=
  cell r1 column = none ∨ cell r1 column ≠ cell r2 column

/-- What a state has to satisfy for one column of a table: every cell has the
column's type; a required column has no NULL; a UNIQUE or PRIMARY KEY column
has no value twice; a `REFERENCES t(k)` cell, when not NULL, is the `k` of some
row of `t`. -/
def columnOk (db : DB) (t : Table) (c : Column) : Prop :=
  (∀ r ∈ db t.name, ∀ v ∈ cell r c.name, hasType v c.type = true) ∧
  (required t c = true → ∀ r ∈ db t.name, cell r c.name ≠ none) ∧
  ((c.unique = true ∨ c.primaryKey = true) → (db t.name).Pairwise (uniqueOn c.name)) ∧
  (∀ ref ∈ c.references, ∀ r ∈ db t.name, ∀ v ∈ cell r c.name,
    ∃ r2 ∈ db ref.1, cell r2 ref.2 = some v)

/-- The cells of a row in the columns of a key. -/
def keyOf (key : List String) (r : Row) : List (Option Value) :=
  key.map (cell r)

/-- What a state has to satisfy for one table: its rows have cells in columns
of the table only, every column is in order, and no two rows agree on a
table-level primary key. -/
def tableOk (db : DB) (t : Table) : Prop :=
  (∀ r ∈ db t.name, ∀ p ∈ r, p.1 ∈ t.columns.map fun c => c.name) ∧
  (∀ c ∈ t.columns, columnOk db t c) ∧
  (t.primaryKey ≠ [] →
    (db t.name).Pairwise fun r1 r2 => keyOf t.primaryKey r1 ≠ keyOf t.primaryKey r2)

/-- A state satisfies a schema when it satisfies every constraint declared in
every table definition. -/
def satisfies (s : List Table) (db : DB) : Prop :=
  ∀ t ∈ s, tableOk db t

instance (column : String) (r1 r2 : Row) : Decidable (uniqueOn column r1 r2) := by
  unfold uniqueOn; infer_instance

instance (db : DB) (t : Table) (c : Column) : Decidable (columnOk db t c) := by
  unfold columnOk; infer_instance

instance (db : DB) (t : Table) : Decidable (tableOk db t) := by
  unfold tableOk; infer_instance

instance (s : List Table) (db : DB) : Decidable (satisfies s db) := by
  unfold satisfies; infer_instance

/-! ## Definitions used to state the properties -/

/-- The column of a table with the given name. -/
def Table.column (t : Table) (name : String) : Option Column :=
  t.columns.find? fun c => c.name == name

/-- The names of the columns of a table, in order. -/
def Table.columnNames (t : Table) : List String :=
  t.columns.map fun c => c.name

/-- A field that carries a `gorm` key whose value `Lookup` cannot return: the
scan finds the quoted value, `strconv.Unquote` rejects it. -/
def malformedGorm (f : StructField) : Bool :=
  (rawValue f.tag "gorm").isSome && (Lookup f.tag "gorm").isNone

/-- The text a multi-line tag has after `default:`: a newline, the embedded SQL
lines, a newline and what the last line of the tag has before the closing
quote. -/
def embeddedDefault (tagLines : List String) (closing : String) : String :=
  String.mk ('\n' :: (joinLines (sqlLines tagLines) ++ '\n' :: closing.toList))

/-- Comparison of two texts character by character, from the front. -/
def sameChars : List Char → List Char → Bool
  | [], [] => true
  | a :: as, b :: bs => if a = b then sameChars as bs else false
  | _, _ => false

/-- Comparison of two optional texts with `sameChars`. -/
def sameText : Option String → Option String → Bool
  | some x, some y => sameChars x.toList y.toList
  | none, none => true
  | _, _ => false

/-- Go's `strconv.ParseBool`: the spellings of true and false it accepts. -/
def parseBool (s : String) : Option Bool :=
  if s = "1" ∨ s = "t" ∨ s = "T" ∨ s = "TRUE" ∨ s = "true" ∨ s = "True" then some true
  else if s = "0" ∨ s = "f" ∨ s = "F" ∨ s = "FALSE" ∨ s = "false" ∨ s = "False" then some false
  else none

/-- The six structs with a `ResourceType` field, each with its table. -/
def resourceTyped : List (StructDecl × Table) :=
  [(Workspace, workspaces), (User, users), (Team, teams), (Project, projects),
   (Section, sections), (Task, tasks)]

/-- The ten join relations, each struct with its table. -/
def joinRelations : List (StructDecl × Table) :=
  [(ProjectTask, project_tasks), (TaskDependency, task_dependencies),
   (TaskFollower, task_followers), (TaskTag, task_tags),
   (PortfolioProject, portfolio_projects), (GoalRelationship, goal_relationships),
   (ProjectCustomField, project_custom_fields), (ProjectMembership, project_memberships),
   (TeamMembership, team_memberships), (WorkspaceMembership, workspace_memberships)]

/-- The JSON names of the fields of a struct that carry the gorm setting
`primaryKey`. -/
def primaryKeyNames (s : StructDecl) : List String :=
  (s.fields.filter fun f => hasGormSetting f "PRIMARYKEY").filterMap jsonName

/-- Whether a column name ends in `_gid`. -/
def isGidColumn (name : String) : Bool :=
  name.toList.reverse.take 4 == ['d', 'i', 'g', '_']

/-- The row `parent` is the task the row `child` names in its `parent_gid`. -/
def parentOf (db : DB) (child parent : Row) : Prop :=
  child ∈ db "tasks" ∧ parent ∈ db "tasks" ∧
    cell child "parent_gid" ≠ none ∧ cell child "parent_gid" = cell parent "gid"

/-- No task is its own parent: a `parent_gid` that is present differs from the
task's own `gid`. -/
def noSelfParent (db : DB) : Prop :=
  ∀ r ∈ db "tasks", ∀ g ∈ cell r "parent_gid", cell r "gid" ≠ some g

/-- The parent chain has no cycle: following `parent_gid` one or more times
from a task never leads back to it. -/
def parentAcyclic (db : DB) : Prop :=
  ∀ r ∈ db "tasks", ¬ Relation.TransGen (parentOf db) r r

instance (db : DB) (child parent : Row) : Decidable (parentOf db child parent) := by
  unfold parentOf; infer_instance

instance (db : DB) : Decidable (noSelfParent db) := by
  unfold noSelfParent; infer_instance

/-- A task row with the required cells and the given gid, parent, completion
flag and completion time. -/
def taskRow (gid : String) (parent : Option String) (completed : Bool)
    (completedAt : Option Int) : Row :=
  [("gid", Value.str gid), ("resource_type", Value.str "task"), ("name", Value.str gid),
   ("completed", Value.bool completed), ("workspace_gid", Value.str "w1")]
  ++ (match parent with
      | none => []
      | some p => [("parent_gid", Value.str p)])
  ++ (match completedAt with
      | none => []
      | some t => [("completed_at", Value.timestamp t)])

/-- A state with the workspace `w1` and the given task rows, nothing else. -/
def tasksOnly (rows : List Row) : DB := fun t =>
  if t = "workspaces" then
    [[("gid", Value.str "w1"), ("resource_type", Value.str "workspace"),
      ("name", Value.str "Acme"), ("is_organization", Value.bool false)]]
  else if t = "tasks" then rows
  else []

/-- A state whose only task names itself as its parent. -/
def selfParentDB : DB :=
  tasksOnly [taskRow "t1" (some "t1") false none]

/-- A state with two tasks, each the parent of the other. -/
def parentCycleDB : DB :=
  tasksOnly [taskRow "t1" (some "t2") false none, taskRow "t2" (some "t1") false none]

/-- A state whose only task is completed and has no completion time. -/
def completedUnstampedDB : DB :=
  tasksOnly [taskRow "t1" none true none]

/-- A state whose only task is not completed and has a completion time. -/
def openStampedDB : DB :=
  tasksOnly [taskRow "t1" none false (some 1700000000)]

/-- A user row with the required cells. -/
def userRow (gid email : String) : Row :=
  [("gid", Value.str gid), ("resource_type", Value.str "user"), ("name", Value.str gid),
   ("email", Value.str email)]

/-- A tag row. -/
def tagRow (gid name : String) : Row :=
  [("gid", Value.str gid), ("name", Value.str name)]

/-- A row of a join table: its two key cells. -/
def joinRow (left leftGid right rightGid : String) : Row :=
  [(left, Value.str leftGid), (right, Value.str rightGid)]

/-- A state with one workspace, two users, one project, two tasks (the second
a completed subtask of the first, both in the project) and two tags. -/
def sampleDB : DB := fun t =>
  if t = "workspaces" then
    [[("gid", Value.str "w1"), ("resource_type", Value.str "workspace"),
      ("name", Value.str "Acme"), ("is_organization", Value.bool true)]]
  else if t = "users" then
    [userRow "u1" "ana@acme.test", userRow "u2" "rui@acme.test"]
  else if t = "projects" then
    [[("gid", Value.str "p1"), ("resource_type", Value.str "project"),
      ("name", Value.str "Launch"), ("owner_gid", Value.str "u1"),
      ("workspace_gid", Value.str "w1"), ("default_view", Value.str "list")]]
  else if t = "tasks" then
    [taskRow "t1" none false none, taskRow "t2" (some "t1") true (some 1700000000)]
  else if t = "tags" then
    [tagRow "g1" "urgent", tagRow "g2" "later"]
  else if t = "project_tasks" then
    [joinRow "project_gid" "p1" "task_gid" "t1", joinRow "project_gid" "p1" "task_gid" "t2"]
  else []

/-! ## Further states and definitions used to state the properties -/

/-- A state given by the rows of the tables it lists; every other table is
empty. -/
def stateOf (tables : List (String × List Row)) : DB := fun t =>
  (List.lookup t tables).getD []

/-- The cells a row has for an optional text: none for NULL. -/
def optionalCell (column : String) (value : Option String) : Row :=
  match value with
  | none => []
  | some v => [(column, Value.str v)]

/-- A workspace row with the required cells. -/
def workspaceRow (gid : String) : Row :=
  [("gid", Value.str gid), ("resource_type", Value.str "workspace"),
   ("name", Value.str gid), ("is_organization", Value.bool false)]

/-- A team row with the required cells. -/
def teamRow (gid : String) : Row :=
  [("gid", Value.str gid), ("resource_type", Value.str "team"), ("name", Value.str gid)]

/-- A project row of workspace `w1` with the required cells and the given
owner and team, each possibly NULL. -/
def projectRow (gid : String) (owner team : Option String) : Row :=
  [("gid", Value.str gid), ("resource_type", Value.str "project"), ("name", Value.str gid),
   ("workspace_gid", Value.str "w1"), ("default_view", Value.str "list")]
  ++ optionalCell "owner_gid" owner ++ optionalCell "team_gid" team

/-- A task row of workspace `w1` that differs from another such row in its
`gid` only. -/
def plainTask (gid : String) : Row :=
  [("gid", Value.str gid), ("resource_type", Value.str "task"),
   ("name", Value.str "Write the report"), ("completed", Value.bool false),
   ("workspace_gid", Value.str "w1"), ("created_at", Value.timestamp 1700000000),
   ("modified_at", Value.timestamp 1700000000)]

/-- A custom field row. -/
def customFieldRow (gid kind : String) : Row :=
  [("gid", Value.str gid), ("name", Value.str gid), ("type", Value.str kind)]

/-- A row of `task_custom_field_values` with the given text, number and enum
option, each possibly NULL. -/
def valueRow (task field : String) (text : Option String) (number : Option Int)
    (enumOption : Option String) : Row :=
  [("task_gid", Value.str task), ("custom_field_gid", Value.str field)]
  ++ optionalCell "text_value" text
  ++ (match number with
      | none => []
      | some n => [("number_value", Value.numeric n 0)])
  ++ optionalCell "enum_option_gid" enumOption

/-- A rule row. -/
def ruleRow (gid project : String) : Row :=
  [("gid", Value.str gid), ("project_gid", Value.str project),
   ("trigger_type", Value.str "task.created")]

/-- A rule condition row. -/
def conditionRow (gid rule : String) : Row :=
  [("gid", Value.str gid), ("rule_gid", Value.str rule), ("field", Value.str "name"),
   ("operator", Value.str "="), ("value", Value.str "x")]

/-- A rule action row. -/
def actionRow (gid rule : String) : Row :=
  [("gid", Value.str gid), ("rule_gid", Value.str rule),
   ("action_type", Value.str "add_comment")]

/-- A state with one workspace, one user, one team, two projects (the second
without a team), two tasks that differ in their gid only, the first task in
both projects and the second in the first project, one custom field attached
to the first project and valued on the first task, and two rules of the first
project, the second without conditions and actions. -/
def workDB : DB :=
  stateOf
    [("workspaces", [workspaceRow "w1"]),
     ("users", [userRow "u1" "ana@acme.test"]),
     ("teams", [teamRow "tm1"]),
     ("projects", [projectRow "p1" (some "u1") (some "tm1"), projectRow "p2" (some "u1") none]),
     ("tasks", [plainTask "t1", plainTask "t2"]),
     ("project_tasks",
       [joinRow "project_gid" "p1" "task_gid" "t1", joinRow "project_gid" "p2" "task_gid" "t1",
        joinRow "project_gid" "p1" "task_gid" "t2"]),
     ("custom_fields", [customFieldRow "f1" "text"]),
     ("project_custom_fields", [joinRow "project_gid" "p1" "custom_field_gid" "f1"]),
     ("task_custom_field_values", [valueRow "t1" "f1" (some "draft") none none]),
     ("rules", [ruleRow "r1" "p1", ruleRow "r2" "p1"]),
     ("rule_conditions", [conditionRow "c1" "r1"]),
     ("rule_actions", [actionRow "a1" "r1"])]

/-- A state with a task and a custom field valued on it, the task in no
project and the field attached to no project. -/
def unattachedValueDB : DB :=
  stateOf
    [("workspaces", [workspaceRow "w1"]),
     ("tasks", [plainTask "t1"]),
     ("custom_fields", [customFieldRow "f1" "text"]),
     ("task_custom_field_values", [valueRow "t1" "f1" (some "draft") none none])]

/-- A state whose only project has no owner and no team. -/
def ownerlessProjectDB : DB :=
  stateOf [("workspaces", [workspaceRow "w1"]), ("projects", [projectRow "p1" none none])]

/-- A state with one custom field value row, with the given three values. -/
def valueDB (text : Option String) (number : Option Int) (enumOption : Option String) : DB :=
  stateOf
    [("workspaces", [workspaceRow "w1"]),
     ("tasks", [plainTask "t1"]),
     ("custom_fields", [customFieldRow "f1" "text"]),
     ("task_custom_field_values", [valueRow "t1" "f1" text number enumOption])]

/-- Every custom field value row belongs to a project that contains its task
and has its custom field attached. -/
def fieldAttached (db : DB) : Prop :=
  ∀ r ∈ db "task_custom_field_values",
    ∃ pt ∈ db "project_tasks", ∃ pc ∈ db "project_custom_fields",
      cell pt "task_gid" = cell r "task_gid" ∧
      cell pc "custom_field_gid" = cell r "custom_field_gid" ∧
      cell pt "project_gid" = cell pc "project_gid"

instance (db : DB) : Decidable (fieldAttached db) := by
  unfold fieldAttached; infer_instance

/-- The thirteen entity structs, each with its table. -/
def entityStructs : List (StructDecl × Table) :=
  [(Workspace, workspaces), (User, users), (Team, teams), (Project, projects),
   (Section, sections), (Task, tasks), (Portfolio, portfolios), (Goal, goals),
   (CustomField, custom_fields), (Rule, rules), (RuleCondition, rule_conditions),
   (RuleAction, rule_actions), (AuditLog, audit_log)]

/-- The fields of a struct that carry the gorm setting `primaryKey`: Go name,
type and JSON name of each. -/
def keyFields (s : StructDecl) : List (String × GoType × Option String) :=
  (s.fields.filter fun f => hasGormSetting f "PRIMARYKEY").map fun f =>
    (f.name, f.type, jsonName f)

/-- The columns of a table marked `PRIMARY KEY`: name and type of each. -/
def keyColumns (t : Table) : List (String × SqlType) :=
  (t.columns.filter fun c => c.primaryKey).map fun c => (c.name, c.type)

/-- The cell of `r` in `column` is present and is the `gid` of exactly one row
of the table `target`: some row has it, and two rows that have it stand at one
position. -/
def refersToOne (db : DB) (r : Row) (column target : String) : Prop :=
  ∃ v, cell r column = some v ∧ (∃ p ∈ db target, cell p "gid" = some v) ∧
    ∀ (i j : Nat) (p q : Row), (db target)[i]? = some p → (db target)[j]? = some q →
      cell p "gid" = some v → cell q "gid" = some v → i = j

/-- The comment of a struct has one of the two shapes
`// X representa a tabela Y` and `// X representa a tabela de junção Y`. -/
def commentShape (s : StructDecl) : Prop :=
  commentWords s.comment = ["//", s.name, "representa", "a", "tabela", tableOf s] ∨
  commentWords s.comment =
    ["//", s.name, "representa", "a", "tabela", "de", "junção", tableOf s]

instance (s : StructDecl) : Decidable (commentShape s) := by
  unfold commentShape; infer_instance

/-- The state without the row at position `i` of the table `name`; every other
row stays. -/
def removeRow (db : DB) (name : String) (i : Nat) : DB := fun t =>
  if t = name then (db t).eraseIdx i else db t

/-- The `REFERENCES` clause of a column holds in a state: every cell of the
column that is not NULL is the referenced column of some row of the referenced
table. -/
def referencesOk (db : DB) (t : Table) (c : Column) : Prop :=
  ∀ ref ∈ c.references, ∀ r ∈ db t.name, ∀ v ∈ cell r c.name,
    ∃ r2 ∈ db ref.1, cell r2 ref.2 = some v

/-- Whether `needle` occurs in `text` as a run of consecutive characters. -/
def occursIn (needle : List Char) : List Char → Bool
  | [] => needle.isEmpty
  | c :: cs => needle.isPrefixOf (c :: cs) || occursIn needle cs

/-- Whether a name, in lower case, contains `delet` (as `deleted_at`,
`DeletedAt`, `is_deleted` do). -/
def namesDeletion (name : String) : Bool :=
  occursIn ['d', 'e', 'l', 'e', 't'] (name.toList.map Char.toLower)

/-- The six multi-line tags, by the field they belong to. -/
def embeddedCopies : List (String × List String) :=
  [("User.ResourceType", User_ResourceType_tagLines),
   ("Team.ResourceType", Team_ResourceType_tagLines),
   ("Project.ResourceType", Project_ResourceType_tagLines),
   ("Project.DefaultView", Project_DefaultView_tagLines),
   ("Section.ResourceType", Section_ResourceType_tagLines),
   ("Task.ResourceType", Task_ResourceType_tagLines)]

/-! ## Keys, nullability and the readability of the gorm values -/

/-- The columns of the primary key of a table: the columns marked
`PRIMARY KEY` and those of the table-level `PRIMARY KEY (...)` item. -/
def tableKey (t : Table) : List String :=
  ((t.columns.filter fun c => c.primaryKey).map fun c => c.name) ++ t.primaryKey

/-- Whether a column is part of the primary key of its table. -/
def inKey (t : Table) (c : Column) : Bool :=
  c.primaryKey || t.primaryKey.contains c.name

/-- The Go types that can hold NULL: `sql.NullString`, `sql.NullTime` and
`sql.NullFloat64`. -/
def nullableGoType : GoType → Bool
  | GoType.nullString => true
  | GoType.nullTime => true
  | GoType.nullFloat64 => true
  | _ => false

/-- The Go types `string`, `bool`, `int` and `time.Time`, which cannot hold
NULL. -/
def plainGoType : GoType → Bool
  | GoType.string => true
  | GoType.bool => true
  | GoType.int => true
  | GoType.time => true
  | _ => false

/-- The columns written with an explicit `NULL`, each with its table. -/
def explicitNullColumns : List (String × String) :=
  schema.flatMap fun t =>
    (t.columns.filter fun c => c.explicitNull).map fun c => (t.name, c.name)

/-- Whether the text of the tag has a `gorm` key: the characters `gorm:"`
occur in it. -/
def carriesGorm (f : StructField) : Bool :=
  occursIn ['g', 'o', 'r', 'm', ':', '"'] f.tag.toList

/-- The seven fields whose gorm value does not unquote, struct name and field
name of each. -/
def gormFailures : List (String × String) :=
  [("Workspace", "ResourceType"), ("User", "ResourceType"), ("Team", "ResourceType"),
   ("Project", "ResourceType"), ("Project", "DefaultView"), ("Section", "ResourceType"),
   ("Task", "ResourceType")]

/-- Whether the text written as the gorm value of a field has a raw newline,
and whether it has the two characters `\'`. -/
def gormValueFlaws (f : StructField) : Option (Bool × Bool) :=
  (rawValue f.tag "gorm").map fun v =>
    (occursIn ['\n'] v.toList, occursIn ['\\', '\''] v.toList)

/-! ## The fuel of the tag scan is never used up -/

/-- Skipping blanks does not lengthen the tag. -/
theorem skipSpaces_length_le : ∀ l : List Char, (skipSpaces l).length ≤ l.length
  | [] => Nat.le_refl _
  | c :: cs => by
    by_cases hc : c = ' '
    · rw [skipSpaces, if_pos hc]
      exact Nat.le_trans (skipSpaces_length_le cs) (Nat.le_succ _)
    · rw [skipSpaces, if_neg hc]

/-- What follows the key is no longer than what was scanned. -/
theorem scanKey_rest_length_le :
    ∀ (l acc : List Char), (scanKey acc l).2.length ≤ l.length
  | [], acc => by simp [scanKey]
  | c :: cs, acc => by
    by_cases hc : isKeyChar c = true
    · rw [scanKey, if_pos hc]
      exact Nat.le_trans (scanKey_rest_length_le cs (c :: acc)) (Nat.le_succ _)
    · rw [scanKey, if_neg hc]

/-- What follows the closing quote is shorter than what was scanned. -/
theorem scanQuoted_rest_length_lt :
    ∀ (n : Nat) (l acc q tail : List Char), l.length ≤ n →
      scanQuoted acc l = some (q, tail) → tail.length < l.length
  | _, [], acc, q, tail, _, h => by simp [scanQuoted] at h
  | 0, c :: cs, _, _, _, hn, _ => by simp at hn
  | n + 1, c :: cs, acc, q, tail, hn, h => by
    have hcs : cs.length ≤ n := by
      simp only [List.length_cons] at hn
      omega
    rw [scanQuoted.eq_def] at h
    by_cases h1 : c = '"'
    · simp only [if_pos h1] at h
      have ht : cs = tail := (Prod.mk.inj (Option.some.inj h)).2
      rw [← ht]
      exact Nat.lt_succ_self _
    · by_cases h2 : c = '\\'
      · cases cs with
        | nil =>
          simp only [if_neg h1, if_pos h2] at h
          exact Option.noConfusion h
        | cons d ds =>
          simp only [if_neg h1, if_pos h2] at h
          have hds : ds.length ≤ n := by
            simp only [List.length_cons] at hcs
            omega
          have := scanQuoted_rest_length_lt n ds (d :: c :: acc) q tail hds h
          simp only [List.length_cons]
          omega
      · simp only [if_neg h1, if_neg h2] at h
        have := scanQuoted_rest_length_lt n cs (c :: acc) q tail hcs h
        simp only [List.length_cons]
        omega

/-- Fuel longer than the tag is never used up: the scan gives the same result
with any two such amounts. -/
theorem lookupLoop_fuel (unq : Bool) (key : List Char) :
    ∀ (fuel fuel2 tag : List Char), tag.length < fuel.length → tag.length < fuel2.length →
      lookupLoop unq fuel tag key = lookupLoop unq fuel2 tag key
  | [], _, _, h, _ => by simp at h
  | _ :: _, [], _, _, h => by simp at h
  | _ :: fuel, _ :: fuel2, tag, h1, h2 => by
    have hskip := skipSpaces_length_le tag
    have ih : ∀ tail : List Char, tail.length < tag.length →
        lookupLoop unq fuel tail key = lookupLoop unq fuel2 tail key := by
      intro tail ht
      simp only [List.length_cons] at h1 h2
      exact lookupLoop_fuel unq key fuel fuel2 tail (by omega) (by omega)
    rw [lookupLoop, lookupLoop]
    cases hts : skipSpaces tag with
    | nil => rfl
    | cons t ts =>
      rw [hts] at hskip
      have hkey := scanKey_rest_length_le (t :: ts) []
      cases hsk : scanKey [] (t :: ts) with
      | mk name after =>
        rw [hsk] at hkey
        simp only [hsk]
        cases after with
        | nil => cases name <;> rfl
        | cons c1 after1 =>
          cases after1 with
          | nil => cases name <;> rfl
          | cons c2 rest =>
            cases name with
            | nil => rfl
            | cons n0 ns =>
              by_cases hc : c1 = ':' ∧ c2 = '"'
              · simp only [if_pos hc]
                cases hq : scanQuoted [] rest with
                | none => rfl
                | some p =>
                  cases p with
                  | mk qvalue tail =>
                    have hlt := scanQuoted_rest_length_lt rest.length rest [] qvalue tail
                      (Nat.le_refl _) hq
                    by_cases hk : key = n0 :: ns
                    · simp only [if_pos hk]
                    · simp only [if_neg hk]
                      apply ih
                      simp only [List.length_cons] at hkey hskip
                      omega
              · simp only [if_neg hc]

/-- The function `Lookup` gives the result of the scan with any fuel longer than the
tag. -/
theorem Lookup_eq_of_fuel (tag key : String) (fuel : List Char)
    (h : tag.toList.length < fuel.length) :
    Lookup tag key = (lookupLoop true fuel tag.toList key.toList).map String.mk := by
  unfold Lookup
  rw [lookupLoop_fuel true key.toList (' ' :: tag.toList) fuel tag.toList (by simp) h]

/-- The function `rawValue` gives the result of the scan with any fuel longer than the
tag. -/
theorem rawValue_eq_of_fuel (tag key : String) (fuel : List Char)
    (h : tag.toList.length < fuel.length) :
    rawValue tag key = (lookupLoop false fuel tag.toList key.toList).map String.mk := by
  unfold rawValue
  rw [lookupLoop_fuel false key.toList (' ' :: tag.toList) fuel tag.toList (by simp) h]


/-! ## The scan of a tag that embeds a block of lines -/

/-- The scan of a quoted value passes over characters that are neither a quote
nor a backslash. -/
theorem scanQuoted_append_plain : ∀ (a acc b : List Char),
    (∀ c ∈ a, c ≠ '"' ∧ c ≠ '\\') →
      scanQuoted acc (a ++ b) = scanQuoted (a.reverse ++ acc) b
  | [], _, _, _ => rfl
  | c :: cs, acc, b, h => by
    have hc := h c (List.mem_cons_self _ _)
    have hcs : ∀ d ∈ cs, d ≠ '"' ∧ d ≠ '\\' := fun d hd => h d (List.mem_cons_of_mem _ hd)
    rw [List.cons_append, scanQuoted.eq_def]
    simp only [if_neg hc.1, if_neg hc.2]
    rw [scanQuoted_append_plain cs (c :: acc) b hcs]
    simp only [List.reverse_cons, List.append_assoc, List.singleton_append]

/-- The characters collected before the scan starts stay in front of what the
scan collects. -/
theorem scanQuoted_acc : ∀ (n : Nat) (l acc : List Char), l.length ≤ n →
    scanQuoted acc l = (scanQuoted [] l).map fun p => (acc.reverse ++ p.1, p.2)
  | _, [], _, _ => by simp [scanQuoted]
  | 0, _ :: _, _, hn => by simp at hn
  | n + 1, c :: cs, acc, hn => by
    have hcs : cs.length ≤ n := by
      simp only [List.length_cons] at hn
      omega
    rw [scanQuoted.eq_def, scanQuoted.eq_def [] (c :: cs)]
    by_cases h1 : c = '"'
    · simp only [if_pos h1]
      simp
    · by_cases h2 : c = '\\'
      · cases cs with
        | nil => simp only [if_neg h1, if_pos h2]; rfl
        | cons d ds =>
          have hds : ds.length ≤ n := by
            simp only [List.length_cons] at hcs
            omega
          simp only [if_neg h1, if_pos h2]
          rw [scanQuoted_acc n ds (d :: c :: acc) hds, scanQuoted_acc n ds [d, c] hds]
          simp [Option.map_map, Function.comp_def]
      · simp only [if_neg h1, if_neg h2]
        rw [scanQuoted_acc n cs (c :: acc) hcs, scanQuoted_acc n cs [c] hcs]
        simp [Option.map_map, Function.comp_def]

/-- The scan of a quoted value that starts with characters that are neither a
quote nor a backslash: these characters, then what the scan of the rest
gives. -/
theorem scanQuoted_plain_then (a b q tail : List Char) (ha : ∀ c ∈ a, c ≠ '"' ∧ c ≠ '\\')
    (hb : scanQuoted [] b = some (q, tail)) : scanQuoted [] (a ++ b) = some (a ++ q, tail) := by
  rw [scanQuoted_append_plain a [] b ha, scanQuoted_acc b.length b _ (Nat.le_refl _), hb]
  simp

/-- One round of the scan of `Lookup` on a tag that starts with `gorm:"`. -/
theorem lookupLoop_gorm_first (unq : Bool) (x : Char) (fuel rest q tail key : List Char)
    (h : scanQuoted [] rest = some (q, tail)) :
    lookupLoop unq (x :: fuel) ('g' :: 'o' :: 'r' :: 'm' :: ':' :: '"' :: rest) key =
      if key = ['g', 'o', 'r', 'm'] then (if unq then unquoteChars [] q else some q)
      else lookupLoop unq fuel tail key := by
  rw [lookupLoop]
  have h1 : skipSpaces ('g' :: 'o' :: 'r' :: 'm' :: ':' :: '"' :: rest) =
      'g' :: 'o' :: 'r' :: 'm' :: ':' :: '"' :: rest := rfl
  have h2 : scanKey [] ('g' :: 'o' :: 'r' :: 'm' :: ':' :: '"' :: rest) =
      (['g', 'o', 'r', 'm'], ':' :: '"' :: rest) := rfl
  simp only [h1, h2, h, and_self, if_true]

/-- A value that has a raw newline after `default:` does not unquote. -/
theorem unquoteChars_default_newline (rest : List Char) :
    unquoteChars [] ('d' :: 'e' :: 'f' :: 'a' :: 'u' :: 'l' :: 't' :: ':' :: '\n' :: rest) =
      none := by
  delta unquoteChars
  rfl

/-- The text of a first line followed by further lines. -/
theorem joinLines_cons (first : String) : ∀ rest : List String, rest ≠ [] →
    joinLines (first :: rest) = first.toList ++ '\n' :: joinLines rest
  | [], h => absurd rfl h
  | _ :: _, _ => rfl

/-- The text of lines followed by a last line. -/
theorem joinLines_append_last (last : String) : ∀ mid : List String, mid ≠ [] →
    joinLines (mid ++ [last]) = joinLines mid ++ '\n' :: last.toList
  | [], h => absurd rfl h
  | [l], _ => rfl
  | l :: l2 :: ls, _ => by
    have ih := joinLines_append_last last (l2 :: ls) (List.cons_ne_nil _ _)
    rw [List.cons_append, joinLines_cons l _ (by simp), ih,
      joinLines_cons l _ (List.cons_ne_nil _ _)]
    simp only [List.append_assoc, List.cons_append]

/-- The scan of `Lookup` on a tag written over several lines, its first line
`gorm:"default:`, then lines without a quote and a backslash, then a last line
on which the quoted value ends: for the key `gorm` the value found has a raw
newline and does not unquote; for any other key the scan goes on after the
closing quote. -/
theorem lookupLoop_embedded (unq : Bool) (lines mid : List String) (last : String)
    (q tail key fuel : List Char)
    (hlines : lines = "gorm:\"default:" :: (mid ++ [last]))
    (hmid : mid ≠ [])
    (hplain : ∀ c ∈ joinLines mid, c ≠ '"' ∧ c ≠ '\\')
    (hlast : scanQuoted [] last.toList = some (q, tail)) :
    lookupLoop unq (' ' :: fuel) (joinLines lines) key =
      if key = ['g', 'o', 'r', 'm'] then
        (if unq then none
         else some ('d' :: 'e' :: 'f' :: 'a' :: 'u' :: 'l' :: 't' :: ':' :: '\n' ::
           (joinLines mid ++ '\n' :: q)))
      else lookupLoop unq fuel tail key := by
  have hj : joinLines lines =
      'g' :: 'o' :: 'r' :: 'm' :: ':' :: '"' ::
        (('d' :: 'e' :: 'f' :: 'a' :: 'u' :: 'l' :: 't' :: ':' :: '\n' ::
          (joinLines mid ++ ['\n'])) ++ last.toList) := by
    rw [hlines, joinLines_cons _ _ (by simp), joinLines_append_last _ _ hmid]
    simp only [List.cons_append, List.append_assoc, List.nil_append]
    rfl
  have ha : ∀ c ∈ 'd' :: 'e' :: 'f' :: 'a' :: 'u' :: 'l' :: 't' :: ':' :: '\n' ::
      (joinLines mid ++ ['\n']), c ≠ '"' ∧ c ≠ '\\' := by
    intro c hc
    simp only [List.mem_cons, List.mem_append, List.mem_singleton, List.not_mem_nil,
      or_false] at hc
    rcases hc with h | h | h | h | h | h | h | h | h | h | h
    any_goals (rw [h]; exact ⟨by decide, by decide⟩)
    exact hplain c h
  rw [hj, lookupLoop_gorm_first unq ' ' fuel _ _ _ key (scanQuoted_plain_then _ _ q tail ha hlast)]
  by_cases hk : key = ['g', 'o', 'r', 'm']
  · simp only [if_pos hk]
    cases unq with
    | true =>
      simp only [List.cons_append, if_true]
      exact unquoteChars_default_newline _
    | false => simp
  · simp only [if_neg hk]

/-- The characters of joined lines are those of the lines and the newline. -/
theorem mem_joinLines : ∀ (ls : List String) (c : Char), c ∈ joinLines ls →
    c = '\n' ∨ ∃ l ∈ ls, c ∈ l.toList
  | [], _, h => by simp [joinLines] at h
  | [l], c, h => Or.inr ⟨l, List.mem_singleton.mpr rfl, h⟩
  | l :: l2 :: ls, c, h => by
    rw [joinLines_cons l _ (List.cons_ne_nil _ _)] at h
    simp only [List.mem_append, List.mem_cons] at h
    rcases h with h | h | h
    · exact Or.inr ⟨l, List.mem_cons_self _ _, h⟩
    · exact Or.inl h
    · rcases mem_joinLines (l2 :: ls) c h with h2 | ⟨m, hm, hc⟩
      · exact Or.inl h2
      · exact Or.inr ⟨m, List.mem_cons_of_mem _ hm, hc⟩

/-- No SQL line embedded in the tag of `User.ResourceType` has a quote or a
backslash. -/
theorem sqlLines_plain_lines :
    ∀ l ∈ sqlLines User_ResourceType_tagLines,
      (l.toList.all fun c => c != '"' && c != '\\') = true := by
  decide!

/-- The SQL text embedded in the tag of `User.ResourceType` has no quote and no
backslash. -/
theorem sqlLines_plain :
    ∀ c ∈ joinLines (sqlLines User_ResourceType_tagLines), c ≠ '"' ∧ c ≠ '\\' := by
  intro c hc
  rcases mem_joinLines _ c hc with h | ⟨l, hl, hcl⟩
  · rw [h]
    exact ⟨by decide, by decide⟩
  · have := List.all_eq_true.mp (sqlLines_plain_lines l hl) c hcl
    simpa using this

/-- A text without a backslash in front of another text has the escape `\e`
where the other text has it. -/
theorem occursIn_escape_append (e : Char) : ∀ (a b : List Char),
    (∀ c ∈ a, c ≠ '"' ∧ c ≠ '\\') → occursIn ['\\', e] (a ++ b) = occursIn ['\\', e] b
  | [], _, _ => rfl
  | c :: cs, b, h => by
    have hc := h c (List.mem_cons_self _ _)
    have hcs : ∀ d ∈ cs, d ≠ '"' ∧ d ≠ '\\' := fun d hd => h d (List.mem_cons_of_mem _ hd)
    have hne : ('\\' == c) = false := by
      rw [beq_eq_false_iff_ne]
      exact fun hh => hc.2 hh.symm
    rw [List.cons_append, occursIn, occursIn_escape_append e cs b hcs]
    simp only [List.isPrefixOf, hne, Bool.false_and, Bool.false_or]

/-- What the tag readers find in a tag written over several lines, its first
line `gorm:"default:`, then lines without a quote and a backslash, then a last
line on which the quoted value ends: `Lookup` returns nothing for the key
`gorm`, the text between the quotes is `default:`, a newline, the lines, a
newline and the start of the last line, and the key `json` is looked up after
the closing quote. -/
theorem embedded_tag (lines mid : List String) (last : String) (q tail : List Char)
    (hlines : lines = "gorm:\"default:" :: (mid ++ [last]))
    (hmid : mid ≠ [])
    (hplain : ∀ c ∈ joinLines mid, c ≠ '"' ∧ c ≠ '\\')
    (hlast : scanQuoted [] last.toList = some (q, tail)) :
    Lookup (String.mk (joinLines lines)) "gorm" = none ∧
    rawValue (String.mk (joinLines lines)) "gorm" =
      some (String.mk ('d' :: 'e' :: 'f' :: 'a' :: 'u' :: 'l' :: 't' :: ':' :: '\n' ::
        (joinLines mid ++ '\n' :: q))) ∧
    Lookup (String.mk (joinLines lines)) "json" =
      (lookupLoop true (joinLines lines) tail ['j', 's', 'o', 'n']).map String.mk := by
  have hscan := fun unq key =>
    lookupLoop_embedded unq lines mid last q tail key (joinLines lines) hlines hmid hplain hlast
  refine ⟨?_, ?_, ?_⟩
  · show (lookupLoop true (' ' :: joinLines lines) (joinLines lines) ['g', 'o', 'r', 'm']).map
      String.mk = none
    rw [hscan]
    rfl
  · show (lookupLoop false (' ' :: joinLines lines) (joinLines lines) ['g', 'o', 'r', 'm']).map
      String.mk = _
    rw [hscan]
    rfl
  · show (lookupLoop true (' ' :: joinLines lines) (joinLines lines) ['j', 's', 'o', 'n']).map
      String.mk = _
    rw [hscan, if_neg (by decide)]

/-- Whether the gorm value of such a tag has the escape of a single quote is
settled on its last line. -/
theorem embedded_escape (mid : List String) (q : List Char)
    (hplain : ∀ c ∈ joinLines mid, c ≠ '"' ∧ c ≠ '\\') :
    occursIn ['\\', '\''] ('d' :: 'e' :: 'f' :: 'a' :: 'u' :: 'l' :: 't' :: ':' :: '\n' ::
        (joinLines mid ++ '\n' :: q)) = occursIn ['\\', '\''] q := by
  have ha : ∀ c ∈ 'd' :: 'e' :: 'f' :: 'a' :: 'u' :: 'l' :: 't' :: ':' :: '\n' ::
      (joinLines mid ++ ['\n']), c ≠ '"' ∧ c ≠ '\\' := by
    intro c hc
    simp only [List.mem_cons, List.mem_append, List.mem_singleton, List.not_mem_nil,
      or_false] at hc
    rcases hc with h | h | h | h | h | h | h | h | h | h | h
    any_goals (rw [h]; exact ⟨by decide, by decide⟩)
    exact hplain c h
  have := occursIn_escape_append '\'' _ q ha
  simpa only [List.cons_append, List.append_assoc, List.nil_append] using this

/-! ## What the tag readers find in the six multi-line tags -/

/-- No gorm setting is readable in a tag for which `Lookup` returns no gorm
value. -/
theorem gormSettings_unreadable (name : String) (type : GoType) (tag : String)
    (h : Lookup tag "gorm" = none) : gormSettings (StructField.mk name type tag) = [] := by
  simp only [gormSettings, h]

/-- No gorm setting has a value in a tag for which `Lookup` returns no gorm
value. -/
theorem gormSetting_unreadable (name : String) (type : GoType) (tag : String)
    (h : Lookup tag "gorm" = none) (key : String) :
    gormSetting (StructField.mk name type tag) key = none := by
  simp only [gormSetting, gormSettings_unreadable name type tag h]
  rfl

/-- No gorm setting is carried by a tag for which `Lookup` returns no gorm
value. -/
theorem hasGormSetting_unreadable (name : String) (type : GoType) (tag : String)
    (h : Lookup tag "gorm" = none) (key : String) :
    hasGormSetting (StructField.mk name type tag) key = false := by
  simp only [hasGormSetting, gormSetting_unreadable name type tag h]
  rfl

/-- A tag whose gorm value is found by the scan and not returned by `Lookup`
is malformed. -/
theorem malformedGorm_unreadable (name : String) (type : GoType) (tag raw : String)
    (h : Lookup tag "gorm" = none) (hr : rawValue tag "gorm" = some raw) :
    malformedGorm (StructField.mk name type tag) = true := by
  simp only [malformedGorm, h, hr]
  rfl

/-- The JSON name of a field, from the json value `Lookup` returns for its
tag. -/
theorem jsonName_of_lookup (name : String) (type : GoType) (tag v : String)
    (h : Lookup tag "json" = some v) :
    jsonName (StructField.mk name type tag) =
      if v = "-" then none
      else
        match splitOnChar ',' v with
        | [] => some name
        | n :: _ => if isValidTag n then some n else some name := by
  simp only [jsonName, h]

/-- The text after `default:` of a tag whose gorm value starts with
`default:`. -/
theorem rawDefault_of_rawValue (name : String) (type : GoType) (tag : String)
    (rest : List Char)
    (h : rawValue tag "gorm" =
      some (String.mk ('d' :: 'e' :: 'f' :: 'a' :: 'u' :: 'l' :: 't' :: ':' :: rest))) :
    rawDefault (StructField.mk name type tag) = some (String.mk rest) := by
  unfold rawDefault
  dsimp only
  rw [h]
  rfl

/-- The flaws of a gorm value, from the text the scan finds. -/
theorem gormValueFlaws_of_rawValue (name : String) (type : GoType) (tag : String)
    (raw : List Char) (h : rawValue tag "gorm" = some (String.mk raw)) :
    gormValueFlaws (StructField.mk name type tag) =
      some (occursIn ['\n'] raw, occursIn ['\\', '\''] raw) := by
  unfold gormValueFlaws
  dsimp only
  rw [h]
  rfl

/-- The SQL text embedded in a tag with the lines of the tag of
`User.ResourceType` has no quote and no backslash. -/
theorem sqlLines_plain_of (lines : List String)
    (h : sqlLines lines = sqlLines User_ResourceType_tagLines) :
    ∀ c ∈ joinLines (sqlLines lines), c ≠ '"' ∧ c ≠ '\\' := by
  rw [h]
  exact sqlLines_plain

/-- What the tag readers find in the tag of `User.ResourceType`: no gorm value that
unquotes, the text between the quotes, and the json value `resource_type`. -/
theorem User_ResourceType_tag :
    Lookup (String.mk (joinLines User_ResourceType_tagLines)) "gorm" = none ∧
    rawValue (String.mk (joinLines User_ResourceType_tagLines)) "gorm" =
      some (String.mk ('d' :: 'e' :: 'f' :: 'a' :: 'u' :: 'l' :: 't' :: ':' :: '\n' ::
        (joinLines (sqlLines User_ResourceType_tagLines) ++ '\n' :: "'".toList))) ∧
    Lookup (String.mk (joinLines User_ResourceType_tagLines)) "json" =
      some "resource_type" := by
  have h := embedded_tag User_ResourceType_tagLines (sqlLines User_ResourceType_tagLines)
    "'\" json:\"resource_type\"" "'".toList
    " json:\"resource_type\"".toList rfl (by decide!)
    (sqlLines_plain_of User_ResourceType_tagLines rfl) (by decide!)
  refine ⟨h.1, h.2.1, ?_⟩
  rw [h.2.2]
  decide!

/-- The JSON name of `User.ResourceType`. -/
theorem User_ResourceType_jsonName :
    jsonName (StructField.mk "ResourceType" GoType.string
      (String.mk (joinLines User_ResourceType_tagLines))) =
      some "resource_type" := by
  rw [jsonName_of_lookup _ _ _ _ User_ResourceType_tag.2.2]
  decide!

/-- No gorm setting is readable on `User.ResourceType`. -/
theorem User_ResourceType_gormSettings :
    gormSettings (StructField.mk "ResourceType" GoType.string
      (String.mk (joinLines User_ResourceType_tagLines))) = [] :=
  gormSettings_unreadable _ _ _ User_ResourceType_tag.1

/-- No gorm setting has a value on `User.ResourceType`. -/
theorem User_ResourceType_gormSetting (key : String) :
    gormSetting (StructField.mk "ResourceType" GoType.string
      (String.mk (joinLines User_ResourceType_tagLines))) key = none :=
  gormSetting_unreadable _ _ _ User_ResourceType_tag.1 key

/-- No gorm setting is carried by `User.ResourceType`. -/
theorem User_ResourceType_hasGormSetting (key : String) :
    hasGormSetting (StructField.mk "ResourceType" GoType.string
      (String.mk (joinLines User_ResourceType_tagLines))) key = false :=
  hasGormSetting_unreadable _ _ _ User_ResourceType_tag.1 key

/-- The gorm value of `User.ResourceType` is malformed. -/
theorem User_ResourceType_malformedGorm :
    malformedGorm (StructField.mk "ResourceType" GoType.string
      (String.mk (joinLines User_ResourceType_tagLines))) = true :=
  malformedGorm_unreadable _ _ _ _ User_ResourceType_tag.1 User_ResourceType_tag.2.1

/-- The gorm value of `User.ResourceType` has a raw newline and no escape of a single
quote. -/
theorem User_ResourceType_gormValueFlaws :
    gormValueFlaws (StructField.mk "ResourceType" GoType.string
      (String.mk (joinLines User_ResourceType_tagLines))) =
      some (true, false) := by
  rw [gormValueFlaws_of_rawValue _ _ _ _ User_ResourceType_tag.2.1,
    embedded_escape _ _ (sqlLines_plain_of User_ResourceType_tagLines rfl)]
  decide!

/-- The text written after `default:` in the tag of `User.ResourceType`. -/
theorem User_ResourceType_rawDefault :
    rawDefault (StructField.mk "ResourceType" GoType.string
      (String.mk (joinLines User_ResourceType_tagLines))) =
      some (embeddedDefault User_ResourceType_tagLines "'") := by
  rw [rawDefault_of_rawValue _ _ _ _ User_ResourceType_tag.2.1]
  rfl

/-- What the tag readers find in the tag of `Team.ResourceType`: no gorm value that
unquotes, the text between the quotes, and the json value `resource_type`. -/
theorem Team_ResourceType_tag :
    Lookup (String.mk (joinLines Team_ResourceType_tagLines)) "gorm" = none ∧
    rawValue (String.mk (joinLines Team_ResourceType_tagLines)) "gorm" =
      some (String.mk ('d' :: 'e' :: 'f' :: 'a' :: 'u' :: 'l' :: 't' :: ':' :: '\n' ::
        (joinLines (sqlLines Team_ResourceType_tagLines) ++ '\n' :: "'".toList))) ∧
    Lookup (String.mk (joinLines Team_ResourceType_tagLines)) "json" =
      some "resource_type" := by
  have h := embedded_tag Team_ResourceType_tagLines (sqlLines Team_ResourceType_tagLines)
    "'\" json:\"resource_type\"" "'".toList
    " json:\"resource_type\"".toList rfl (by decide!)
    (sqlLines_plain_of Team_ResourceType_tagLines rfl) (by decide!)
  refine ⟨h.1, h.2.1, ?_⟩
  rw [h.2.2]
  decide!

/-- The JSON name of `Team.ResourceType`. -/
theorem Team_ResourceType_jsonName :
    jsonName (StructField.mk "ResourceType" GoType.string
      (String.mk (joinLines Team_ResourceType_tagLines))) =
      some "resource_type" := by
  rw [jsonName_of_lookup _ _ _ _ Team_ResourceType_tag.2.2]
  decide!

/-- No gorm setting is readable on `Team.ResourceType`. -/
theorem Team_ResourceType_gormSettings :
    gormSettings (StructField.mk "ResourceType" GoType.string
      (String.mk (joinLines Team_ResourceType_tagLines))) = [] :=
  gormSettings_unreadable _ _ _ Team_ResourceType_tag.1

/-- No gorm setting has a value on `Team.ResourceType`. -/
theorem Team_ResourceType_gormSetting (key : String) :
    gormSetting (StructField.mk "ResourceType" GoType.string
      (String.mk (joinLines Team_ResourceType_tagLines))) key = none :=
  gormSetting_unreadable _ _ _ Team_ResourceType_tag.1 key

/-- No gorm setting is carried by `Team.ResourceType`. -/
theorem Team_ResourceType_hasGormSetting (key : String) :
    hasGormSetting (StructField.mk "ResourceType" GoType.string
      (String.mk (joinLines Team_ResourceType_tagLines))) key = false :=
  hasGormSetting_unreadable _ _ _ Team_ResourceType_tag.1 key

/-- The gorm value of `Team.ResourceType` is malformed. -/
theorem Team_ResourceType_malformedGorm :
    malformedGorm (StructField.mk "ResourceType" GoType.string
      (String.mk (joinLines Team_ResourceType_tagLines))) = true :=
  malformedGorm_unreadable _ _ _ _ Team_ResourceType_tag.1 Team_ResourceType_tag.2.1

/-- The gorm value of `Team.ResourceType` has a raw newline and no escape of a single
quote. -/
theorem Team_ResourceType_gormValueFlaws :
    gormValueFlaws (StructField.mk "ResourceType" GoType.string
      (String.mk (joinLines Team_ResourceType_tagLines))) =
      some (true, false) := by
  rw [gormValueFlaws_of_rawValue _ _ _ _ Team_ResourceType_tag.2.1,
    embedded_escape _ _ (sqlLines_plain_of Team_ResourceType_tagLines rfl)]
  decide!

/-- The text written after `default:` in the tag of `Team.ResourceType`. -/
theorem Team_ResourceType_rawDefault :
    rawDefault (StructField.mk "ResourceType" GoType.string
      (String.mk (joinLines Team_ResourceType_tagLines))) =
      some (embeddedDefault Team_ResourceType_tagLines "'") := by
  rw [rawDefault_of_rawValue _ _ _ _ Team_ResourceType_tag.2.1]
  rfl

/-- What the tag readers find in the tag of `Project.ResourceType`: no gorm value that
unquotes, the text between the quotes, and the json value `resource_type`. -/
theorem Project_ResourceType_tag :
    Lookup (String.mk (joinLines Project_ResourceType_tagLines)) "gorm" = none ∧
    rawValue (String.mk (joinLines Project_ResourceType_tagLines)) "gorm" =
      some (String.mk ('d' :: 'e' :: 'f' :: 'a' :: 'u' :: 'l' :: 't' :: ':' :: '\n' ::
        (joinLines (sqlLines Project_ResourceType_tagLines) ++ '\n' :: "'".toList))) ∧
    Lookup (String.mk (joinLines Project_ResourceType_tagLines)) "json" =
      some "resource_type" := by
  have h := embedded_tag Project_ResourceType_tagLines (sqlLines Project_ResourceType_tagLines)
    "'\" json:\"resource_type\"" "'".toList
    " json:\"resource_type\"".toList rfl (by decide!)
    (sqlLines_plain_of Project_ResourceType_tagLines rfl) (by decide!)
  refine ⟨h.1, h.2.1, ?_⟩
  rw [h.2.2]
  decide!

/-- The JSON name of `Project.ResourceType`. -/
theorem Project_ResourceType_jsonName :
    jsonName (StructField.mk "ResourceType" GoType.string
      (String.mk (joinLines Project_ResourceType_tagLines))) =
      some "resource_type" := by
  rw [jsonName_of_lookup _ _ _ _ Project_ResourceType_tag.2.2]
  decide!

/-- No gorm setting is readable on `Project.ResourceType`. -/
theorem Project_ResourceType_gormSettings :
    gormSettings (StructField.mk "ResourceType" GoType.string
      (String.mk (joinLines Project_ResourceType_tagLines))) = [] :=
  gormSettings_unreadable _ _ _ Project_ResourceType_tag.1

/-- No gorm setting has a value on `Project.ResourceType`. -/
theorem Project_ResourceType_gormSetting (key : String) :
    gormSetting (StructField.mk "ResourceType" GoType.string
      (String.mk (joinLines Project_ResourceType_tagLines))) key = none :=
  gormSetting_unreadable _ _ _ Project_ResourceType_tag.1 key

/-- No gorm setting is carried by `Project.ResourceType`. -/
theorem Project_ResourceType_hasGormSetting (key : String) :
    hasGormSetting (StructField.mk "ResourceType" GoType.string
      (String.mk (joinLines Project_ResourceType_tagLines))) key = false :=
  hasGormSetting_unreadable _ _ _ Project_ResourceType_tag.1 key

/-- The gorm value of `Project.ResourceType` is malformed. -/
theorem Project_ResourceType_malformedGorm :
    malformedGorm (StructField.mk "ResourceType" GoType.string
      (String.mk (joinLines Project_ResourceType_tagLines))) = true :=
  malformedGorm_unreadable _ _ _ _ Project_ResourceType_tag.1 Project_ResourceType_tag.2.1

/-- The gorm value of `Project.ResourceType` has a raw newline and no escape of a single
quote. -/
theorem Project_ResourceType_gormValueFlaws :
    gormValueFlaws (StructField.mk "ResourceType" GoType.string
      (String.mk (joinLines Project_ResourceType_tagLines))) =
      some (true, false) := by
  rw [gormValueFlaws_of_rawValue _ _ _ _ Project_ResourceType_tag.2.1,
    embedded_escape _ _ (sqlLines_plain_of Project_ResourceType_tagLines rfl)]
  decide!

/-- The text written after `default:` in the tag of `Project.ResourceType`. -/
theorem Project_ResourceType_rawDefault :
    rawDefault (StructField.mk "ResourceType" GoType.string
      (String.mk (joinLines Project_ResourceType_tagLines))) =
      some (embeddedDefault Project_ResourceType_tagLines "'") := by
  rw [rawDefault_of_rawValue _ _ _ _ Project_ResourceType_tag.2.1]
  rfl

/-- What the tag readers find in the tag of `Project.DefaultView`: no gorm value that
unquotes, the text between the quotes, and the json value `default_view`. -/
theorem Project_DefaultView_tag :
    Lookup (String.mk (joinLines Project_DefaultView_tagLines)) "gorm" = none ∧
    rawValue (String.mk (joinLines Project_DefaultView_tagLines)) "gorm" =
      some (String.mk ('d' :: 'e' :: 'f' :: 'a' :: 'u' :: 'l' :: 't' :: ':' :: '\n' ::
        (joinLines (sqlLines Project_DefaultView_tagLines) ++ '\n' :: "'list\\'".toList))) ∧
    Lookup (String.mk (joinLines Project_DefaultView_tagLines)) "json" =
      some "default_view" := by
  have h := embedded_tag Project_DefaultView_tagLines (sqlLines Project_DefaultView_tagLines)
    "'list\\'\" json:\"default_view\"" "'list\\'".toList
    " json:\"default_view\"".toList rfl (by decide!)
    (sqlLines_plain_of Project_DefaultView_tagLines rfl) (by decide!)
  refine ⟨h.1, h.2.1, ?_⟩
  rw [h.2.2]
  decide!

/-- The JSON name of `Project.DefaultView`. -/
theorem Project_DefaultView_jsonName :
    jsonName (StructField.mk "DefaultView" GoType.string
      (String.mk (joinLines Project_DefaultView_tagLines))) =
      some "default_view" := by
  rw [jsonName_of_lookup _ _ _ _ Project_DefaultView_tag.2.2]
  decide!

/-- No gorm setting is readable on `Project.DefaultView`. -/
theorem Project_DefaultView_gormSettings :
    gormSettings (StructField.mk "DefaultView" GoType.string
      (String.mk (joinLines Project_DefaultView_tagLines))) = [] :=
  gormSettings_unreadable _ _ _ Project_DefaultView_tag.1

/-- No gorm setting has a value on `Project.DefaultView`. -/
theorem Project_DefaultView_gormSetting (key : String) :
    gormSetting (StructField.mk "DefaultView" GoType.string
      (String.mk (joinLines Project_DefaultView_tagLines))) key = none :=
  gormSetting_unreadable _ _ _ Project_DefaultView_tag.1 key

/-- No gorm setting is carried by `Project.DefaultView`. -/
theorem Project_DefaultView_hasGormSetting (key : String) :
    hasGormSetting (StructField.mk "DefaultView" GoType.string
      (String.mk (joinLines Project_DefaultView_tagLines))) key = false :=
  hasGormSetting_unreadable _ _ _ Project_DefaultView_tag.1 key

/-- The gorm value of `Project.DefaultView` is malformed. -/
theorem Project_DefaultView_malformedGorm :
    malformedGorm (StructField.mk "DefaultView" GoType.string
      (String.mk (joinLines Project_DefaultView_tagLines))) = true :=
  malformedGorm_unreadable _ _ _ _ Project_DefaultView_tag.1 Project_DefaultView_tag.2.1

/-- The gorm value of `Project.DefaultView` has a raw newline and the escape of a single
quote. -/
theorem Project_DefaultView_gormValueFlaws :
    gormValueFlaws (StructField.mk "DefaultView" GoType.string
      (String.mk (joinLines Project_DefaultView_tagLines))) =
      some (true, true) := by
  rw [gormValueFlaws_of_rawValue _ _ _ _ Project_DefaultView_tag.2.1,
    embedded_escape _ _ (sqlLines_plain_of Project_DefaultView_tagLines rfl)]
  decide!

/-- The text written after `default:` in the tag of `Project.DefaultView`. -/
theorem Project_DefaultView_rawDefault :
    rawDefault (StructField.mk "DefaultView" GoType.string
      (String.mk (joinLines Project_DefaultView_tagLines))) =
      some (embeddedDefault Project_DefaultView_tagLines "'list\\'") := by
  rw [rawDefault_of_rawValue _ _ _ _ Project_DefaultView_tag.2.1]
  rfl

/-- What the tag readers find in the tag of `Section.ResourceType`: no gorm value that
unquotes, the text between the quotes, and the json value `resource_type`. -/
theorem Section_ResourceType_tag :
    Lookup (String.mk (joinLines Section_ResourceType_tagLines)) "gorm" = none ∧
    rawValue (String.mk (joinLines Section_ResourceType_tagLines)) "gorm" =
      some (String.mk ('d' :: 'e' :: 'f' :: 'a' :: 'u' :: 'l' :: 't' :: ':' :: '\n' ::
        (joinLines (sqlLines Section_ResourceType_tagLines) ++ '\n' :: "'section\\'".toList))) ∧
    Lookup (String.mk (joinLines Section_ResourceType_tagLines)) "json" =
      some "resource_type" := by
  have h := embedded_tag Section_ResourceType_tagLines (sqlLines Section_ResourceType_tagLines)
    "'section\\'\" json:\"resource_type\"" "'section\\'".toList
    " json:\"resource_type\"".toList rfl (by decide!)
    (sqlLines_plain_of Section_ResourceType_tagLines rfl) (by decide!)
  refine ⟨h.1, h.2.1, ?_⟩
  rw [h.2.2]
  decide!

/-- The JSON name of `Section.ResourceType`. -/
theorem Section_ResourceType_jsonName :
    jsonName (StructField.mk "ResourceType" GoType.string
      (String.mk (joinLines Section_ResourceType_tagLines))) =
      some "resource_type" := by
  rw [jsonName_of_lookup _ _ _ _ Section_ResourceType_tag.2.2]
  decide!

/-- No gorm setting is readable on `Section.ResourceType`. -/
theorem Section_ResourceType_gormSettings :
    gormSettings (StructField.mk "ResourceType" GoType.string
      (String.mk (joinLines Section_ResourceType_tagLines))) = [] :=
  gormSettings_unreadable _ _ _ Section_ResourceType_tag.1

/-- No gorm setting has a value on `Section.ResourceType`. -/
theorem Section_ResourceType_gormSetting (key : String) :
    gormSetting (StructField.mk "ResourceType" GoType.string
      (String.mk (joinLines Section_ResourceType_tagLines))) key = none :=
  gormSetting_unreadable _ _ _ Section_ResourceType_tag.1 key

/-- No gorm setting is carried by `Section.ResourceType`. -/
theorem Section_ResourceType_hasGormSetting (key : String) :
    hasGormSetting (StructField.mk "ResourceType" GoType.string
      (String.mk (joinLines Section_ResourceType_tagLines))) key = false :=
  hasGormSetting_unreadable _ _ _ Section_ResourceType_tag.1 key

/-- The gorm value of `Section.ResourceType` is malformed. -/
theorem Section_ResourceType_malformedGorm :
    malformedGorm (StructField.mk "ResourceType" GoType.string
      (String.mk (joinLines Section_ResourceType_tagLines))) = true :=
  malformedGorm_unreadable _ _ _ _ Section_ResourceType_tag.1 Section_ResourceType_tag.2.1

/-- The gorm value of `Section.ResourceType` has a raw newline and the escape of a single
quote. -/
theorem Section_ResourceType_gormValueFlaws :
    gormValueFlaws (StructField.mk "ResourceType" GoType.string
      (String.mk (joinLines Section_ResourceType_tagLines))) =
      some (true, true) := by
  rw [gormValueFlaws_of_rawValue _ _ _ _ Section_ResourceType_tag.2.1,
    embedded_escape _ _ (sqlLines_plain_of Section_ResourceType_tagLines rfl)]
  decide!

/-- The text written after `default:` in the tag of `Section.ResourceType`. -/
theorem Section_ResourceType_rawDefault :
    rawDefault (StructField.mk "ResourceType" GoType.string
      (String.mk (joinLines Section_ResourceType_tagLines))) =
      some (embeddedDefault Section_ResourceType_tagLines "'section\\'") := by
  rw [rawDefault_of_rawValue _ _ _ _ Section_ResourceType_tag.2.1]
  rfl

/-- What the tag readers find in the tag of `Task.ResourceType`: no gorm value that
unquotes, the text between the quotes, and the json value `resource_type`. -/
theorem Task_ResourceType_tag :
    Lookup (String.mk (joinLines Task_ResourceType_tagLines)) "gorm" = none ∧
    rawValue (String.mk (joinLines Task_ResourceType_tagLines)) "gorm" =
      some (String.mk ('d' :: 'e' :: 'f' :: 'a' :: 'u' :: 'l' :: 't' :: ':' :: '\n' ::
        (joinLines (sqlLines Task_ResourceType_tagLines) ++ '\n' :: "'task\\'".toList))) ∧
    Lookup (String.mk (joinLines Task_ResourceType_tagLines)) "json" =
      some "resource_type" := by
  have h := embedded_tag Task_ResourceType_tagLines (sqlLines Task_ResourceType_tagLines)
    "'task\\'\" json:\"resource_type\"" "'task\\'".toList
    " json:\"resource_type\"".toList rfl (by decide!)
    (sqlLines_plain_of Task_ResourceType_tagLines rfl) (by decide!)
  refine ⟨h.1, h.2.1, ?_⟩
  rw [h.2.2]
  decide!

/-- The JSON name of `Task.ResourceType`. -/
theorem Task_ResourceType_jsonName :
    jsonName (StructField.mk "ResourceType" GoType.string
      (String.mk (joinLines Task_ResourceType_tagLines))) =
      some "resource_type" := by
  rw [jsonName_of_lookup _ _ _ _ Task_ResourceType_tag.2.2]
  decide!

/-- No gorm setting is readable on `Task.ResourceType`. -/
theorem Task_ResourceType_gormSettings :
    gormSettings (StructField.mk "ResourceType" GoType.string
      (String.mk (joinLines Task_ResourceType_tagLines))) = [] :=
  gormSettings_unreadable _ _ _ Task_ResourceType_tag.1

/-- No gorm setting has a value on `Task.ResourceType`. -/
theorem Task_ResourceType_gormSetting (key : String) :
    gormSetting (StructField.mk "ResourceType" GoType.string
      (String.mk (joinLines Task_ResourceType_tagLines))) key = none :=
  gormSetting_unreadable _ _ _ Task_ResourceType_tag.1 key

/-- No gorm setting is carried by `Task.ResourceType`. -/
theorem Task_ResourceType_hasGormSetting (key : String) :
    hasGormSetting (StructField.mk "ResourceType" GoType.string
      (String.mk (joinLines Task_ResourceType_tagLines))) key = false :=
  hasGormSetting_unreadable _ _ _ Task_ResourceType_tag.1 key

/-- The gorm value of `Task.ResourceType` is malformed. -/
theorem Task_ResourceType_malformedGorm :
    malformedGorm (StructField.mk "ResourceType" GoType.string
      (String.mk (joinLines Task_ResourceType_tagLines))) = true :=
  malformedGorm_unreadable _ _ _ _ Task_ResourceType_tag.1 Task_ResourceType_tag.2.1

/-- The gorm value of `Task.ResourceType` has a raw newline and the escape of a single
quote. -/
theorem Task_ResourceType_gormValueFlaws :
    gormValueFlaws (StructField.mk "ResourceType" GoType.string
      (String.mk (joinLines Task_ResourceType_tagLines))) =
      some (true, true) := by
  rw [gormValueFlaws_of_rawValue _ _ _ _ Task_ResourceType_tag.2.1,
    embedded_escape _ _ (sqlLines_plain_of Task_ResourceType_tagLines rfl)]
  decide!

/-- The text written after `default:` in the tag of `Task.ResourceType`. -/
theorem Task_ResourceType_rawDefault :
    rawDefault (StructField.mk "ResourceType" GoType.string
      (String.mk (joinLines Task_ResourceType_tagLines))) =
      some (embeddedDefault Task_ResourceType_tagLines "'task\\'") := by
  rw [rawDefault_of_rawValue _ _ _ _ Task_ResourceType_tag.2.1]
  rfl

/-- The field `ResourceType` of `User`. -/
theorem User_field_ResourceType :
    User.field "ResourceType" =
      some (StructField.mk "ResourceType" GoType.string
        (String.mk (joinLines User_ResourceType_tagLines))) :=
  rfl

/-- The field `ResourceType` of `Team`. -/
theorem Team_field_ResourceType :
    Team.field "ResourceType" =
      some (StructField.mk "ResourceType" GoType.string
        (String.mk (joinLines Team_ResourceType_tagLines))) :=
  rfl

/-- The field `ResourceType` of `Project`. -/
theorem Project_field_ResourceType :
    Project.field "ResourceType" =
      some (StructField.mk "ResourceType" GoType.string
        (String.mk (joinLines Project_ResourceType_tagLines))) :=
  rfl

/-- The field `DefaultView` of `Project`. -/
theorem Project_field_DefaultView :
    Project.field "DefaultView" =
      some (StructField.mk "DefaultView" GoType.string
        (String.mk (joinLines Project_DefaultView_tagLines))) :=
  rfl

/-- The field `ResourceType` of `Section`. -/
theorem Section_field_ResourceType :
    Section.field "ResourceType" =
      some (StructField.mk "ResourceType" GoType.string
        (String.mk (joinLines Section_ResourceType_tagLines))) :=
  rfl

/-- The field `ResourceType` of `Task`. -/
theorem Task_field_ResourceType :
    Task.field "ResourceType" =
      some (StructField.mk "ResourceType" GoType.string
        (String.mk (joinLines Task_ResourceType_tagLines))) :=
  rfl

/-! ## The five structs whose tags embed the SQL text -/

/-- A property of the entries of a list holds for all of them when it holds
for the first `n` and for the others. -/
theorem forall_mem_of_take_drop {α : Type} {P : α → Prop} (n : Nat) (l : List α)
    (h1 : ∀ x ∈ l.take n, P x) (h2 : ∀ x ∈ l.drop n, P x) : ∀ x ∈ l, P x := by
  intro x hx
  rw [← List.take_append_drop n l] at hx
  rcases List.mem_append.mp hx with h | h
  · exact h1 x h
  · exact h2 x h

/-- A property of the entries of a list holds for all of them when it holds
for each of four runs of the list: three of `n` entries and the rest. -/
theorem forall_mem_of_quarters {α : Type} {P : α → Prop} (n : Nat) (l : List α)
    (h1 : ∀ x ∈ (l.take (n + n)).take n, P x) (h2 : ∀ x ∈ (l.take (n + n)).drop n, P x)
    (h3 : ∀ x ∈ (l.drop (n + n)).take n, P x) (h4 : ∀ x ∈ (l.drop (n + n)).drop n, P x) :
    ∀ x ∈ l, P x :=
  forall_mem_of_take_drop (n + n) l (forall_mem_of_take_drop n _ h1 h2)
    (forall_mem_of_take_drop n _ h3 h4)

/-- A property of the 25 structs holds for all of them when it holds for the
five whose tags embed the SQL text and for the other twenty. -/
theorem forall_structs {P : StructDecl → Prop} (hUser : P User) (hTeam : P Team)
    (hProject : P Project) (hSection : P Section) (hTask : P Task)
    (hrest : ∀ s ∈ [Workspace, Portfolio, Goal, ProjectTask, TaskDependency,
      TaskFollower, Tag, TaskTag, PortfolioProject, GoalRelationship,
      CustomField, ProjectCustomField, TaskCustomFieldValue, Rule, RuleCondition,
      RuleAction, AuditLog, ProjectMembership, TeamMembership, WorkspaceMembership], P s) :
    ∀ s ∈ structs, P s := by
  intro s hs
  have hstructs : structs = Workspace :: User :: Team :: Project :: Section :: Task ::
      [Portfolio, Goal, ProjectTask, TaskDependency,
      TaskFollower, Tag, TaskTag, PortfolioProject, GoalRelationship,
      CustomField, ProjectCustomField, TaskCustomFieldValue, Rule, RuleCondition,
      RuleAction, AuditLog, ProjectMembership, TeamMembership, WorkspaceMembership] := rfl
  rw [hstructs] at hs
  rcases List.mem_cons.mp hs with h | hs
  · exact h ▸ hrest Workspace (List.mem_cons_self _ _)
  rcases List.mem_cons.mp hs with h | hs
  · exact h ▸ hUser
  rcases List.mem_cons.mp hs with h | hs
  · exact h ▸ hTeam
  rcases List.mem_cons.mp hs with h | hs
  · exact h ▸ hProject
  rcases List.mem_cons.mp hs with h | hs
  · exact h ▸ hSection
  rcases List.mem_cons.mp hs with h | hs
  · exact h ▸ hTask
  · exact hrest s (List.mem_cons_of_mem _ hs)

/-- The concatenation over the 25 structs, with the five structs whose tags
embed the SQL text set apart. -/
theorem flatMap_structs {α : Type} (F : StructDecl → List α) :
    structs.flatMap F =
      F Workspace ++ (F User ++ (F Team ++ (F Project ++ (F Section ++ (F Task ++
        [Portfolio, Goal, ProjectTask, TaskDependency,
          TaskFollower, Tag, TaskTag, PortfolioProject, GoalRelationship,
          CustomField, ProjectCustomField, TaskCustomFieldValue, Rule, RuleCondition,
          RuleAction, AuditLog, ProjectMembership, TeamMembership,
          WorkspaceMembership].flatMap F))))) :=
  rfl

/-- Selecting and then mapping, from the list of what is read of each
entry. -/
theorem filter_map_readings {α β : Type} (p : α → Bool) (F : α → β) : ∀ l : List α,
    (l.filter p).map F =
      (l.map fun a => (p a, F a)).filterMap fun q => if q.1 = true then some q.2 else none
  | [] => rfl
  | a :: l => by
    cases h : p a <;> simp [List.filter_cons, h, filter_map_readings p F l]

/-- Selecting and then collecting, from the list of what is read of each
entry. -/
theorem filter_filterMap_readings {α β : Type} (p : α → Bool) (g : α → Option β) :
    ∀ l : List α,
    (l.filter p).filterMap g =
      (l.map fun a => (p a, g a)).filterMap fun q => if q.1 = true then q.2 else none
  | [] => rfl
  | a :: l => by
    cases h : p a <;> cases hg : g a <;>
      simp [List.filter_cons, h, hg, filter_filterMap_readings p g l]

/-- Collecting, from the list of what is read of each entry. -/
theorem filterMap_readings {α β : Type} (g : α → Option β) (l : List α) :
    l.filterMap g = (l.map g).reduceOption := by
  simp [List.reduceOption, List.filterMap_map]

/-- The JSON names of `User` are the column names of `users`. -/
theorem User_jsonNames : jsonNames User = users.columnNames := by
  rw [jsonNames, filterMap_readings]
  simp only [User, List.map_cons, List.map_nil, User_ResourceType_jsonName]
  decide!

/-- The key fields of `User`: the field `Gid` alone. -/
theorem User_keyFields : keyFields User = [("Gid", GoType.string, some "gid")] := by
  rw [keyFields, filter_map_readings]
  simp only [User, List.map_cons, List.map_nil, User_ResourceType_jsonName,
    User_ResourceType_hasGormSetting]
  decide!

/-- The key of `User`, by JSON names: `gid` alone. -/
theorem User_primaryKeyNames : primaryKeyNames User = ["gid"] := by
  rw [primaryKeyNames, filter_filterMap_readings]
  simp only [User, List.map_cons, List.map_nil, User_ResourceType_jsonName,
    User_ResourceType_hasGormSetting]
  decide!

/-- The JSON names of `Team` are the column names of `teams`. -/
theorem Team_jsonNames : jsonNames Team = teams.columnNames := by
  rw [jsonNames, filterMap_readings]
  simp only [Team, List.map_cons, List.map_nil, Team_ResourceType_jsonName]
  decide!

/-- The key fields of `Team`: the field `Gid` alone. -/
theorem Team_keyFields : keyFields Team = [("Gid", GoType.string, some "gid")] := by
  rw [keyFields, filter_map_readings]
  simp only [Team, List.map_cons, List.map_nil, Team_ResourceType_jsonName,
    Team_ResourceType_hasGormSetting]
  decide!

/-- The key of `Team`, by JSON names: `gid` alone. -/
theorem Team_primaryKeyNames : primaryKeyNames Team = ["gid"] := by
  rw [primaryKeyNames, filter_filterMap_readings]
  simp only [Team, List.map_cons, List.map_nil, Team_ResourceType_jsonName,
    Team_ResourceType_hasGormSetting]
  decide!

/-- The JSON names of `Project` are the column names of `projects`. -/
theorem Project_jsonNames : jsonNames Project = projects.columnNames := by
  rw [jsonNames, filterMap_readings]
  simp only [Project, List.map_cons, List.map_nil, Project_ResourceType_jsonName,
    Project_DefaultView_jsonName]
  decide!

/-- The key fields of `Project`: the field `Gid` alone. -/
theorem Project_keyFields : keyFields Project = [("Gid", GoType.string, some "gid")] := by
  rw [keyFields, filter_map_readings]
  simp only [Project, List.map_cons, List.map_nil, Project_ResourceType_jsonName,
    Project_DefaultView_jsonName, Project_ResourceType_hasGormSetting,
    Project_DefaultView_hasGormSetting]
  decide!

/-- The key of `Project`, by JSON names: `gid` alone. -/
theorem Project_primaryKeyNames : primaryKeyNames Project = ["gid"] := by
  rw [primaryKeyNames, filter_filterMap_readings]
  simp only [Project, List.map_cons, List.map_nil, Project_ResourceType_jsonName,
    Project_DefaultView_jsonName, Project_ResourceType_hasGormSetting,
    Project_DefaultView_hasGormSetting]
  decide!

/-- The JSON names of `Section` are the column names of `sections`. -/
theorem Section_jsonNames : jsonNames Section = sections.columnNames := by
  rw [jsonNames, filterMap_readings]
  simp only [Section, List.map_cons, List.map_nil, Section_ResourceType_jsonName]
  decide!

/-- The key fields of `Section`: the field `Gid` alone. -/
theorem Section_keyFields : keyFields Section = [("Gid", GoType.string, some "gid")] := by
  rw [keyFields, filter_map_readings]
  simp only [Section, List.map_cons, List.map_nil, Section_ResourceType_jsonName,
    Section_ResourceType_hasGormSetting]
  decide!

/-- The key of `Section`, by JSON names: `gid` alone. -/
theorem Section_primaryKeyNames : primaryKeyNames Section = ["gid"] := by
  rw [primaryKeyNames, filter_filterMap_readings]
  simp only [Section, List.map_cons, List.map_nil, Section_ResourceType_jsonName,
    Section_ResourceType_hasGormSetting]
  decide!

/-- The JSON names of `Task` are the column names of `tasks`. -/
theorem Task_jsonNames : jsonNames Task = tasks.columnNames := by
  rw [jsonNames, filterMap_readings]
  simp only [Task, List.map_cons, List.map_nil, Task_ResourceType_jsonName]
  decide!

/-- The key fields of `Task`: the field `Gid` alone. -/
theorem Task_keyFields : keyFields Task = [("Gid", GoType.string, some "gid")] := by
  rw [keyFields, filter_map_readings]
  simp only [Task, List.map_cons, List.map_nil, Task_ResourceType_jsonName,
    Task_ResourceType_hasGormSetting]
  decide!

/-- The key of `Task`, by JSON names: `gid` alone. -/
theorem Task_primaryKeyNames : primaryKeyNames Task = ["gid"] := by
  rw [primaryKeyNames, filter_filterMap_readings]
  simp only [Task, List.map_cons, List.map_nil, Task_ResourceType_jsonName,
    Task_ResourceType_hasGormSetting]
  decide!

/-! ## Reading of the embedded SQL and general facts about satisfying states -/

/-- The finished tables a line is read with stay behind the tables the line
finishes. -/
theorem parseLine_done (d : List Table) (c : Option Table) (l : String) :
    parseLine { done := d, cur := c } l =
      (parseLine { done := [], cur := c } l).map fun s =>
        { done := s.done ++ d, cur := s.cur } := by
  unfold parseLine
  split
  all_goals try simp_all
  all_goals try split
  all_goals try simp_all
  all_goals try split
  all_goals try simp_all

/-- The finished tables a run of lines is read with stay behind the tables
the lines finish. -/
theorem parseLines_done : ∀ (ls : List String) (d : List Table) (c : Option Table),
    parseLines { done := d, cur := c } ls =
      (parseLines { done := [], cur := c } ls).map fun s =>
        { done := s.done ++ d, cur := s.cur }
  | [], d, c => by simp [parseLines]
  | l :: ls, d, c => by
    rw [parseLines, parseLines, parseLine_done d c l]
    cases h : parseLine { done := [], cur := c } l with
    | none => rfl
    | some s =>
      cases s with
      | mk d1 c1 =>
        simp only [Option.map_some']
        rw [parseLines_done ls (d1 ++ d) c1, parseLines_done ls d1 c1]
        cases parseLines { done := [], cur := c1 } ls <;> simp

/-- Reading lines in two runs. -/
theorem parseLines_append : ∀ (a b : List String) (st : ParseState),
    parseLines st (a ++ b) = (parseLines st a).bind fun s => parseLines s b
  | [], _, _ => rfl
  | l :: a, b, st => by
    rw [List.cons_append, parseLines, parseLines]
    cases parseLine st l with
    | none => rfl
    | some s => exact parseLines_append a b s

/-- Reading the lines from line `a` on: the tables of the next `n` lines, then
those of the lines after them. -/
theorem parseLines_from (lines : List String) (a n : Nat) (ts1 ts2 : List Table)
    (h1 : parseLines { done := [], cur := none } ((lines.drop a).take n) =
      some { done := ts1, cur := none })
    (h2 : parseLines { done := [], cur := none } (lines.drop (a + n)) =
      some { done := ts2, cur := none }) :
    parseLines { done := [], cur := none } (lines.drop a) =
      some { done := ts2 ++ ts1, cur := none } := by
  have hsplit : lines.drop a = (lines.drop a).take n ++ lines.drop (a + n) := by
    rw [← List.drop_drop]
    exact (List.take_append_drop n _).symm
  rw [hsplit, parseLines_append, h1]
  show parseLines { done := ts1, cur := none } (lines.drop (a + n)) = _
  rw [parseLines_done, h2]
  rfl

/-- Lines 1 to 50 of the embedded SQL define `workspaces`, `users`, `teams`,
`projects`, `sections`. -/
theorem parseLines_part1 :
    parseLines { done := [], cur := none }
        (((sqlLines User_ResourceType_tagLines).drop 0).take 50) =
      some { done := [sections, projects, teams, users, workspaces], cur := none } := by
  decide!

/-- Lines 51 to 105 of the embedded SQL define `tasks`, `portfolios`, `goals`,
`project_tasks`, `task_dependencies`, `task_followers`. -/
theorem parseLines_part2 :
    parseLines { done := [], cur := none }
        (((sqlLines User_ResourceType_tagLines).drop 50).take 55) =
      some { done := [task_followers, task_dependencies, project_tasks, goals,
          portfolios, tasks], cur := none } := by
  decide!

/-- Lines 106 to 163 of the embedded SQL define `tags`, `task_tags`,
`portfolio_projects`, `goal_relationships`, `custom_fields`,
`project_custom_fields`, `task_custom_field_values`, `rules`. -/
theorem parseLines_part3 :
    parseLines { done := [], cur := none }
        (((sqlLines User_ResourceType_tagLines).drop 105).take 58) =
      some { done := [rules, task_custom_field_values, project_custom_fields,
          custom_fields, goal_relationships, portfolio_projects,
          task_tags, tags], cur := none } := by
  decide!

/-- Lines 164 to 216 of the embedded SQL define `rule_conditions`,
`rule_actions`, `audit_log`, `project_memberships`, `team_memberships`,
`workspace_memberships`. -/
theorem parseLines_part4 :
    parseLines { done := [], cur := none }
        ((sqlLines User_ResourceType_tagLines).drop 163) =
      some { done := [workspace_memberships, team_memberships, project_memberships,
          audit_log, rule_actions, rule_conditions], cur := none } := by
  decide!

/-- The SQL lines embedded in the tag of `User.ResourceType`, read from the
first line on, define the 25 tables of `schema`. -/
theorem parseLines_sqlLines :
    parseLines { done := [], cur := none } (sqlLines User_ResourceType_tagLines) =
      some { done := schema.reverse, cur := none } :=
  parseLines_from _ 0 50 _ _ parseLines_part1
    (parseLines_from _ 50 55 _ _ parseLines_part2
    (parseLines_from _ 105 58 _ _ parseLines_part3
    parseLines_part4))

/-- The tables of lines that are read to the end with no statement left
open. -/
theorem parseDDL_of_parseLines (lines : List String) (ts : List Table)
    (h : parseLines { done := [], cur := none } lines = some { done := ts, cur := none }) :
    parseDDL lines = some ts.reverse := by
  unfold parseDDL
  rw [h]

/-- The SQL lines embedded in the tag of `User.ResourceType` define exactly
the tables listed in `schema`. -/
theorem parseDDL_sqlLines : parseDDL (sqlLines User_ResourceType_tagLines) = some schema :=
  (parseDDL_of_parseLines _ _ parseLines_sqlLines).trans
    (congrArg some (List.reverse_reverse schema))

/-- The SQL lines embedded in each of the six multi-line tags are those of the
tag of `User.ResourceType`. -/
theorem sqlLines_embeddedCopies :
    ∀ p ∈ embeddedCopies, sqlLines p.2 = sqlLines User_ResourceType_tagLines := by
  simp only [embeddedCopies, List.forall_mem_cons, List.not_mem_nil, false_implies,
    implies_true, and_true]
  exact ⟨trivial, rfl, rfl, rfl, rfl, rfl⟩

/-- No line of the embedded SQL has the word `ON`, `DELETE`, `UPDATE` or
`CASCADE`. -/
theorem sqlLines_words :
    ∀ l ∈ sqlLines User_ResourceType_tagLines, ∀ w ∈ sqlWords l,
      w ∉ ["ON", "DELETE", "UPDATE", "CASCADE"] :=
  forall_mem_of_quarters 54 _ (by decide!) (by decide!) (by decide!) (by decide!)

/-- Every struct names, in its comment, the table at the same position of the
schema. -/
theorem tableOf_structs : structs.map tableOf = schema.map fun t => t.name := by
  decide!

/-- The sample state satisfies every declared constraint. -/
theorem sampleDB_satisfies : satisfies schema sampleDB := by
  decide!

/-- A state with a task whose parent does not exist violates the declared
constraints: the reference check of the model is effective. -/
theorem dangling_parent_rejected :
    ¬ satisfies schema (tasksOnly [taskRow "t1" (some "t3") false none]) := by
  decide!

/-- A state with two tasks of one gid violates the declared constraints. -/
theorem duplicate_gid_rejected :
    ¬ satisfies schema
      (tasksOnly [taskRow "t1" none false none, taskRow "t1" none true none]) := by
  decide!

/-- In a satisfying state a required column has a value in every row. -/
theorem satisfies_required {s : List Table} {db : DB} {t : Table} {c : Column}
    (h : satisfies s db) (ht : t ∈ s) (hc : c ∈ t.columns) (hreq : required t c = true)
    {r : Row} (hr : r ∈ db t.name) : ∃ v, cell r c.name = some v := by
  have hcol := (h t ht).2.1 c hc
  have hnn := hcol.2.1 hreq r hr
  cases hcell : cell r c.name with
  | none => exact absurd hcell hnn
  | some v => exact ⟨v, rfl⟩

/-- In a satisfying state a cell of a column with `REFERENCES t(k)` is, when
present, the `k` of some row of `t`. -/
theorem satisfies_references {s : List Table} {db : DB} {t : Table} {c : Column}
    {ref : String × String}
    (h : satisfies s db) (ht : t ∈ s) (hc : c ∈ t.columns) (href : c.references = some ref)
    {r : Row} {v : Value} (hr : r ∈ db t.name) (hv : cell r c.name = some v) :
    ∃ r2 ∈ db ref.1, cell r2 ref.2 = some v :=
  ((h t ht).2.1 c hc).2.2.2 ref href r hr v hv

/-- In a satisfying state the rows of a table are pairwise different in a
UNIQUE or PRIMARY KEY column. -/
theorem satisfies_unique {s : List Table} {db : DB} {t : Table} {c : Column}
    (h : satisfies s db) (ht : t ∈ s) (hc : c ∈ t.columns)
    (hu : c.unique = true ∨ c.primaryKey = true) :
    (db t.name).Pairwise (uniqueOn c.name) :=
  ((h t ht).2.1 c hc).2.2.1 hu

/-- In a satisfying state the rows of a table are pairwise different in its
table-level primary key. -/
theorem satisfies_key {s : List Table} {db : DB} {t : Table}
    (h : satisfies s db) (ht : t ∈ s) (hk : t.primaryKey ≠ []) :
    (db t.name).Pairwise fun r1 r2 => keyOf t.primaryKey r1 ≠ keyOf t.primaryKey r2 :=
  (h t ht).2.2 hk

/-- Two entries at different positions of a pairwise related list are related
one way or the other. -/
theorem pairwise_at_of_ne {α : Type} {R : α → α → Prop} {l : List α}
    (h : l.Pairwise R) {i j : Nat} {a b : α} (hij : i ≠ j)
    (ha : l[i]? = some a) (hb : l[j]? = some b) : R a b ∨ R b a := by
  rw [List.pairwise_iff_getElem] at h
  obtain ⟨hi, rfl⟩ := List.getElem?_eq_some_iff.mp ha
  obtain ⟨hj, rfl⟩ := List.getElem?_eq_some_iff.mp hb
  rcases Nat.lt_or_gt_of_ne hij with hlt | hgt
  · exact Or.inl (h i j hi hj hlt)
  · exact Or.inr (h j i hj hi hgt)

/-- An entry of a list is a member of it. -/
theorem mem_of_at {α : Type} {l : List α} {i : Nat} {a : α} (ha : l[i]? = some a) :
    a ∈ l := by
  obtain ⟨hi, rfl⟩ := List.getElem?_eq_some_iff.mp ha
  exact List.getElem_mem hi

/-- In a satisfying state two rows at different positions of a table have
different values in a column that is UNIQUE (or PRIMARY KEY) and required. -/
theorem distinct_in_unique_column {s : List Table} {db : DB} {t : Table} {c : Column}
    (h : satisfies s db) (ht : t ∈ s) (hc : c ∈ t.columns)
    (hu : c.unique = true ∨ c.primaryKey = true) (hreq : required t c = true)
    {i j : Nat} {r1 r2 : Row} (hij : i ≠ j)
    (h1 : (db t.name)[i]? = some r1) (h2 : (db t.name)[j]? = some r2) :
    ∃ a b, cell r1 c.name = some a ∧ cell r2 c.name = some b ∧ a ≠ b := by
  obtain ⟨a, ha⟩ := satisfies_required h ht hc hreq (mem_of_at h1)
  obtain ⟨b, hb⟩ := satisfies_required h ht hc hreq (mem_of_at h2)
  refine ⟨a, b, ha, hb, ?_⟩
  intro hab
  rcases pairwise_at_of_ne (satisfies_unique h ht hc hu) hij h1 h2 with hR | hR
  · rcases hR with hn | hne
    · rw [ha] at hn; exact Option.noConfusion hn
    · exact hne (by rw [ha, hb, hab])
  · rcases hR with hn | hne
    · rw [hb] at hn; exact Option.noConfusion hn
    · exact hne (by rw [ha, hb, hab])

/-- Texts that `sameChars` accepts are equal. -/
theorem sameChars_sound : ∀ a b : List Char, sameChars a b = true → a = b
  | [], [], _ => rfl
  | [], _ :: _, h => by simp [sameChars] at h
  | _ :: _, [], h => by simp [sameChars] at h
  | a :: as, b :: bs, h => by
    simp only [sameChars] at h
    split at h
    · next hab => rw [hab, sameChars_sound as bs h]
    · exact absurd h (by simp)

/-- Optional texts that `sameText` accepts are equal. -/
theorem sameText_sound : ∀ a b : Option String, sameText a b = true → a = b
  | none, none, _ => rfl
  | none, some _, h => by simp [sameText] at h
  | some _, none, h => by simp [sameText] at h
  | some x, some y, h => by
    have hxy : x.toList = y.toList := sameChars_sound _ _ h
    rw [String.ext hxy]

/-! ## Properties of the model and of the states it admits -/

/-- C1: for each of the 25 structs the table its comment names is one of the
25 tables, and the JSON field names of the struct are exactly the column names
of that table; the seven fields whose gorm value no tag reader can unquote
(six `ResourceType` fields and `Project.DefaultView`) are among them, under
the names `resource_type` and `default_view`. -/
theorem json_names_match_columns :
    (∀ s ∈ structs, ∃ t ∈ schema, t.name = tableOf s ∧
      ∀ n : String, n ∈ jsonNames s ↔ n ∈ t.columnNames) ∧
    (structs.flatMap fun s =>
        (s.fields.filter malformedGorm).map fun f => (s.name, f.name, jsonName f)) =
      [("Workspace", "ResourceType", some "resource_type"),
       ("User", "ResourceType", some "resource_type"),
       ("Team", "ResourceType", some "resource_type"),
       ("Project", "ResourceType", some "resource_type"),
       ("Project", "DefaultView", some "default_view"),
       ("Section", "ResourceType", some "resource_type"),
       ("Task", "ResourceType", some "resource_type")] := by
  have key : ∀ s ∈ structs, ∃ t ∈ schema, t.name = tableOf s ∧
      jsonNames s = t.columnNames := by
    refine forall_structs ?_ ?_ ?_ ?_ ?_
      (forall_mem_of_take_drop 10 _ (by decide!) (by decide!))
    · rw [User_jsonNames]; decide!
    · rw [Team_jsonNames]; decide!
    · rw [Project_jsonNames]; decide!
    · rw [Section_jsonNames]; decide!
    · rw [Task_jsonNames]; decide!
  refine ⟨fun s hs => ?_, ?_⟩
  · obtain ⟨t, ht, hn, he⟩ := key s hs
    exact ⟨t, ht, hn, fun n => by rw [he]⟩
  · rw [flatMap_structs]
    simp only [filter_map_readings, User, Team, Project, Section, Task, List.map_cons,
      List.map_nil,
      User_ResourceType_malformedGorm, Team_ResourceType_malformedGorm,
      Project_ResourceType_malformedGorm, Project_DefaultView_malformedGorm,
      Section_ResourceType_malformedGorm, Task_ResourceType_malformedGorm,
      User_ResourceType_jsonName, Team_ResourceType_jsonName,
      Project_ResourceType_jsonName, Project_DefaultView_jsonName,
      Section_ResourceType_jsonName, Task_ResourceType_jsonName]
    decide!

/-- C1, at the struct `Task`: its 14 JSON names are the columns of `tasks`. -/
theorem json_names_match_columns_task :
    ∃ t ∈ schema, t.name = tableOf Task ∧
      ∀ n : String, n ∈ jsonNames Task ↔ n ∈ t.columnNames :=
  json_names_match_columns.1 Task (by simp [structs])

/-- C2: what the code has for the six `ResourceType` fields.  Each table
declares the default `'kind'` for `resource_type`; in the struct no gorm
setting `default` is readable (the gorm value does not unquote), and the text
written after `default:` is `\'workspace\'` with two backslashes for
`Workspace` and, for the other five, the whole embedded SQL block followed by
a lone quote (`User`, `Team`, `Project`) or by `'section\'`, `'task\'`; in no
case is it the table's default. -/
theorem resource_type_gorm_defaults :
    (resourceTyped.map fun p =>
        ((p.2.column "resource_type").bind fun c => c.defaultValue,
         (p.1.field "ResourceType").map fun f => gormSetting f "DEFAULT")) =
      [(some "'workspace'", some none), (some "'user'", some none),
       (some "'team'", some none), (some "'project'", some none),
       (some "'section'", some none), (some "'task'", some none)] ∧
    (resourceTyped.all fun p =>
        ((p.1.field "ResourceType").bind rawDefault) !=
          ((p.2.column "resource_type").bind fun c => c.defaultValue)) = true ∧
    (Workspace.field "ResourceType").bind rawDefault = some "\\'workspace\\'" ∧
    (User.field "ResourceType").bind rawDefault =
      some (embeddedDefault User_ResourceType_tagLines "'") ∧
    (Team.field "ResourceType").bind rawDefault =
      some (embeddedDefault Team_ResourceType_tagLines "'") ∧
    (Project.field "ResourceType").bind rawDefault =
      some (embeddedDefault Project_ResourceType_tagLines "'") ∧
    (Section.field "ResourceType").bind rawDefault =
      some (embeddedDefault Section_ResourceType_tagLines "'section\\'") ∧
    (Task.field "ResourceType").bind rawDefault =
      some (embeddedDefault Task_ResourceType_tagLines "'task\\'") := by
  refine ⟨?_, ?_, by decide!, ?_, ?_, ?_, ?_, ?_⟩
  · simp only [resourceTyped, List.map_cons, List.map_nil, User_field_ResourceType,
      Team_field_ResourceType, Project_field_ResourceType, Section_field_ResourceType,
      Task_field_ResourceType, Option.map_some', User_ResourceType_gormSetting,
      Team_ResourceType_gormSetting, Project_ResourceType_gormSetting,
      Section_ResourceType_gormSetting, Task_ResourceType_gormSetting]
    decide!
  · rw [List.all_eq_true]
    intro p hp
    simp only [resourceTyped, List.mem_cons, List.mem_singleton, List.not_mem_nil,
      or_false] at hp
    rcases hp with h | h | h | h | h | h <;> subst h
    · decide!
    · rw [User_field_ResourceType, Option.some_bind, User_ResourceType_rawDefault]
      decide!
    · rw [Team_field_ResourceType, Option.some_bind, Team_ResourceType_rawDefault]
      decide!
    · rw [Project_field_ResourceType, Option.some_bind, Project_ResourceType_rawDefault]
      decide!
    · rw [Section_field_ResourceType, Option.some_bind, Section_ResourceType_rawDefault]
      decide!
    · rw [Task_field_ResourceType, Option.some_bind, Task_ResourceType_rawDefault]
      decide!
  · rw [User_field_ResourceType, Option.some_bind]
    exact User_ResourceType_rawDefault
  · rw [Team_field_ResourceType, Option.some_bind]
    exact Team_ResourceType_rawDefault
  · rw [Project_field_ResourceType, Option.some_bind]
    exact Project_ResourceType_rawDefault
  · rw [Section_field_ResourceType, Option.some_bind]
    exact Section_ResourceType_rawDefault
  · rw [Task_field_ResourceType, Option.some_bind]
    exact Task_ResourceType_rawDefault

/-- C3: what the code has for `Project.DefaultView`.  The table declares
`DEFAULT 'list'`; in the struct no gorm setting `default` is readable, and the
text written after `default:` is the embedded SQL block followed by
`'list\'`, not `'list'`. -/
theorem default_view_gorm_default :
    ((projects.column "default_view").bind fun c => c.defaultValue) = some "'list'" ∧
    ((Project.field "DefaultView").map fun f => gormSetting f "DEFAULT") = some none ∧
    (Project.field "DefaultView").bind rawDefault =
      some (embeddedDefault Project_DefaultView_tagLines "'list\\'") ∧
    ((Project.field "DefaultView").bind rawDefault) ≠ some "'list'" := by
  refine ⟨by decide!, ?_, ?_, ?_⟩
  · rw [Project_field_DefaultView, Option.map_some', Project_DefaultView_gormSetting]
  · rw [Project_field_DefaultView, Option.some_bind]
    exact Project_DefaultView_rawDefault
  · rw [Project_field_DefaultView, Option.some_bind, Project_DefaultView_rawDefault]
    decide!

/-- C4: `Task.Completed` is a Go `bool` whose gorm setting `default` is
`false`; the column `tasks.completed` is `BOOLEAN NOT NULL DEFAULT FALSE`; both
defaults read as the boolean false, which is also the zero value of the Go
field. -/
theorem task_completed_default_false :
    ((Task.field "Completed").map fun f =>
        (f.type, gormSetting f "DEFAULT", zeroValue f.type)) =
      some (GoType.bool, some "false", GoValue.bool false) ∧
    ((tasks.column "completed").map fun c => (c.type, c.notNull, c.defaultValue)) =
      some (SqlType.boolean, true, some "FALSE") ∧
    parseBool "false" = some false ∧ parseBool "FALSE" = some false := by
  decide!

/-- C5: in a state that satisfies every declared constraint, every task and
every project has a `workspace_gid`, and it is the `gid` of some row of
`workspaces`. -/
theorem workspace_gid_references_workspace (db : DB) (h : satisfies schema db) :
    (∀ r ∈ db "tasks", ∃ v, cell r "workspace_gid" = some v ∧
      ∃ w ∈ db "workspaces", cell w "gid" = some v) ∧
    (∀ r ∈ db "projects", ∃ v, cell r "workspace_gid" = some v ∧
      ∃ w ∈ db "workspaces", cell w "gid" = some v) := by
  have hT : tasks ∈ schema := by simp [schema]
  have hP : projects ∈ schema := by simp [schema]
  have hcT : Column.mk "workspace_gid" (SqlType.varchar 255) false true false false none
      (some ("workspaces", "gid")) ∈ tasks.columns := by
    simp [tasks]
  have hcP : Column.mk "workspace_gid" (SqlType.varchar 255) false true false false none
      (some ("workspaces", "gid")) ∈ projects.columns := by
    simp [projects]
  constructor
  · intro r hr
    obtain ⟨v, hv⟩ := satisfies_required h hT hcT rfl (r := r) hr
    exact ⟨v, hv, satisfies_references h hT hcT rfl (r := r) hr hv⟩
  · intro r hr
    obtain ⟨v, hv⟩ := satisfies_required h hP hcP rfl (r := r) hr
    exact ⟨v, hv, satisfies_references h hP hcP rfl (r := r) hr hv⟩

/-- C5, at the sample state. -/
theorem workspace_gid_references_workspace_sample :
    satisfies schema sampleDB ∧
    ((∀ r ∈ sampleDB "tasks", ∃ v, cell r "workspace_gid" = some v ∧
      ∃ w ∈ sampleDB "workspaces", cell w "gid" = some v) ∧
    (∀ r ∈ sampleDB "projects", ∃ v, cell r "workspace_gid" = some v ∧
      ∃ w ∈ sampleDB "workspaces", cell w "gid" = some v)) :=
  ⟨sampleDB_satisfies, workspace_gid_references_workspace sampleDB sampleDB_satisfies⟩

/-- C6, as stated, fails: the state `selfParentDB`, whose only task names
itself as its parent, satisfies every declared constraint, and so does
`parentCycleDB`, where no task is its own parent and two tasks are each
other's parent. -/
theorem parent_chain_not_enforced :
    (satisfies schema selfParentDB ∧ ¬ noSelfParent selfParentDB ∧
      ¬ parentAcyclic selfParentDB) ∧
    (satisfies schema parentCycleDB ∧ noSelfParent parentCycleDB ∧
      ¬ parentAcyclic parentCycleDB) := by
  refine ⟨⟨by decide!, by decide!, ?_⟩, ⟨by decide!, by decide!, ?_⟩⟩
  · intro hac
    have hstep : parentOf selfParentDB (taskRow "t1" (some "t1") false none)
        (taskRow "t1" (some "t1") false none) := by decide!
    exact hac _ hstep.1 (Relation.TransGen.single hstep)
  · intro hac
    have h12 : parentOf parentCycleDB (taskRow "t1" (some "t2") false none)
        (taskRow "t2" (some "t1") false none) := by decide!
    have h21 : parentOf parentCycleDB (taskRow "t2" (some "t1") false none)
        (taskRow "t1" (some "t2") false none) := by decide!
    exact hac _ h12.1 (Relation.TransGen.tail (Relation.TransGen.single h12) h21)

/-- C6, amended: in a state that satisfies every declared constraint, a
`parent_gid` that is present is the `gid` of some row of `tasks`. -/
theorem parent_gid_references_task (db : DB) (h : satisfies schema db) :
    ∀ r ∈ db "tasks", ∀ g, cell r "parent_gid" = some g →
      ∃ p ∈ db "tasks", cell p "gid" = some g := by
  have hT : tasks ∈ schema := by simp [schema]
  have hc : Column.mk "parent_gid" (SqlType.varchar 255) false false true false none
      (some ("tasks", "gid")) ∈ tasks.columns := by
    simp [tasks]
  intro r hr g hg
  exact satisfies_references h hT hc rfl (r := r) hr hg

/-- C6, amended, at the sample state: the parent `t1` of the task `t2`
exists. -/
theorem parent_gid_references_task_sample :
    satisfies schema sampleDB ∧
    ∀ r ∈ sampleDB "tasks", ∀ g, cell r "parent_gid" = some g →
      ∃ p ∈ sampleDB "tasks", cell p "gid" = some g :=
  ⟨sampleDB_satisfies, parent_gid_references_task sampleDB sampleDB_satisfies⟩

/-- C7: `User.Email` carries the gorm setting `unique`, the column
`users.email` is `UNIQUE NOT NULL`, and in a state that satisfies every
declared constraint two user rows at different positions have emails, and
different ones. -/
theorem user_email_unique :
    ((User.field "Email").map fun f => hasGormSetting f "UNIQUE") = some true ∧
    ((users.column "email").map fun c => (c.unique, c.notNull)) = some (true, true) ∧
    ∀ db : DB, satisfies schema db →
      ∀ (i j : Nat) (r1 r2 : Row), i ≠ j →
        (db "users")[i]? = some r1 → (db "users")[j]? = some r2 →
        ∃ a b, cell r1 "email" = some a ∧ cell r2 "email" = some b ∧ a ≠ b := by
  refine ⟨by decide!, by decide!, ?_⟩
  intro db h i j r1 r2 hij h1 h2
  have hT : users ∈ schema := by simp [schema]
  have hc : Column.mk "email" (SqlType.varchar 255) false true false true none none
      ∈ users.columns := by
    simp [users]
  exact distinct_in_unique_column h hT hc (Or.inl rfl) rfl hij h1 h2

/-- C7, at the two users of the sample state. -/
theorem user_email_unique_sample :
    ∃ a b, cell (userRow "u1" "ana@acme.test") "email" = some a ∧
      cell (userRow "u2" "rui@acme.test") "email" = some b ∧ a ≠ b :=
  user_email_unique.2.2 sampleDB sampleDB_satisfies 0 1 _ _ (by decide) rfl rfl

/-- C8: `Tag.Name` carries the gorm setting `unique`, the column `tags.name`
is `UNIQUE NOT NULL`, and in a state that satisfies every declared constraint
two tag rows at different positions have names, and different ones. -/
theorem tag_name_unique :
    ((Tag.field "Name").map fun f => hasGormSetting f "UNIQUE") = some true ∧
    ((tags.column "name").map fun c => (c.unique, c.notNull)) = some (true, true) ∧
    ∀ db : DB, satisfies schema db →
      ∀ (i j : Nat) (r1 r2 : Row), i ≠ j →
        (db "tags")[i]? = some r1 → (db "tags")[j]? = some r2 →
        ∃ a b, cell r1 "name" = some a ∧ cell r2 "name" = some b ∧ a ≠ b := by
  refine ⟨by decide!, by decide!, ?_⟩
  intro db h i j r1 r2 hij h1 h2
  have hT : tags ∈ schema := by simp [schema]
  have hc : Column.mk "name" (SqlType.varchar 255) false true false true none none
      ∈ tags.columns := by
    simp [tags]
  exact distinct_in_unique_column h hT hc (Or.inl rfl) rfl hij h1 h2

/-- C8, at the two tags of the sample state. -/
theorem tag_name_unique_sample :
    ∃ a b, cell (tagRow "g1" "urgent") "name" = some a ∧
      cell (tagRow "g2" "later") "name" = some b ∧ a ≠ b :=
  tag_name_unique.2.2 sampleDB sampleDB_satisfies 0 1 _ _ (by decide) rfl rfl

/-- C9: for each of the ten join relations, the struct stands for the table,
the fields tagged `primaryKey` are exactly the two columns of the table's
`PRIMARY KEY (...)`, these are the table's two `_gid` columns and no column has
a key of its own; and in a state that satisfies every declared constraint two
rows at different positions of the relation differ in that pair. -/
theorem join_rows_have_distinct_keys (p : StructDecl × Table) (hp : p ∈ joinRelations) :
    (p.1 ∈ structs ∧ p.2 ∈ schema ∧ tableOf p.1 = p.2.name ∧
      primaryKeyNames p.1 = p.2.primaryKey ∧ p.2.primaryKey.length = 2 ∧
      p.2.primaryKey = p.2.columnNames.filter isGidColumn ∧
      ∀ c ∈ p.2.columns, c.primaryKey = false) ∧
    ∀ db : DB, satisfies schema db →
      ∀ (i j : Nat) (r1 r2 : Row), i ≠ j →
        (db p.2.name)[i]? = some r1 → (db p.2.name)[j]? = some r2 →
        keyOf p.2.primaryKey r1 ≠ keyOf p.2.primaryKey r2 := by
  have key : ∀ q ∈ joinRelations, q.1 ∈ structs ∧ q.2 ∈ schema ∧ tableOf q.1 = q.2.name ∧
      primaryKeyNames q.1 = q.2.primaryKey ∧ q.2.primaryKey.length = 2 ∧
      q.2.primaryKey = q.2.columnNames.filter isGidColumn ∧
      ∀ c ∈ q.2.columns, c.primaryKey = false :=
    forall_mem_of_take_drop 5 _ (by decide!) (by decide!)
  have hs := key p hp
  refine ⟨hs, ?_⟩
  intro db h i j r1 r2 hij h1 h2
  have hk : p.2.primaryKey ≠ [] := by
    intro h0
    have hl := hs.2.2.2.2.1
    rw [h0] at hl
    exact absurd hl (by decide)
  rcases pairwise_at_of_ne (satisfies_key h hs.2.1 hk) hij h1 h2 with hR | hR
  · exact hR
  · exact fun he => hR he.symm

/-- C9, at `project_tasks` and the two rows it has in the sample state. -/
theorem join_rows_have_distinct_keys_sample :
    keyOf project_tasks.primaryKey (joinRow "project_gid" "p1" "task_gid" "t1") ≠
      keyOf project_tasks.primaryKey (joinRow "project_gid" "p1" "task_gid" "t2") :=
  (join_rows_have_distinct_keys (ProjectTask, project_tasks) (by simp [joinRelations])).2
    sampleDB sampleDB_satisfies 0 1 _ _ (by decide) rfl rfl

set_option synthInstance.maxSize 4000 in
set_option synthInstance.maxHeartbeats 400000 in
/-- No field of `Task` carries a gorm `check` setting. -/
theorem Task_no_check : ∀ f ∈ Task.fields, hasGormSetting f "CHECK" = false := by
  simp only [Task, List.forall_mem_cons, Task_ResourceType_hasGormSetting]
  decide!

/-- C10: the declared constraints do not tie `completed_at` to `completed`:
no field of `Task` carries a gorm `check` setting, a state that satisfies every
declared constraint has a task with `completed = true` and no `completed_at`,
and another one has a task with `completed = false` and a `completed_at`. -/
theorem completion_invariant_not_enforced :
    (∀ f ∈ Task.fields, hasGormSetting f "CHECK" = false) ∧
    (∃ db : DB, satisfies schema db ∧ ∃ r ∈ db "tasks",
      cell r "completed" = some (Value.bool true) ∧ cell r "completed_at" = none) ∧
    (∃ db : DB, satisfies schema db ∧ ∃ r ∈ db "tasks",
      cell r "completed" = some (Value.bool false) ∧
        ∃ v, cell r "completed_at" = some v) :=
  ⟨Task_no_check,
   ⟨completedUnstampedDB, by decide!, taskRow "t1" none true none, by decide!, by decide!,
     by decide!⟩,
   ⟨openStampedDB, by decide!, taskRow "t1" none false (some 1700000000), by decide!,
     by decide!, Value.timestamp 1700000000, by decide!⟩⟩

/-! ## Further facts about satisfying states -/

/-- The state `workDB` satisfies every declared constraint. -/
theorem workDB_satisfies : satisfies schema workDB :=
  show ∀ t ∈ schema, tableOk workDB t from
    forall_mem_of_take_drop 13 _ (by decide!) (by decide!)

/-- In a satisfying state at most one position of a table holds a given value
of a UNIQUE or PRIMARY KEY column that is required. -/
theorem position_unique_in_column {s : List Table} {db : DB} {t : Table} {c : Column}
    (h : satisfies s db) (ht : t ∈ s) (hc : c ∈ t.columns)
    (hu : c.unique = true ∨ c.primaryKey = true) (hreq : required t c = true)
    {i j : Nat} {r1 r2 : Row} {v : Value}
    (h1 : (db t.name)[i]? = some r1) (h2 : (db t.name)[j]? = some r2)
    (hv1 : cell r1 c.name = some v) (hv2 : cell r2 c.name = some v) : i = j := by
  by_contra hij
  obtain ⟨a, b, ha, hb, hab⟩ := distinct_in_unique_column h ht hc hu hreq hij h1 h2
  rw [hv1] at ha
  rw [hv2] at hb
  exact hab ((Option.some.inj ha).symm.trans (Option.some.inj hb))

/-- In a satisfying state a required column that references the primary key
`gid` of a table names exactly one row of that table. -/
theorem refersToOne_of_satisfies {db : DB} (t target : Table) {c : Column}
    (h : satisfies schema db) (ht : t ∈ schema) (hc : c ∈ t.columns)
    (hreq : required t c = true) (href : c.references = some (target.name, "gid"))
    (htarget : target ∈ schema)
    (hgid : Column.mk "gid" (SqlType.varchar 255) true false false false none none
      ∈ target.columns)
    {r : Row} (hr : r ∈ db t.name) : refersToOne db r c.name target.name := by
  obtain ⟨v, hv⟩ := satisfies_required h ht hc hreq hr
  refine ⟨v, hv, satisfies_references h ht hc href hr hv, ?_⟩
  intro i j p q hp hq hpv hqv
  exact position_unique_in_column h htarget hgid (Or.inr rfl) rfl hp hq hpv hqv

/-- Every `REFERENCES` clause of the schema names a table of the schema and a
column of it that is a column-level `PRIMARY KEY`. -/
theorem references_target_keys :
    ∀ t ∈ schema, ∀ c ∈ t.columns, ∀ ref ∈ c.references,
      ∃ t2 ∈ schema, t2.name = ref.1 ∧ ∃ k ∈ t2.columns, k.name = ref.2 ∧
        k.primaryKey = true := by
  decide!

/-- A row that stands in a table at a position other than the removed one is
still in the table after the removal. -/
theorem mem_removeRow {db : DB} {name table : String} {i j : Nat} {r : Row}
    (hr : (db table)[j]? = some r) (hother : table = name → i ≠ j) :
    r ∈ removeRow db name i table := by
  unfold removeRow
  by_cases hn : table = name
  · rw [if_pos hn]
    exact List.mem_eraseIdx_iff_getElem?.mpr ⟨j, fun hji => hother hn hji.symm, hr⟩
  · rw [if_neg hn]
    exact mem_of_at hr

/-- Removing from a satisfying state a row that a row at another place
references breaks the `REFERENCES` clause of the referencing column. -/
theorem removeRow_breaks_reference {db : DB} (h : satisfies schema db)
    {t : Table} (ht : t ∈ schema) {c : Column} (hc : c ∈ t.columns)
    {ref : String × String} (href : c.references = some ref)
    {i j : Nat} {r r2 : Row} {v : Value}
    (hr2 : (db ref.1)[i]? = some r2) (hr : (db t.name)[j]? = some r)
    (hother : t.name = ref.1 → i ≠ j)
    (hv : cell r c.name = some v) (hv2 : cell r2 ref.2 = some v) :
    ¬ referencesOk (removeRow db ref.1 i) t c := by
  intro hok
  obtain ⟨t2, ht2, hname, k, hk, hkname, hkey⟩ := references_target_keys t ht c hc ref href
  obtain ⟨r3, hr3, hv3⟩ := hok ref href r (mem_removeRow hr hother) v hv
  have hr3mem : r3 ∈ (db ref.1).eraseIdx i := by
    unfold removeRow at hr3
    rw [if_pos rfl] at hr3
    exact hr3
  obtain ⟨j2, hj2, hat⟩ := List.mem_eraseIdx_iff_getElem?.mp hr3mem
  have hreq : required t2 k = true := by
    simp [required, hkey]
  rw [← hname] at hat hr2
  rw [← hkname] at hv3 hv2
  exact hj2 (position_unique_in_column h ht2 hk (Or.inr hkey) hreq hat hr2 hv3 hv2)

/-! ## Properties of the relations between the entities -/

/-- C11, as stated, fails: the state `unattachedValueDB` satisfies every
declared constraint and has a custom field value row whose task is in no
project and whose custom field is attached to no project. -/
theorem custom_field_attachment_not_enforced :
    satisfies schema unattachedValueDB ∧ ¬ fieldAttached unattachedValueDB ∧
    unattachedValueDB "project_tasks" = [] ∧
    unattachedValueDB "project_custom_fields" = [] := by
  decide!

/-- C11, amended: in a state that satisfies every declared constraint, every
custom field value row names an existing task and an existing custom
field. -/
theorem custom_field_value_references (db : DB) (h : satisfies schema db) :
    ∀ r ∈ db "task_custom_field_values",
      (∃ g, cell r "task_gid" = some g ∧ ∃ t ∈ db "tasks", cell t "gid" = some g) ∧
      (∃ f, cell r "custom_field_gid" = some f ∧
        ∃ c ∈ db "custom_fields", cell c "gid" = some f) := by
  have hT : task_custom_field_values ∈ schema := by simp [schema]
  have hc1 : Column.mk "task_gid" (SqlType.varchar 255) false false false false none
      (some ("tasks", "gid")) ∈ task_custom_field_values.columns := by
    simp [task_custom_field_values]
  have hc2 : Column.mk "custom_field_gid" (SqlType.varchar 255) false false false false none
      (some ("custom_fields", "gid")) ∈ task_custom_field_values.columns := by
    simp [task_custom_field_values]
  intro r hr
  obtain ⟨g, hg⟩ := satisfies_required h hT hc1 rfl (r := r) hr
  obtain ⟨f, hf⟩ := satisfies_required h hT hc2 rfl (r := r) hr
  exact ⟨⟨g, hg, satisfies_references h hT hc1 rfl (r := r) hr hg⟩,
    ⟨f, hf, satisfies_references h hT hc2 rfl (r := r) hr hf⟩⟩

/-- C11, amended, at the state `workDB`. -/
theorem custom_field_value_references_work :
    satisfies schema workDB ∧
    ∀ r ∈ workDB "task_custom_field_values",
      (∃ g, cell r "task_gid" = some g ∧ ∃ t ∈ workDB "tasks", cell t "gid" = some g) ∧
      (∃ f, cell r "custom_field_gid" = some f ∧
        ∃ c ∈ workDB "custom_fields", cell c "gid" = some f) :=
  ⟨workDB_satisfies, custom_field_value_references workDB workDB_satisfies⟩

/-- C12, as stated, fails at `AuditLog`: its only field tagged `primaryKey` is
`ID`, of type `int`, with the column `id`, and the only key column of
`audit_log` is `id SERIAL`. -/
theorem audit_log_key_is_serial_id :
    (AuditLog, audit_log) ∈ entityStructs ∧ tableOf AuditLog = audit_log.name ∧
    keyFields AuditLog = [("ID", GoType.int, some "id")] ∧
    ((AuditLog.field "ID").map fun f => hasGormSetting f "AUTOINCREMENT") = some true ∧
    keyColumns audit_log = [("id", SqlType.serial)] ∧
    audit_log.column "gid" = none := by
  refine ⟨by simp [entityStructs], by decide!, by decide!, by decide!, by decide!, by decide!⟩

set_option synthInstance.maxSize 4000 in
set_option synthInstance.maxHeartbeats 400000 in
/-- The key fields and key columns of the thirteen entity structs: the field
`Gid` with the column `gid VARCHAR(255)` for all but `AuditLog`, the field `ID`
with the column `id SERIAL` for `AuditLog`. -/
theorem entityStructs_keys :
    (∀ q ∈ entityStructs, q.1.name ≠ "AuditLog" →
      keyFields q.1 = [("Gid", GoType.string, some "gid")] ∧
      keyColumns q.2 = [("gid", SqlType.varchar 255)]) ∧
    (∀ q ∈ entityStructs, q.1.name = "AuditLog" →
      keyFields q.1 = [("ID", GoType.int, some "id")] ∧
      keyColumns q.2 = [("id", SqlType.serial)]) := by
  constructor
  · simp only [entityStructs, List.forall_mem_cons, User_keyFields, Team_keyFields,
      Project_keyFields, Section_keyFields, Task_keyFields]
    decide!
  · simp only [entityStructs, List.forall_mem_cons, User_keyFields, Team_keyFields,
      Project_keyFields, Section_keyFields, Task_keyFields]
    decide!

/-- C12, amended: each of the thirteen entity structs stands for its table and
has exactly one field tagged `primaryKey`, matched by the one key column of the
table; for the twelve structs other than `AuditLog` it is the `string` field
`Gid` with the column `gid VARCHAR(255)`, for `AuditLog` the `int` field `ID`
with the column `id SERIAL`. -/
theorem entity_primary_keys (p : StructDecl × Table) (hp : p ∈ entityStructs) :
    p.1 ∈ structs ∧ p.2 ∈ schema ∧ tableOf p.1 = p.2.name ∧ p.2.primaryKey = [] ∧
    (p.1.name ≠ "AuditLog" →
      keyFields p.1 = [("Gid", GoType.string, some "gid")] ∧
      keyColumns p.2 = [("gid", SqlType.varchar 255)]) ∧
    (p.1.name = "AuditLog" →
      keyFields p.1 = [("ID", GoType.int, some "id")] ∧
      keyColumns p.2 = [("id", SqlType.serial)]) := by
  have key1 : ∀ q ∈ entityStructs, q.2 ∈ schema ∧ tableOf q.1 = q.2.name ∧
      q.2.primaryKey = [] := by decide!
  have key2 := entityStructs_keys.1
  have key3 := entityStructs_keys.2
  have hmem : p.1 ∈ structs := by
    simp only [entityStructs, List.mem_cons, List.mem_singleton, List.not_mem_nil,
      or_false] at hp
    rcases hp with h | h | h | h | h | h | h | h | h | h | h | h | h <;>
      (rw [h]; simp [structs])
  exact ⟨hmem, (key1 p hp).1, (key1 p hp).2.1, (key1 p hp).2.2, key2 p hp, key3 p hp⟩

/-- C12, amended, at the struct `Task`. -/
theorem entity_primary_keys_task :
    keyFields Task = [("Gid", GoType.string, some "gid")] ∧
    keyColumns tasks = [("gid", SqlType.varchar 255)] :=
  (entity_primary_keys (Task, tasks) (by simp [entityStructs])).2.2.2.2.1 (by decide)

/-- C13, as stated, fails: the state `ownerlessProjectDB` satisfies every
declared constraint and its project has no `owner_gid`; the column is declared
`owner_gid VARCHAR(255) REFERENCES users(gid)` without `NOT NULL`. -/
theorem project_owner_may_be_absent :
    satisfies schema ownerlessProjectDB ∧
    (∃ r ∈ ownerlessProjectDB "projects", cell r "owner_gid" = none) ∧
    ((projects.column "owner_gid").map fun c => (c.notNull, c.references)) =
      some (false, some ("users", "gid")) := by
  decide!

/-- C13, amended: in a state that satisfies every declared constraint, the
`owner_gid` of a project, when present, is the `gid` of some user, and its
`team_gid`, when present, is the `gid` of some team; neither column is
`NOT NULL`. -/
theorem project_owner_and_team_reference (db : DB) (h : satisfies schema db) :
    (∀ r ∈ db "projects", ∀ v, cell r "owner_gid" = some v →
      ∃ u ∈ db "users", cell u "gid" = some v) ∧
    (∀ r ∈ db "projects", ∀ g, cell r "team_gid" = some g →
      ∃ t ∈ db "teams", cell t "gid" = some g) ∧
    ((projects.column "owner_gid").map fun c => required projects c) = some false ∧
    ((projects.column "team_gid").map fun c => (required projects c, c.explicitNull)) =
      some (false, true) := by
  have hP : projects ∈ schema := by simp [schema]
  have hco : Column.mk "owner_gid" (SqlType.varchar 255) false false false false none
      (some ("users", "gid")) ∈ projects.columns := by
    simp [projects]
  have hct : Column.mk "team_gid" (SqlType.varchar 255) false false true false none
      (some ("teams", "gid")) ∈ projects.columns := by
    simp [projects]
  refine ⟨?_, ?_, by decide!, by decide!⟩
  · intro r hr v hv
    exact satisfies_references h hP hco rfl (r := r) hr hv
  · intro r hr g hg
    exact satisfies_references h hP hct rfl (r := r) hr hg

/-- C13, amended, at the state `workDB`, whose first project has an owner and
a team and whose second project has an owner and no team. -/
theorem project_owner_and_team_reference_work :
    (∀ r ∈ workDB "projects", ∀ v, cell r "owner_gid" = some v →
      ∃ u ∈ workDB "users", cell u "gid" = some v) ∧
    (∀ r ∈ workDB "projects", ∀ g, cell r "team_gid" = some g →
      ∃ t ∈ workDB "teams", cell t "gid" = some g) :=
  ⟨(project_owner_and_team_reference workDB workDB_satisfies).1,
   (project_owner_and_team_reference workDB workDB_satisfies).2.1⟩

/-- C14: in a state that satisfies every declared constraint, every rule names
exactly one project and every rule condition and every rule action names
exactly one rule; and a state that satisfies every declared constraint has a
rule that no condition and no action names. -/
theorem rules_scoped_to_project :
    (∀ db : DB, satisfies schema db →
      (∀ r ∈ db "rules", refersToOne db r "project_gid" "projects") ∧
      (∀ r ∈ db "rule_conditions", refersToOne db r "rule_gid" "rules") ∧
      (∀ r ∈ db "rule_actions", refersToOne db r "rule_gid" "rules")) ∧
    (∃ db : DB, satisfies schema db ∧ ∃ r ∈ db "rules",
      (∀ c ∈ db "rule_conditions", cell c "rule_gid" ≠ cell r "gid") ∧
      (∀ a ∈ db "rule_actions", cell a "rule_gid" ≠ cell r "gid")) := by
  refine ⟨fun db h => ⟨?_, ?_, ?_⟩,
    ⟨workDB, workDB_satisfies, ruleRow "r2" "p1", by decide!, by decide!, by decide!⟩⟩
  · intro r hr
    have hc : Column.mk "project_gid" (SqlType.varchar 255) false true false false none
        (some ("projects", "gid")) ∈ rules.columns := by
      simp [rules]
    exact refersToOne_of_satisfies rules projects h (by simp [schema]) hc
      rfl rfl (by simp [schema]) (by simp [projects]) hr
  · intro r hr
    have hc : Column.mk "rule_gid" (SqlType.varchar 255) false true false false none
        (some ("rules", "gid")) ∈ rule_conditions.columns := by
      simp [rule_conditions]
    exact refersToOne_of_satisfies rule_conditions rules h
      (by simp [schema]) hc rfl rfl (by simp [schema]) (by simp [rules]) hr
  · intro r hr
    have hc : Column.mk "rule_gid" (SqlType.varchar 255) false true false false none
        (some ("rules", "gid")) ∈ rule_actions.columns := by
      simp [rule_actions]
    exact refersToOne_of_satisfies rule_actions rules h
      (by simp [schema]) hc rfl rfl (by simp [schema]) (by simp [rules]) hr

/-- C14, at the state `workDB`: its two rules name the project `p1`, its
condition and its action name the rule `r1`. -/
theorem rules_scoped_to_project_work :
    (∀ r ∈ workDB "rules", refersToOne workDB r "project_gid" "projects") ∧
    (∀ r ∈ workDB "rule_conditions", refersToOne workDB r "rule_gid" "rules") ∧
    (∀ r ∈ workDB "rule_actions", refersToOne workDB r "rule_gid" "rules") :=
  rules_scoped_to_project.1 workDB workDB_satisfies

/-- C15: a state that satisfies every declared constraint has two
`project_tasks` rows of one task and two different projects. -/
theorem multi_homing_representable :
    ∃ db : DB, satisfies schema db ∧
      ∃ a ∈ db "project_tasks", ∃ b ∈ db "project_tasks",
        cell a "task_gid" ≠ none ∧ cell a "task_gid" = cell b "task_gid" ∧
        cell a "project_gid" ≠ none ∧ cell b "project_gid" ≠ none ∧
        cell a "project_gid" ≠ cell b "project_gid" :=
  ⟨workDB, workDB_satisfies, joinRow "project_gid" "p1" "task_gid" "t1", by decide!,
    joinRow "project_gid" "p2" "task_gid" "t1", by decide!, by decide!⟩

/-- C17: the embedded SQL defines 25 tables and models.go declares 25 structs;
the comment of every struct has the shape `X representa a tabela Y`, possibly
with `de junção`, and names exactly one table; every table is named by exactly
one struct; struct names and table names are without repetition. -/
theorem structs_pair_with_tables :
    parseDDL (sqlLines User_ResourceType_tagLines) = some schema ∧
    (schema.map fun t => t.name).length = 25 ∧ (structs.map fun s => s.name).length = 25 ∧
    (schema.map fun t => t.name).Nodup ∧ (structs.map fun s => s.name).Nodup ∧
    (∀ s ∈ structs, commentShape s ∧
      ∃ t ∈ schema, t.name = tableOf s ∧ ∀ u ∈ schema, u.name = tableOf s → u = t) ∧
    (∀ t ∈ schema, ∃ s ∈ structs, tableOf s = t.name ∧
      ∀ u ∈ structs, tableOf u = t.name → u.name = s.name) := by
  exact ⟨parseDDL_sqlLines, by decide!, by decide!, by decide!, by decide!,
    forall_mem_of_take_drop 13 _ (by decide!) (by decide!),
    forall_mem_of_take_drop 13 _ (by decide!) (by decide!)⟩

/-- C18: the three value columns of `task_custom_field_values` are declared
`NULL` and nothing else, and of the states that satisfy every declared
constraint one has a row with none of the three values and one has a row with
all three. -/
theorem one_value_is_convention :
    (["text_value", "number_value", "enum_option_gid"].map fun n =>
        (task_custom_field_values.column n).map fun c =>
          [c.explicitNull, c.notNull, c.unique, c.primaryKey, c.references.isSome]) =
      [some [true, false, false, false, false], some [true, false, false, false, false],
       some [true, false, false, false, false]] ∧
    (∃ db : DB, satisfies schema db ∧ ∃ r ∈ db "task_custom_field_values",
      cell r "text_value" = none ∧ cell r "number_value" = none ∧
      cell r "enum_option_gid" = none) ∧
    (∃ db : DB, satisfies schema db ∧ ∃ r ∈ db "task_custom_field_values",
      cell r "text_value" ≠ none ∧ cell r "number_value" ≠ none ∧
      cell r "enum_option_gid" ≠ none) :=
  ⟨by decide!,
   ⟨valueDB none none none, by decide!, valueRow "t1" "f1" none none none, by decide!,
     by decide!⟩,
   ⟨valueDB (some "draft") (some 3) (some "o1"), by decide!,
     valueRow "t1" "f1" (some "draft") (some 3) (some "o1"), by decide!, by decide!⟩⟩

/-- C19: no line of the embedded SQL has the word `ON`, `DELETE`, `UPDATE` or
`CASCADE`, no column and no struct field is named after a deletion, and
removing from a state that satisfies every declared constraint only a row that
a row at another place references gives a state in which the `REFERENCES`
clause of the referencing column fails, so that it no longer satisfies the
declared constraints. -/
theorem no_cascade_no_soft_delete :
    (∀ p ∈ embeddedCopies, ∀ l ∈ sqlLines p.2, ∀ w ∈ sqlWords l,
      w ∉ ["ON", "DELETE", "UPDATE", "CASCADE"]) ∧
    (∀ t ∈ schema, ∀ c ∈ t.columns, namesDeletion c.name = false) ∧
    (∀ s ∈ structs, ∀ f ∈ s.fields, namesDeletion f.name = false) ∧
    ∀ db : DB, satisfies schema db →
      ∀ t ∈ schema, ∀ c ∈ t.columns, ∀ ref ∈ c.references,
        ∀ (i j : Nat) (r r2 : Row) (v : Value),
          (db ref.1)[i]? = some r2 → (db t.name)[j]? = some r → (t.name = ref.1 → i ≠ j) →
          cell r c.name = some v → cell r2 ref.2 = some v →
          ¬ referencesOk (removeRow db ref.1 i) t c ∧
          ¬ satisfies schema (removeRow db ref.1 i) := by
  refine ⟨?_, by decide!, by decide!, ?_⟩
  · intro p hp
    rw [sqlLines_embeddedCopies p hp]
    exact sqlLines_words
  intro db h t ht c hc ref href i j r r2 v hr2 hr hother hv hv2
  have hbreak := removeRow_breaks_reference h ht hc href hr2 hr hother hv hv2
  exact ⟨hbreak, fun hs => hbreak ((hs t ht).2.1 c hc).2.2.2⟩

/-- C19, at the state `workDB`: without its workspace row, which its tasks
reference, the state no longer satisfies the declared constraints. -/
theorem no_cascade_no_soft_delete_work :
    satisfies schema workDB ∧ ¬ satisfies schema (removeRow workDB "workspaces" 0) :=
  ⟨workDB_satisfies, (no_cascade_no_soft_delete.2.2.2 workDB workDB_satisfies tasks (by simp [schema])
    (Column.mk "workspace_gid" (SqlType.varchar 255) false true false false none
      (some ("workspaces", "gid")))
    (by simp [tasks]) ("workspaces", "gid") rfl 0 0 (plainTask "t1") (workspaceRow "w1")
    (Value.str "w1") rfl rfl (by decide) rfl rfl).2⟩

/-- C20: the SQL lines embedded in the six multi-line tags are the same lines,
character for character, and each copy defines the 25 tables of `schema`. -/
theorem embedded_blocks_identical :
    embeddedCopies.map (fun p => p.1) =
      ["User.ResourceType", "Team.ResourceType", "Project.ResourceType",
       "Project.DefaultView", "Section.ResourceType", "Task.ResourceType"] ∧
    (∀ p ∈ embeddedCopies, ∀ q ∈ embeddedCopies, sqlLines p.2 = sqlLines q.2) ∧
    (∀ p ∈ embeddedCopies, ∀ q ∈ embeddedCopies,
      joinLines (sqlLines p.2) = joinLines (sqlLines q.2)) ∧
    (∀ p ∈ embeddedCopies, parseDDL (sqlLines p.2) = some schema) := by
  have hall := sqlLines_embeddedCopies
  have heq : ∀ p ∈ embeddedCopies, ∀ q ∈ embeddedCopies, sqlLines p.2 = sqlLines q.2 :=
    fun p hp q hq => (hall p hp).trans (hall q hq).symm
  refine ⟨by decide!, heq, fun p hp q hq => by rw [heq p hp q hq], ?_⟩
  intro p hp
  rw [hall p hp]
  exact parseDDL_sqlLines

/-! ## Agreement of the structs with the tables, and what a tag reader sees -/

/-- C21: for each of the 25 structs the fields tagged `primaryKey` are, by
their column names, exactly the primary key columns of the struct's table: the
single `gid` for thirteen tables, the `int` field `ID` (autoIncrement) with
`id SERIAL` for `audit_log`, and the two columns of the table-level key for
the ten join tables and `task_custom_field_values`. -/
theorem primary_keys_match :
    (∀ s ∈ structs, ∃ t ∈ schema, t.name = tableOf s ∧ primaryKeyNames s = tableKey t) ∧
    ((schema.filter fun t => tableKey t == ["gid"]).map fun t => t.name) =
      ["workspaces", "users", "teams", "projects", "sections", "tasks", "portfolios",
       "goals", "tags", "custom_fields", "rules", "rule_conditions", "rule_actions"] ∧
    (tableKey audit_log = ["id"] ∧ keyColumns audit_log = [("id", SqlType.serial)] ∧
      keyFields AuditLog = [("ID", GoType.int, some "id")] ∧
      ((AuditLog.field "ID").map fun f => hasGormSetting f "AUTOINCREMENT") = some true) ∧
    ((schema.filter fun t => (tableKey t).length == 2).map fun t => t.name) =
      ["project_tasks", "task_dependencies", "task_followers", "task_tags",
       "portfolio_projects", "goal_relationships", "project_custom_fields",
       "task_custom_field_values", "project_memberships", "team_memberships",
       "workspace_memberships"] ∧
    (∀ t ∈ schema, (tableKey t).length = 2 → tableKey t = t.primaryKey) ∧
    tableKey task_custom_field_values = ["task_gid", "custom_field_gid"] := by
  refine ⟨?_, by decide!, ⟨by decide!, by decide!, by decide!, by decide!⟩,
    by decide!, by decide!, by decide!⟩
  refine forall_structs ?_ ?_ ?_ ?_ ?_
      (forall_mem_of_take_drop 10 _ (by decide!) (by decide!))
  · rw [User_primaryKeyNames]; decide!
  · rw [Team_primaryKeyNames]; decide!
  · rw [Project_primaryKeyNames]; decide!
  · rw [Section_primaryKeyNames]; decide!
  · rw [Task_primaryKeyNames]; decide!

/-- C21, at the struct `TaskCustomFieldValue`. -/
theorem primary_keys_match_values :
    ∃ t ∈ schema, t.name = tableOf TaskCustomFieldValue ∧
      primaryKeyNames TaskCustomFieldValue = tableKey t :=
  primary_keys_match.1 TaskCustomFieldValue (by simp [structs])

set_option synthInstance.maxSize 4000 in
set_option synthInstance.maxHeartbeats 400000 in
/-- Every column of the table of `User` has a field under its name, of a
nullable Go type when the column is written with `NULL` and of a plain one when
it is `NOT NULL` or part of a primary key. -/
theorem User_nullability :
    ∃ t ∈ schema, t.name = tableOf User ∧
      ∀ c ∈ t.columns, ∃ f ∈ User.fields, jsonName f = some c.name ∧
        (c.explicitNull = true → nullableGoType f.type = true) ∧
        ((c.notNull = true ∨ inKey t c = true) → plainGoType f.type = true) := by
  simp only [User, List.exists_mem_cons_iff, User_ResourceType_jsonName]
  decide!

set_option synthInstance.maxSize 4000 in
set_option synthInstance.maxHeartbeats 400000 in
/-- Every column of the table of `Team` has a field under its name, of a
nullable Go type when the column is written with `NULL` and of a plain one when
it is `NOT NULL` or part of a primary key. -/
theorem Team_nullability :
    ∃ t ∈ schema, t.name = tableOf Team ∧
      ∀ c ∈ t.columns, ∃ f ∈ Team.fields, jsonName f = some c.name ∧
        (c.explicitNull = true → nullableGoType f.type = true) ∧
        ((c.notNull = true ∨ inKey t c = true) → plainGoType f.type = true) := by
  simp only [Team, List.exists_mem_cons_iff, Team_ResourceType_jsonName]
  decide!

set_option synthInstance.maxSize 4000 in
set_option synthInstance.maxHeartbeats 400000 in
/-- Every column of the table of `Project` has a field under its name, of a
nullable Go type when the column is written with `NULL` and of a plain one when
it is `NOT NULL` or part of a primary key. -/
theorem Project_nullability :
    ∃ t ∈ schema, t.name = tableOf Project ∧
      ∀ c ∈ t.columns, ∃ f ∈ Project.fields, jsonName f = some c.name ∧
        (c.explicitNull = true → nullableGoType f.type = true) ∧
        ((c.notNull = true ∨ inKey t c = true) → plainGoType f.type = true) := by
  simp only [Project, List.exists_mem_cons_iff, Project_ResourceType_jsonName,
    Project_DefaultView_jsonName]
  decide!

set_option synthInstance.maxSize 4000 in
set_option synthInstance.maxHeartbeats 400000 in
/-- Every column of the table of `Section` has a field under its name, of a
nullable Go type when the column is written with `NULL` and of a plain one when
it is `NOT NULL` or part of a primary key. -/
theorem Section_nullability :
    ∃ t ∈ schema, t.name = tableOf Section ∧
      ∀ c ∈ t.columns, ∃ f ∈ Section.fields, jsonName f = some c.name ∧
        (c.explicitNull = true → nullableGoType f.type = true) ∧
        ((c.notNull = true ∨ inKey t c = true) → plainGoType f.type = true) := by
  simp only [Section, List.exists_mem_cons_iff, Section_ResourceType_jsonName]
  decide!

set_option synthInstance.maxSize 4000 in
set_option synthInstance.maxHeartbeats 400000 in
/-- Every column of the table of `Task` has a field under its name, of a
nullable Go type when the column is written with `NULL` and of a plain one when
it is `NOT NULL` or part of a primary key. -/
theorem Task_nullability :
    ∃ t ∈ schema, t.name = tableOf Task ∧
      ∀ c ∈ t.columns, ∃ f ∈ Task.fields, jsonName f = some c.name ∧
        (c.explicitNull = true → nullableGoType f.type = true) ∧
        ((c.notNull = true ∨ inKey t c = true) → plainGoType f.type = true) := by
  simp only [Task, List.exists_mem_cons_iff, Task_ResourceType_jsonName]
  decide!

/-- C22: the columns written with an explicit `NULL` are the ten the claim
lists; in every struct each column of the table has a field under its name,
and that field has a nullable Go type when the column is written with `NULL`
and one of the types `string`, `bool`, `int`, `time.Time` when the column is
`NOT NULL` or part of a primary key. -/
theorem nullability_agrees :
    explicitNullColumns =
      [("projects", "team_gid"), ("tasks", "assignee_gid"), ("tasks", "due_on"),
       ("tasks", "start_on"), ("tasks", "parent_gid"), ("tasks", "completed_at"),
       ("task_custom_field_values", "text_value"),
       ("task_custom_field_values", "number_value"),
       ("task_custom_field_values", "enum_option_gid"), ("audit_log", "user_gid")] ∧
    ∀ s ∈ structs, ∃ t ∈ schema, t.name = tableOf s ∧
      ∀ c ∈ t.columns, ∃ f ∈ s.fields, jsonName f = some c.name ∧
        (c.explicitNull = true → nullableGoType f.type = true) ∧
        ((c.notNull = true ∨ inKey t c = true) → plainGoType f.type = true) := by
  exact ⟨by decide!, forall_structs User_nullability Team_nullability Project_nullability
    Section_nullability Task_nullability
    (forall_mem_of_take_drop 10 _ (by decide!) (by decide!))⟩

/-- C22, at the struct `Task`. -/
theorem nullability_agrees_task :
    ∃ t ∈ schema, t.name = tableOf Task ∧
      ∀ c ∈ t.columns, ∃ f ∈ Task.fields, jsonName f = some c.name ∧
        (c.explicitNull = true → nullableGoType f.type = true) ∧
        ((c.notNull = true ∨ inKey t c = true) → plainGoType f.type = true) :=
  nullability_agrees.2 Task (by simp [structs])

set_option synthInstance.maxSize 4000 in
set_option synthInstance.maxHeartbeats 400000 in
/-- The text of 68 tags has a gorm key, and these are the tags in which the
scan of `Lookup` finds a quoted gorm value. -/
theorem carriesGorm_iff_scanned :
    (structs.flatMap fun s => s.fields.filter carriesGorm).length = 68 ∧
    ∀ s ∈ structs, ∀ f ∈ s.fields, carriesGorm f = (rawValue f.tag "gorm").isSome := by
  refine ⟨by decide!, ?_⟩
  refine forall_structs ?_ ?_ ?_ ?_ ?_
    (forall_mem_of_take_drop 10 _ (by decide!) (by decide!))
  · simp only [User, List.forall_mem_cons, User_ResourceType_tag.2.1]
    decide!
  · simp only [Team, List.forall_mem_cons, Team_ResourceType_tag.2.1]
    decide!
  · simp only [Project, List.forall_mem_cons, Project_ResourceType_tag.2.1,
      Project_DefaultView_tag.2.1]
    decide!
  · simp only [Section, List.forall_mem_cons, Section_ResourceType_tag.2.1]
    decide!
  · simp only [Task, List.forall_mem_cons, Task_ResourceType_tag.2.1]
    decide!

set_option synthInstance.maxSize 4000 in
set_option synthInstance.maxHeartbeats 400000 in
/-- Of the fields with a gorm key, `Lookup` returns no gorm value for those
listed in `gormFailures` and for no other. -/
theorem lookup_gorm_isNone_iff :
    ∀ s ∈ structs, ∀ f ∈ s.fields, carriesGorm f = true →
      ((Lookup f.tag "gorm").isNone = true ↔ (s.name, f.name) ∈ gormFailures) := by
  refine forall_structs ?_ ?_ ?_ ?_ ?_
    (forall_mem_of_take_drop 10 _ (by decide!) (by decide!))
  · simp only [User, List.forall_mem_cons, User_ResourceType_tag.1]
    decide!
  · simp only [Team, List.forall_mem_cons, Team_ResourceType_tag.1]
    decide!
  · simp only [Project, List.forall_mem_cons, Project_ResourceType_tag.1, Project_DefaultView_tag.1]
    decide!
  · simp only [Section, List.forall_mem_cons, Section_ResourceType_tag.1]
    decide!
  · simp only [Task, List.forall_mem_cons, Task_ResourceType_tag.1]
    decide!

/-- What the gorm values that do not unquote contain: a raw newline, the
escape of a single quote, or both. -/
theorem gormValueFlaws_of_failures :
    (structs.flatMap fun s =>
        (s.fields.filter fun f => carriesGorm f && (Lookup f.tag "gorm").isNone).map fun f =>
          (s.name, f.name, gormValueFlaws f)) =
      [("Workspace", "ResourceType", some (false, true)),
       ("User", "ResourceType", some (true, false)),
       ("Team", "ResourceType", some (true, false)),
       ("Project", "ResourceType", some (true, false)),
       ("Project", "DefaultView", some (true, true)),
       ("Section", "ResourceType", some (true, true)),
       ("Task", "ResourceType", some (true, true))] := by
  rw [flatMap_structs]
  simp only [filter_map_readings, User, Team, Project, Section, Task, List.map_cons,
    List.map_nil,
    User_ResourceType_tag.1, Team_ResourceType_tag.1, Project_ResourceType_tag.1,
    Project_DefaultView_tag.1, Section_ResourceType_tag.1, Task_ResourceType_tag.1,
    User_ResourceType_gormValueFlaws, Team_ResourceType_gormValueFlaws,
    Project_ResourceType_gormValueFlaws, Project_DefaultView_gormValueFlaws,
    Section_ResourceType_gormValueFlaws, Task_ResourceType_gormValueFlaws]
  decide!

set_option synthInstance.maxSize 4000 in
set_option synthInstance.maxHeartbeats 400000 in
/-- No gorm setting is readable on the fields listed in `gormFailures`. -/
theorem gormSettings_of_failures :
    ∀ s ∈ structs, ∀ f ∈ s.fields, (s.name, f.name) ∈ gormFailures →
      (gormSettings f).isEmpty = true := by
  refine forall_structs ?_ ?_ ?_ ?_ ?_
    (forall_mem_of_take_drop 10 _ (by decide!) (by decide!))
  · simp only [User, List.forall_mem_cons, User_ResourceType_gormSettings]
    decide!
  · simp only [Team, List.forall_mem_cons, Team_ResourceType_gormSettings]
    decide!
  · simp only [Project, List.forall_mem_cons, Project_ResourceType_gormSettings,
      Project_DefaultView_gormSettings]
    decide!
  · simp only [Section, List.forall_mem_cons, Section_ResourceType_gormSettings]
    decide!
  · simp only [Task, List.forall_mem_cons, Task_ResourceType_gormSettings]
    decide!

set_option synthInstance.maxSize 4000 in
set_option synthInstance.maxHeartbeats 400000 in
/-- No gorm default is readable on the fields listed in `gormFailures`. -/
theorem gormDefault_of_failures :
    ∀ s ∈ structs, ∀ f ∈ s.fields, (s.name, f.name) ∈ gormFailures →
      gormSetting f "DEFAULT" = none := by
  refine forall_structs ?_ ?_ ?_ ?_ ?_
    (forall_mem_of_take_drop 10 _ (by decide!) (by decide!))
  · simp only [User, List.forall_mem_cons, User_ResourceType_gormSetting]
    decide!
  · simp only [Team, List.forall_mem_cons, Team_ResourceType_gormSetting]
    decide!
  · simp only [Project, List.forall_mem_cons, Project_ResourceType_gormSetting,
      Project_DefaultView_gormSetting]
    decide!
  · simp only [Section, List.forall_mem_cons, Section_ResourceType_gormSetting]
    decide!
  · simp only [Task, List.forall_mem_cons, Task_ResourceType_gormSetting]
    decide!

/-- C23: 68 fields carry a gorm key, and for each of them the scan of
`Lookup` finds the quoted gorm value; `Lookup` returns no value for exactly
seven of them, the `ResourceType` of `Workspace`, `User`, `Team`, `Project`,
`Section`, `Task` and `Project.DefaultView`; the gorm value of the first has
the escape `\'`, that of the other six a raw newline (three of them the escape
as well); for the seven no gorm setting, so no `default`, is readable. -/
theorem gorm_lookup_fails_on_seven :
    (structs.flatMap fun s => s.fields.filter carriesGorm).length = 68 ∧
    (∀ s ∈ structs, ∀ f ∈ s.fields, carriesGorm f = (rawValue f.tag "gorm").isSome) ∧
    (∀ s ∈ structs, ∀ f ∈ s.fields, carriesGorm f = true →
      ((Lookup f.tag "gorm").isNone = true ↔ (s.name, f.name) ∈ gormFailures)) ∧
    (structs.flatMap fun s =>
        (s.fields.filter fun f => carriesGorm f && (Lookup f.tag "gorm").isNone).map fun f =>
          (s.name, f.name, gormValueFlaws f)) =
      [("Workspace", "ResourceType", some (false, true)),
       ("User", "ResourceType", some (true, false)),
       ("Team", "ResourceType", some (true, false)),
       ("Project", "ResourceType", some (true, false)),
       ("Project", "DefaultView", some (true, true)),
       ("Section", "ResourceType", some (true, true)),
       ("Task", "ResourceType", some (true, true))] ∧
    (∀ s ∈ structs, ∀ f ∈ s.fields, (s.name, f.name) ∈ gormFailures →
      (gormSettings f).isEmpty = true) ∧
    (∀ s ∈ structs, ∀ f ∈ s.fields, (s.name, f.name) ∈ gormFailures →
      gormSetting f "DEFAULT" = none) :=
  ⟨carriesGorm_iff_scanned.1, carriesGorm_iff_scanned.2, lookup_gorm_isNone_iff,
    gormValueFlaws_of_failures, gormSettings_of_failures, gormDefault_of_failures⟩

/-- C23, at `User.ResourceType`, which carries a gorm key: `Lookup` returns no
value for it. -/
theorem gorm_lookup_fails_on_user :
    ∀ f ∈ User.field "ResourceType", (Lookup f.tag "gorm").isNone = true := by
  intro f hf
  have hmem : f ∈ User.fields := by
    have hfind : User.fields.find? (fun g => g.name == "ResourceType") = some f := hf
    exact List.mem_of_find?_eq_some hfind
  have hname : f.name = "ResourceType" := by
    have hfind : User.fields.find? (fun g => g.name == "ResourceType") = some f := hf
    have := List.find?_some hfind
    simpa using this
  have hcar : carriesGorm f = true := by
    have hall : ∀ g ∈ User.fields, g.name = "ResourceType" → carriesGorm g = true := by
      decide!
    exact hall f hmem hname
  have hin : (User.name, f.name) ∈ gormFailures := by
    rw [hname]
    decide
  exact (gorm_lookup_fails_on_seven.2.2.1 User (by simp [structs]) f hmem hcar).mpr hin

end Pulsar
